import Mathlib

/-!
# pasantia_mid: offer and application state machine

Shallow embedding of the state-transition orchestration layer of the
repository (`services/oferta_service.go`, `services/postulacion_service.go`,
`internal/services/ofertas_service.go`, `internal/services/postulaciones_service.go`,
`internal/clients/castor_crud_client.go`, `helpers/errors.go`).

Modelling decisions, all visible in the definitions below:

* The upstream CRUD service is a typed record store (`Mundo`). A request either
  fails with the error chosen by the environment (`Entorno.respuesta`, indexed
  by the number of requests issued so far) and leaves the store untouched, or
  succeeds with the usual store semantics: get-by-id returns the record with
  that id (HTTP 404 when there is none), list-by-filter returns exactly the
  matching records, a PUT replaces the record with that id, a POST appends.
* A typed record holds the keys of the stored object that the record type of the
  gateway reading it decodes. `CastorCRUDClient.UpdatePostulacionEstado` is the one
  write that edits the fetched object by key: the keys it sets, `estado_postulacion`
  and `fecha_estado`, are not keys `postulacionRecord` decodes, so its PUT is a
  request of its own kind (`Peticion.putPostulacionMapa`) that stores the typed keys
  as they were fetched. The stored objects themselves are the subject of the section
  on JSON documents.
* Every write request that is issued (whatever its outcome) is appended to
  `Mundo.escrituras`, in chronological order.
* `helpers.DoJSON` with its internal retries counts as one request.
* Go `int`/`int64` identifiers are `Int`; they are only compared, never computed with.
* The Unicode tables of the Go standard library are a parameter (`Unicode`);
  the ASCII part of `strings.ToUpper` and `strings.EqualFold` is spelled out.
* Iteration over a Go map has unspecified order: the order is chosen by the
  environment (`Entorno.orden`), any permutation being allowed.
* Timestamps, résumé links and other fields no embedded branch looks at are
  not carried in the records.
-/

namespace Pasantia

/-! ## Strings -/

/-- Tables of package `unicode` for runes above `unicode.MaxASCII`. -/
structure Unicode where
  /-- Upper-case mapping `unicode.ToUpper` for runes above `MaxASCII`. -/
  upper : Char → Char
  /-- Outcome of the `unicode.SimpleFold` orbit walk of `strings.EqualFold`
  for two distinct runes `sr < tr` where `tr` is not ASCII. -/
  fold : Char → Char → Bool

/-- Predicate `unicode.IsSpace`. -/
def isSpace (c : Char) : Bool :=
  let n := c.toNat
  (9 ≤ n && n ≤ 13) || n == 32 || n == 0x85 || n == 0xA0 || n == 0x1680 ||
  (0x2000 ≤ n && n ≤ 0x200A) || n == 0x2028 || n == 0x2029 || n == 0x202F ||
  n == 0x205F || n == 0x3000

/-- Go `strings.TrimSpace`. -/
def trimSpace (s : String) : String :=
  ⟨((s.data.dropWhile isSpace).reverse.dropWhile isSpace).reverse⟩

/-- Go `unicode.ToUpper`. -/
def toUpperRune (u : Unicode) (c : Char) : Char :=
  if c.toNat < 128 then
    (if 97 ≤ c.toNat ∧ c.toNat ≤ 122 then Char.ofNat (c.toNat - 32) else c)
  else u.upper c

/-- Go `strings.ToUpper`. -/
def toUpper (u : Unicode) (s : String) : String := ⟨s.data.map (toUpperRune u)⟩

/-- One step of `strings.EqualFold`: do the runes `a` and `b` match under case folding. -/
def foldRune (u : Unicode) (a b : Char) : Bool :=
  if a = b then true
  else
    let sr := if b.toNat < a.toNat then b else a
    let tr := if b.toNat < a.toNat then a else b
    if tr.toNat < 128 then
      (65 ≤ sr.toNat && sr.toNat ≤ 90 && tr.toNat == sr.toNat + 32)
    else u.fold sr tr

/-- Rune-wise walk of `strings.EqualFold`. -/
def equalFoldRunes (u : Unicode) : List Char → List Char → Bool
  | [], [] => true
  | a :: s, b :: t => foldRune u a b && equalFoldRunes u s t
  | _, _ => false

/-- Go `strings.EqualFold`. -/
def equalFold (u : Unicode) (s t : String) : Bool := equalFoldRunes u s.data t.data

/-! ## State codes (`models/estados.go`, `internal/services/ofertas_service.go`) -/

abbrev OfertaEstadoCreada : String := "OPC_CTR"
abbrev OfertaEstadoCancelada : String := "OPCAN_CTR"
abbrev OfertaEstadoEnCurso : String := "OPCUR_CTR"
abbrev OfertaEstadoPausada : String := "OPPAU_CTR"
abbrev OfertaEstadoFinalizada : String := "OPFIN_CTR"
abbrev PostEstadoEnviada : String := "PPE_CTR"
abbrev PostEstadoDescartada : String := "PSRJ_CTR"
abbrev PostEstadoAceptada : String := "PSAC_CTR"
abbrev PostEstadoPorRevisar : String := "PSPO_CTR"
abbrev PostEstadoRevisada : String := "PSRV_CTR"
abbrev PostEstadoRechazada : String := "PSRJ_CTR"
abbrev PostEstadoSeleccionada : String := "PSSE_CTR"

abbrev accionVisto : String := "VISTO"
abbrev accionDescartar : String := "DESCARTAR"
abbrev accionPreseleccionar : String := "PRESELECCIONAR"
abbrev accionSeleccionar : String := "SELECCIONAR"
abbrev defaultPreselect : String := "PSPR_CTR"

/-! ## Errors (`helpers/errors.go`, `helpers/http_client.go`) -/

/-- Errors returned by `helpers.DoJSON`: a non-2xx answer (`*HTTPError`) or any
other transport, decoding or `Success=false` failure. -/
inductive UpErr where
  | http (status : Nat) (body : String)
  | otro (msg : String)
  deriving DecidableEq, Repr

/-- Go `error` values met in the embedded code: `*helpers.AppError` (status and
message; the wrapped cause is not carried), an error of `helpers.DoJSON`, or
the `ctx.Err()` of a cancelled context. -/
inductive Err where
  | app (status : Nat) (message : String)
  | up (e : UpErr)
  | ctx
  deriving DecidableEq, Repr

/-- Go `helpers.AsAppError`. -/
def AsAppError (err : Err) (defaultMessage : String) : Err :=
  match err with
  | .app s m => .app s m
  | _ => .app 500 (if defaultMessage = "" then "error inesperado" else defaultMessage)

/-! ## Records -/

/-- Row of the upstream resource `postulacion` (`castorPostulacion`,
`postulacionRecord`); `OfertaPasantiaId` is `none` when the field is absent or null. -/
structure CastorPostulacion where
  Id : Int
  EstudianteId : Int
  OfertaPasantiaId : Option Int
  EstadoPostulacion : String
  deriving DecidableEq, Repr

/-- Go `models.Postulacion`. -/
structure Postulacion where
  Id : Int
  EstudianteId : Int
  OfertaId : Int
  EstadoPostulacion : String
  deriving DecidableEq, Repr

/-- Row of the upstream resource `oferta_pasantia` (`castorOferta`). -/
structure CastorOferta where
  Id : Int
  Titulo : String
  Descripcion : String
  Estado : String
  EmpresaId : Int
  TutorExternoId : Int
  FechaPublicacion : String
  ProyectoCurricularIds : List Int
  deriving DecidableEq, Repr

/-- Go `models.Oferta` (the parsed publication date is not carried). -/
structure Oferta where
  Id : Int
  Titulo : String
  Descripcion : String
  Estado : String
  EmpresaId : Int
  TutorExternoId : Int
  ProyectoCurricularIds : List Int
  deriving DecidableEq, Repr

/-- Body of the full-record PUT built by `UpdateOfertaMerge`; the two optional
keys are present only when the fetched record has them. -/
structure OfertaPayload where
  Id : Int
  Titulo : String
  Descripcion : String
  Estado : String
  EmpresaId : Int
  TutorExternoId : Int
  FechaPublicacion : Option String
  ProyectoCurricularIds : Option (List Int)
  deriving DecidableEq, Repr

/-- Body of the POST to `postulacion_revision` (audit entry). -/
structure Revision where
  TutorId : Int
  PostulacionId : Int
  Accion : String
  Comentario : Option String
  deriving DecidableEq, Repr

/-- Body of the POST to `postulacion` (the keys `EstudianteId`,
`OfertaPasantiaId.Id`, `EstadoPostulacion` and the optional `EnlaceDocHv`). -/
structure NuevaPostulacion where
  EstudianteId : Int
  OfertaId : Int
  EstadoPostulacion : String
  EnlaceDocHv : Option String
  deriving DecidableEq, Repr

/-- Row of `estudiante_perfil`, as far as `mapPerfilRecord` and
`extractCvDocumentoID` read it. -/
structure PerfilRecord where
  Id : Int
  TerceroId : Int
  CvDocumentoId : String
  Visible : Bool
  deriving DecidableEq, Repr

/-- Body of the PUT to `estudiante_perfil/<id>` built by `actualizarPerfil`: each key is
present only when the payload sets it (`FechaModificacion` is not carried). -/
structure PerfilCambio where
  ProyectoCurricularId : Option Int
  Resumen : Option String
  Habilidades : Option String
  CvDocumentoId : Option String
  Visible : Option Bool
  TratamientoDatosAceptado : Option Bool
  deriving DecidableEq, Repr

/-- Body of the POST to `estudiante_perfil` built by `crearPerfil` (the dates are not
carried). -/
structure PerfilNuevo where
  TerceroId : Int
  ProyectoCurricularId : Int
  Visible : Bool
  TratamientoDatosAceptado : Bool
  Resumen : Option String
  Habilidades : Option String
  CvDocumentoId : Option String
  deriving DecidableEq, Repr

/-- Write requests sent upstream. -/
inductive Peticion where
  | putPostulacion (id : Int) (body : CastorPostulacion)
  | putOferta (id : Int) (body : OfertaPayload)
  | postRevision (body : Revision)
  | postPostulacion (body : NuevaPostulacion)
  | putPerfil (id : Int) (body : PerfilCambio)
  | postPerfil (body : PerfilNuevo)
  /-- The PUT of `CastorCRUDClient.UpdatePostulacionEstado`: the object fetched for the
  row `current`, with the key `estado_postulacion` set to the given code (and the key
  `fecha_estado` to the time of the call, which is not carried). -/
  | putPostulacionMapa (id : Int) (current : CastorPostulacion) (estado_postulacion : String)
  deriving DecidableEq, Repr

/-! ## Environment and upstream state -/

/-- What the code cannot control: the Unicode tables, the outcome of each
upstream request, the cancellation of the request context, the iteration order
of Go maps and the process environment. -/
structure Entorno where
  unicode : Unicode
  /-- Outcome of the request number `n`: `none` is success. -/
  respuesta : Nat → Option UpErr
  /-- Is the context done when checked after `n` requests. -/
  cancelado : Nat → Bool
  /-- Order in which `range` visits the keys of a map. -/
  orden : List Int → List Int
  orden_perm : ∀ l, (orden l).Perm l
  /-- Value of `POSTULACION_PRESELECCION_CODIGO`. -/
  preseleccionEnv : String
  /-- Does the upstream honour the `Id__ne` clause of a listing. -/
  honraNe : Bool := true
  /-- Identifier the upstream gives to a created application. -/
  nuevoId : List CastorPostulacion → Int :=
    fun l => (l.map (fun r => r.Id)).foldl max 0 + 1
  /-- Outcome of `HomologarAcademicaToOikos` for a curricular project code. -/
  homologacion : Int → Except Err Int := fun codigo => .ok codigo
  /-- Outcome of `Documentos.Exists` for a document id. -/
  documentoExiste : String → Except Err Bool := fun _ => .ok true
  /-- Has the object the upstream sends for a row no member at all (`len(current) == 0`
  once it is decoded into a map). -/
  sinMiembros : CastorPostulacion → Bool := fun _ => false
  /-- An object without members decodes to the row of zero values. -/
  sinMiembros_cero : ∀ r, sinMiembros r = true → r = ⟨0, 0, none, ""⟩ := by
    intro r h
    simp at h

/-- State of the upstream store, with the log of the write requests issued and
the number of requests issued so far. -/
structure Mundo where
  postulaciones : List CastorPostulacion
  ofertas : List CastorOferta
  revisiones : List Revision
  escrituras : List Peticion
  reloj : Nat
  perfiles : List PerfilRecord := []

/-- A computation against the upstream store: the result and the store after it,
also when it fails. -/
def Op (α : Type) : Type := Mundo → Except Err α × Mundo

/-- Sequencing with Go's `if err != nil { return err }`. -/
def Op.bind {α β : Type} (m : Op α) (f : α → Op β) : Op β := fun w =>
  match m w with
  | (.error e, w1) => (.error e, w1)
  | (.ok a, w1) => f a w1

instance : Monad Op where
  pure a := fun w => (.ok a, w)
  bind := Op.bind

/-- Return `err`. -/
def fallar {α : Type} (err : Err) : Op α := fun w => (.error err, w)

/-- Go `x, err := m; if err != nil { return helpers.AsAppError(err, msg) }`. -/
def comoAppError {α : Type} (m : Op α) (msg : String) : Op α := fun w =>
  match m w with
  | (.error e, w1) => (.error (AsAppError e msg), w1)
  | (.ok a, w1) => (.ok a, w1)

/-- One round trip of `helpers.DoJSON`: the environment decides whether it fails. -/
def peticion (e : Entorno) : Op Unit := fun w =>
  match e.respuesta w.reloj with
  | some err => (.error (.up err), { w with reloj := w.reloj + 1 })
  | none => (.ok (), { w with reloj := w.reloj + 1 })

/-- Go `ctxErr` of `castor_crud_client.go`. -/
def ctxErr (e : Entorno) : Op Unit := fun w =>
  if e.cancelado w.reloj then (.error .ctx, w) else (.ok (), w)

/-- A read whose failure the caller ignores (`GetParametroByCodeNoCache` inside
`mapOferta` and `resolveEstadoNombre`). -/
def consultaIgnorada : Op Unit := fun w => (.ok (), { w with reloj := w.reloj + 1 })

/-! ## Upstream store operations -/

/-- `GET postulacion/<id>`. -/
def getPostulacionCrud (e : Entorno) (id : Int) : Op CastorPostulacion := do
  peticion e
  fun w =>
    match w.postulaciones.find? (fun r => decide (r.Id = id)) with
    | some r => (.ok r, w)
    | none => (.error (.up (.http 404 "")), w)

/-- `PUT postulacion/<id>`. -/
def putPostulacionCrud (e : Entorno) (id : Int) (body : CastorPostulacion) : Op Unit := do
  (fun w => (.ok (), { w with escrituras := w.escrituras ++ [.putPostulacion id body] }))
  peticion e
  fun w => (.ok (), { w with
    postulaciones := w.postulaciones.map (fun r => if r.Id = id then body else r) })

/-- `PUT postulacion/<id>` with the fetched object `current` in which
`estado_postulacion` (and `fecha_estado`) were set: the keys of the typed row are stored as
they were fetched. -/
def putPostulacionMapaCrud (e : Entorno) (id : Int) (current : CastorPostulacion)
    (estado : String) : Op Unit := do
  (fun w => (.ok (), { w with
    escrituras := w.escrituras ++ [.putPostulacionMapa id current estado] }))
  peticion e
  fun w => (.ok (), { w with
    postulaciones := w.postulaciones.map (fun r => if r.Id = id then current else r) })

/-- `GET postulacion?query=...`: the rows satisfying the filter. -/
def listPostulacionesCrud (e : Entorno) (filtro : CastorPostulacion → Bool) :
    Op (List CastorPostulacion) := do
  peticion e
  fun w => (.ok (w.postulaciones.filter filtro), w)

/-- `POST postulacion_revision`. -/
def postRevisionCrud (e : Entorno) (body : Revision) : Op Unit := do
  (fun w => (.ok (), { w with escrituras := w.escrituras ++ [.postRevision body] }))
  peticion e
  fun w => (.ok (), { w with revisiones := w.revisiones ++ [body] })

/-- `GET oferta_pasantia/<id>`. -/
def getOfertaCrud (e : Entorno) (id : Int) : Op CastorOferta := do
  peticion e
  fun w =>
    match w.ofertas.find? (fun r => decide (r.Id = id)) with
    | some r => (.ok r, w)
    | none => (.error (.up (.http 404 "")), w)

/-- Row stored upstream for a PUT body: an absent optional key is the zero value. -/
def OfertaPayload.fila (p : OfertaPayload) : CastorOferta :=
  { Id := p.Id, Titulo := p.Titulo, Descripcion := p.Descripcion, Estado := p.Estado,
    EmpresaId := p.EmpresaId, TutorExternoId := p.TutorExternoId,
    FechaPublicacion := p.FechaPublicacion.getD "",
    ProyectoCurricularIds := p.ProyectoCurricularIds.getD [] }

/-- `PUT oferta_pasantia/<id>`: answers with the stored row. -/
def putOfertaCrud (e : Entorno) (id : Int) (body : OfertaPayload) : Op CastorOferta := do
  (fun w => (.ok (), { w with escrituras := w.escrituras ++ [.putOferta id body] }))
  peticion e
  fun w => (.ok body.fila, { w with
    ofertas := w.ofertas.map (fun r => if r.Id = id then body.fila else r) })

/-! ## `services/postulacion_service.go` -/

/-- Go `mapCastorPostulacion`. -/
def mapCastorPostulacion (raw : CastorPostulacion) : Postulacion :=
  { Id := raw.Id, EstudianteId := raw.EstudianteId,
    OfertaId := raw.OfertaPasantiaId.getD 0,
    EstadoPostulacion := trimSpace raw.EstadoPostulacion }

/-- Go `ListPostulacionesByOferta`. -/
def ListPostulacionesByOferta (e : Entorno) (ofertaID : Int) : Op (List Postulacion) := do
  let raw ← listPostulacionesCrud e (fun r => decide (r.OfertaPasantiaId = some ofertaID))
  pure (raw.map mapCastorPostulacion)

/-- Go `ListPostulacionesByEstudiante`. -/
def ListPostulacionesByEstudiante (e : Entorno) (estudianteID : Int) :
    Op (List Postulacion) := do
  let raw ← listPostulacionesCrud e (fun r => decide (r.EstudianteId = estudianteID))
  pure (raw.map mapCastorPostulacion)

/-- Go `GetPostulacion`. -/
def GetPostulacion (e : Entorno) (id : Int) : Op Postulacion := do
  let raw ← getPostulacionCrud e id
  pure (mapCastorPostulacion raw)

/-- Go `updatePostulacionEstado`: GET the row, set the state, PUT it back. -/
def updatePostulacionEstado (e : Entorno) (id : Int) (estado : String) : Op Unit := do
  let raw ← getPostulacionCrud e id
  putPostulacionCrud e id
    { raw with EstadoPostulacion := toUpper e.unicode (trimSpace estado) }

/-- Keys of the map `unique` built by `updatePostulacionEstadoBulk`. -/
def uniqueIds (ids : List Int) : List Int := (ids.filter (fun id => decide (id ≠ 0))).dedup

/-- The loop `for id := range unique` of `updatePostulacionEstadoBulk`. -/
def updateEach (e : Entorno) (estado : String) : List Int → Op Unit
  | [] => pure ()
  | id :: rest => do
    updatePostulacionEstado e id estado
    updateEach e estado rest

/-- Go `updatePostulacionEstadoBulk`. -/
def updatePostulacionEstadoBulk (e : Entorno) (ids : List Int) (estado : String) : Op Unit :=
  if ids.length = 0 then pure ()
  else updateEach e estado (e.orden (uniqueIds ids))

/-- Go `SeleccionarPostulacion`. -/
def SeleccionarPostulacion (e : Entorno) (id : Int) : Op Postulacion := do
  updatePostulacionEstado e id PostEstadoSeleccionada
  GetPostulacion e id

/-- Go `DescartarPostulacion`. -/
def DescartarPostulacion (e : Entorno) (id : Int) : Op Postulacion := do
  updatePostulacionEstado e id PostEstadoDescartada
  GetPostulacion e id

/-! ## `services/oferta_service.go` -/

/-- Go `mapCastorOferta`. -/
def mapCastorOferta (raw : CastorOferta) : Oferta :=
  { Id := raw.Id, Titulo := trimSpace raw.Titulo, Descripcion := trimSpace raw.Descripcion,
    Estado := trimSpace raw.Estado, EmpresaId := raw.EmpresaId,
    TutorExternoId := raw.TutorExternoId,
    ProyectoCurricularIds := raw.ProyectoCurricularIds }

/-- Go `GetOferta`. -/
def GetOferta (e : Entorno) (id : Int) : Op Oferta := do
  let raw ← getOfertaCrud e id
  pure (mapCastorOferta raw)

/-- Go `applyPatch` on the one-key patch `{"Estado": estado}` that `ChangeOfertaEstado` passes. -/
def applyPatchEstado (u : Unicode) (payload : OfertaPayload) (estado : String) : OfertaPayload :=
  if trimSpace estado ≠ "" then { payload with Estado := toUpper u (trimSpace estado) }
  else payload

/-- Go `UpdateOfertaMerge` with the patch `{"Estado": estado}`. -/
def UpdateOfertaMerge (e : Entorno) (id : Int) (estado : String) : Op Oferta := do
  let raw ← getOfertaCrud e id
  if raw.Id = 0 then fallar (.app 404 "oferta no encontrada")
  else if trimSpace raw.Titulo = "" ∨ raw.EmpresaId = 0 then
    fallar (.app 409 "oferta inválida para actualización")
  else
    let payload : OfertaPayload :=
      { Id := raw.Id, Titulo := raw.Titulo, Descripcion := raw.Descripcion,
        Estado := toUpper e.unicode (trimSpace raw.Estado),
        EmpresaId := raw.EmpresaId, TutorExternoId := raw.TutorExternoId,
        FechaPublicacion :=
          if trimSpace raw.FechaPublicacion ≠ "" then some (trimSpace raw.FechaPublicacion)
          else none,
        ProyectoCurricularIds :=
          if raw.ProyectoCurricularIds.length > 0 then some raw.ProyectoCurricularIds
          else none }
    let updated ← putOfertaCrud e id (applyPatchEstado e.unicode payload estado)
    pure (mapCastorOferta updated)

/-- States closed by `cancelarOferta` (the map `estadosActivos`). -/
def estadosActivos : List String := ["PSPO_CTR", "PSRV_CTR", "PSPR_CTR", "PSAC_CTR"]

/-- The filter loop of `cancelarOferta`. -/
def idsActivos (u : Unicode) (postulaciones : List Postulacion) : List Int :=
  (postulaciones.filter
    (fun p => decide (toUpper u (trimSpace p.EstadoPostulacion) ∈ estadosActivos))).map
    (fun p => p.Id)

/-- Go `cancelarOferta`. -/
def cancelarOferta (e : Entorno) (ofertaID : Int) : Op Unit := do
  let postulaciones ← ListPostulacionesByOferta e ofertaID
  if postulaciones.length = 0 then pure ()
  else
    let ids := idsActivos e.unicode postulaciones
    if ids.length = 0 then pure ()
    else updatePostulacionEstadoBulk e ids "PSCD_CTR"

/-- The classification loop of `validarOfertaEnCurso`: the accepted application
seen so far and the ids to discard, or the conflict on a second accepted one. -/
def clasificar (u : Unicode) :
    List Postulacion → Option Postulacion → List Int →
      Except Err (Option Postulacion × List Int)
  | [], aceptada, descartables => .ok (aceptada, descartables)
  | p :: ps, aceptada, descartables =>
    if toUpper u (trimSpace p.EstadoPostulacion) = PostEstadoAceptada then
      match aceptada with
      | some _ => .error (.app 409 "la oferta tiene más de una postulación aceptada")
      | none => clasificar u ps (some p) descartables
    else if toUpper u (trimSpace p.EstadoPostulacion) = PostEstadoDescartada then
      clasificar u ps aceptada descartables
    else clasificar u ps aceptada (descartables ++ [p.Id])

/-- The filter loop of `descartarPostulacionesDelEstudiante`. -/
def idsDelEstudiante (u : Unicode) (aceptada : Postulacion) (todas : List Postulacion) :
    List Int :=
  (todas.filter (fun p => !(decide (p.Id = aceptada.Id)) &&
      !(equalFold u p.EstadoPostulacion PostEstadoDescartada))).map (fun p => p.Id)

/-- Go `descartarPostulacionesDelEstudiante`. -/
def descartarPostulacionesDelEstudiante (e : Entorno) (aceptada : Postulacion) : Op Unit := do
  let todas ← ListPostulacionesByEstudiante e aceptada.EstudianteId
  let ids := idsDelEstudiante e.unicode aceptada todas
  if ids.length = 0 then pure ()
  else updatePostulacionEstadoBulk e ids PostEstadoDescartada

/-- The end of `validarOfertaEnCurso`, once the accepted application and the
ids to discard are known: the two cascades. -/
def cascadaEnCurso (e : Entorno) (aceptada : Postulacion) (descartables : List Int) :
    Op Unit := do
  (if descartables.length > 0 then
    updatePostulacionEstadoBulk e descartables PostEstadoDescartada
  else pure ())
  descartarPostulacionesDelEstudiante e aceptada

/-- Go `validarOfertaEnCurso`. -/
def validarOfertaEnCurso (e : Entorno) (ofertaID : Int) : Op Unit := do
  let postulaciones ← ListPostulacionesByOferta e ofertaID
  match clasificar e.unicode postulaciones none [] with
  | .error err => fallar err
  | .ok (none, _) =>
    fallar (.app 409 "la oferta requiere una postulación aceptada para pasar a curso")
  | .ok (some aceptada, descartables) => cascadaEnCurso e aceptada descartables

/-- Go `ChangeOfertaEstado`. -/
def ChangeOfertaEstado (e : Entorno) (id : Int) (estado : String) : Op Oferta :=
  let normalized := toUpper e.unicode (trimSpace estado)
  if normalized = "" then fallar (.app 400 "estado requerido")
  else if normalized = OfertaEstadoCreada then UpdateOfertaMerge e id normalized
  else if normalized = OfertaEstadoCancelada then do
    cancelarOferta e id
    UpdateOfertaMerge e id normalized
  else if normalized = OfertaEstadoEnCurso then do
    validarOfertaEnCurso e id
    UpdateOfertaMerge e id normalized
  else if normalized = OfertaEstadoPausada then UpdateOfertaMerge e id normalized
  else if normalized = "OPFIN_CTR" then UpdateOfertaMerge e id normalized
  else fallar (.app 400 "estado de oferta no soportado")

/-! ## `internal/clients/castor_crud_client.go` -/

/-- Go `mapPostulacion`. -/
def mapPostulacion (raw : CastorPostulacion) : Postulacion :=
  { Id := raw.Id, EstudianteId := raw.EstudianteId,
    OfertaId := raw.OfertaPasantiaId.getD 0,
    EstadoPostulacion := trimSpace raw.EstadoPostulacion }

/-- Go `CastorCRUDClient.GetPostulacionByID`. -/
def GetPostulacionByID (e : Entorno) (id : Int) : Op Postulacion := do
  ctxErr e
  let raw ← getPostulacionCrud e id
  pure (mapPostulacion raw)

/-- Go `CastorCRUDClient.UpdatePostulacionEstado`: the row is fetched into a
`map[string]any`, the new state goes under the key `estado_postulacion` of that map and the
map is sent back. The argument `when` only feeds the key `fecha_estado`. -/
def UpdatePostulacionEstado (e : Entorno) (id : Int) (estado : String) : Op Unit := do
  ctxErr e
  let current ← getPostulacionCrud e id
  if e.sinMiembros current then
    fallar (.app 404 "postulación no encontrada")
  else if current.OfertaPasantiaId = none then
    fallar (.app 400 "postulación sin OfertaPasantiaId")
  else if toUpper e.unicode (trimSpace estado) = "" then
    fallar (.app 400 "estado requerido")
  else
    putPostulacionMapaCrud e id current (toUpper e.unicode (trimSpace estado))

/-- Go `CastorCRUDClient.AddPostulacionRevision`. -/
def AddPostulacionRevision (e : Entorno) (postulacionID : Int) (tutorID : Int)
    (accion comentario : String) : Op Unit := do
  ctxErr e
  postRevisionCrud e
    { TutorId := tutorID, PostulacionId := postulacionID, Accion := trimSpace accion,
      Comentario := if trimSpace comentario ≠ "" then some (trimSpace comentario) else none }

/-! ## `internal/services/ofertas_service.go` -/

/-- Go `normalizeDestino`. -/
def normalizeDestino (u : Unicode) (raw : String) : String :=
  let upper := toUpper u (trimSpace raw)
  if upper = "PAUSAR" ∨ upper = "PAUSADA" then OfertaEstadoPausada
  else if upper = "REACTIVAR" ∨ upper = "ABIERTA" ∨ upper = "CREADA" then OfertaEstadoCreada
  else if upper = "FINALIZAR" ∨ upper = "FINALIZADA" then OfertaEstadoFinalizada
  else upper

/-- Go `mapOferta`: the label lookup is a read whose failure is ignored; the
result is represented by the offer itself. -/
def mapOferta (oferta : Oferta) : Op Oferta := do
  (if trimSpace oferta.Estado ≠ "" then consultaIgnorada else pure ())
  pure oferta

/-- Go `CambiarEstadoOferta`. -/
def CambiarEstadoOferta (e : Entorno) (tutorID ofertaID : Int) (destino : String) :
    Op Oferta := do
  let current ← comoAppError (GetOferta e ofertaID) "error consultando oferta"
  if current.TutorExternoId ≠ tutorID then
    fallar (.app 403 "no autorizado para gestionar esta oferta")
  else
    let normalized := normalizeDestino e.unicode destino
    if equalFold e.unicode (trimSpace current.Estado) (trimSpace normalized) then
      mapOferta current
    else if normalized = OfertaEstadoCancelada then do
      let updated ← comoAppError (ChangeOfertaEstado e ofertaID OfertaEstadoCancelada)
        "error actualizando oferta"
      mapOferta updated
    else if normalized = OfertaEstadoEnCurso then do
      let updated ← comoAppError (ChangeOfertaEstado e ofertaID OfertaEstadoEnCurso)
        "error actualizando oferta"
      mapOferta updated
    else if normalized = OfertaEstadoPausada then do
      let updated ← comoAppError (ChangeOfertaEstado e ofertaID OfertaEstadoPausada)
        "error actualizando oferta"
      mapOferta updated
    else if normalized = OfertaEstadoCreada then do
      let updated ← comoAppError (ChangeOfertaEstado e ofertaID OfertaEstadoCreada)
        "error actualizando oferta"
      mapOferta updated
    else if normalized = OfertaEstadoFinalizada then do
      let updated ← comoAppError (ChangeOfertaEstado e ofertaID OfertaEstadoFinalizada)
        "error actualizando oferta"
      mapOferta updated
    else fallar (.app 400 "estado destino no soportado")

/-! ## `internal/services/postulaciones_service.go` -/

/-- Go `accionValida`. -/
def accionValida (accion : String) : Bool :=
  accion = accionVisto ∨ accion = accionDescartar ∨ accion = accionPreseleccionar ∨
    accion = accionSeleccionar

/-- Go `estadoFinal`. -/
def estadoFinal (u : Unicode) (estado : String) : Bool :=
  let s := toUpper u (trimSpace estado)
  s = PostEstadoSeleccionada ∨ s = PostEstadoAceptada ∨ s = PostEstadoDescartada

/-- Go `obtenerPreselectCodigo`. -/
def obtenerPreselectCodigo (e : Entorno) : String :=
  let code := trimSpace e.preseleccionEnv
  toUpper e.unicode (if code = "" then defaultPreselect else code)

/-- Go `registrarRevision`. -/
def registrarRevision (e : Entorno) (tutorID postulacionID : Int) (accion : String)
    (comentario : Option String) : Op Unit :=
  let note := match comentario with
    | some c => trimSpace c
    | none => ""
  comoAppError (AddPostulacionRevision e postulacionID tutorID accion note)
    "error registrando revision de postulacion"

/-- Go `resolveEstadoNombre`, for its effect only: one ignored read unless the code is blank. -/
def resolveEstadoNombre (u : Unicode) (code : String) : Op Unit :=
  if toUpper u (trimSpace code) ≠ "" then consultaIgnorada else pure ()

/-- Go `internaldto.PostulacionAccion`. -/
structure PostulacionAccion where
  Accion : String
  Comentario : Option String

/-- The `switch accion` of `EjecutarAccionPostulacion`. -/
def ejecutarSwitch (e : Entorno) (tutorID postulacionID : Int) (accion : String)
    (comentario : Option String) (estadoActual : String) : Op Unit :=
  if accion = accionVisto then
    (if estadoActual = PostEstadoPorRevisar then
      UpdatePostulacionEstado e postulacionID PostEstadoRevisada
    else pure ())
  else if accion = accionDescartar then do
    registrarRevision e tutorID postulacionID accion comentario
    let _ ← DescartarPostulacion e postulacionID
    pure ()
  else if accion = accionSeleccionar then do
    registrarRevision e tutorID postulacionID accion comentario
    let _ ← SeleccionarPostulacion e postulacionID
    pure ()
  else if accion = accionPreseleccionar then do
    registrarRevision e tutorID postulacionID accion comentario
    UpdatePostulacionEstado e postulacionID (obtenerPreselectCodigo e)
  else pure ()

/-- The end of `EjecutarAccionPostulacion`: read the application back and build the answer. -/
def ejecutarRespuesta (e : Entorno) (postulacionID : Int) : Op Postulacion := do
  let updated ← comoAppError (GetPostulacionByID e postulacionID)
    "error consultando postulación actualizada"
  resolveEstadoNombre e.unicode (toUpper e.unicode (trimSpace updated.EstadoPostulacion))
  pure { updated with EstadoPostulacion := trimSpace updated.EstadoPostulacion }

/-- Go `EjecutarAccionPostulacion`; the answer is represented by the application
read back after the action. -/
def EjecutarAccionPostulacion (e : Entorno) (tutorID postulacionID : Int)
    (payload : PostulacionAccion) : Op Postulacion :=
  let accion := toUpper e.unicode (trimSpace payload.Accion)
  if !accionValida accion then fallar (.app 400 "accion no soportada")
  else do
    let postulacion ← comoAppError (GetPostulacionByID e postulacionID)
      "error consultando postulacion"
    let oferta ← comoAppError (GetOferta e postulacion.OfertaId)
      "error consultando oferta asociada"
    if oferta.TutorExternoId ≠ tutorID then
      fallar (.app 403 "no autorizado para gestionar esta postulación")
    else
      let estadoActual := toUpper e.unicode (trimSpace postulacion.EstadoPostulacion)
      if accion = accionDescartar ∧ estadoActual = PostEstadoRechazada then
        fallar (.app 409 "La postulación ya está descartada")
      else if (accion = accionDescartar ∨ accion = accionPreseleccionar) ∧
          estadoFinal e.unicode estadoActual = true then
        fallar (.app 409 "La postulación está en estado final")
      else do
        ejecutarSwitch e tutorID postulacionID accion payload.Comentario estadoActual
        ejecutarRespuesta e postulacionID

/-- Go `MarcarPostulacionVista`. -/
def MarcarPostulacionVista (e : Entorno) (tutorID postulacionID : Int) : Op Postulacion := do
  let postulacion ← comoAppError (GetPostulacionByID e postulacionID)
    "error consultando postulacion"
  let oferta ← comoAppError (GetOferta e postulacion.OfertaId)
    "error consultando oferta asociada"
  if oferta.TutorExternoId ≠ tutorID then
    fallar (.app 403 "no autorizado para gestionar esta postulación")
  else
    let estadoActual := toUpper e.unicode (trimSpace postulacion.EstadoPostulacion)
    if estadoActual = "PSPO_CTR" then do
      comoAppError (UpdatePostulacionEstado e postulacionID "PSRV_CTR")
        "error actualizando estado de postulación"
      fun w =>
        match GetPostulacionByID e postulacionID w with
        | (.ok actualizado, w1) =>
          (.ok { actualizado with
            EstadoPostulacion := trimSpace actualizado.EstadoPostulacion }, w1)
        | (.error _, w1) =>
          (.ok { postulacion with
            EstadoPostulacion := trimSpace postulacion.EstadoPostulacion }, w1)
    else
      pure { postulacion with EstadoPostulacion := trimSpace postulacion.EstadoPostulacion }

/-- Go `x, _ := m` and `_ = m`: the error of `m` is dropped. -/
def ignorar {α : Type} (m : Op α) : Op Unit := fun w => (.ok (), (m w).2)

/-- Go `CastorCRUDClient.ListPostulaciones` for the filter map `AceptarSeleccion`
builds: `EstudianteId`, `Id__ne` and `limit=0`. -/
def CastorCRUDClient.ListPostulaciones (e : Entorno) (estudianteID idNe : Int) :
    Op (List Postulacion) := do
  ctxErr e
  let raw ← listPostulacionesCrud e (fun r =>
    decide (r.EstudianteId = estudianteID) && (!e.honraNe || decide (r.Id ≠ idNe)))
  pure (raw.map mapPostulacion)

/-- The test `AceptarSeleccion` applies to the other applications of the student. -/
def hermanaSeleccionada (u : Unicode) (estado : String) : Bool :=
  equalFold u (trimSpace estado) "SELECCIONADO" ||
    equalFold u (trimSpace estado) PostEstadoSeleccionada

/-- The loop of `AceptarSeleccion` over the other applications of the student. -/
def rechazarOtras (e : Entorno) (postId : Int) : List Postulacion → Op Unit
  | [] => pure ()
  | p :: ps =>
    if p.Id = postId then rechazarOtras e postId ps
    else if hermanaSeleccionada e.unicode p.EstadoPostulacion then do
      ignorar (UpdatePostulacionEstado e p.Id "RECHAZADA_POR_ELECCION")
      ignorar (AddPostulacionRevision e p.Id 0 "RECHAZAR_POR_ELECCION"
        "Rechazada por elección de otra oferta")
      rechazarOtras e postId ps
    else rechazarOtras e postId ps

/-- The state test of `AceptarSeleccion` on the target, on `estadoActual`. -/
def estadoSeleccionado (estadoActual : String) : Bool :=
  decide (estadoActual = "SELECCIONAR") || decide (estadoActual = "SELECCIONADO") ||
    decide (estadoActual = PostEstadoSeleccionada)

/-- What `AceptarSeleccion` does after the update of the target returned without error. -/
def cascadaAceptar (e : Entorno) (estudianteID : Int) (post : Postulacion) : Op Unit :=
  fun w2 =>
    let w3 := (AddPostulacionRevision e post.Id 0 "ACEPTAR_SELECCION"
      "Aceptada por el estudiante" w2).2
    match CastorCRUDClient.ListPostulaciones e estudianteID post.Id w3 with
    | (.error _, w4) => (.ok (), w4)
    | (.ok others, w4) => rechazarOtras e post.Id others w4

/-- Go `AceptarSeleccion`. -/
def AceptarSeleccion (e : Entorno) (estudianteID postulacionID : Int) : Op Unit := fun w =>
  match GetPostulacionByID e postulacionID w with
  | (.error _, w1) => (.error (.app 404 "postulación no encontrada"), w1)
  | (.ok post, w1) =>
    if post.EstudianteId ≠ estudianteID then
      (.error (.app 403 "la postulación no pertenece al estudiante"), w1)
    else if !estadoSeleccionado (toUpper e.unicode (trimSpace post.EstadoPostulacion)) then
      (.error (.app 409 "la postulación no está en estado SELECCIONADO"), w1)
    else
      match UpdatePostulacionEstado e post.Id PostEstadoAceptada w1 with
      | (.error _, w2) => (.error (.app 500 "no fue posible aceptar la selección"), w2)
      | (.ok _, w2) => cascadaAceptar e estudianteID post w2

/-! ## Creating an application -/

/-- `GET postulacion?limit=1&query=EstudianteId:<e>,OfertaPasantiaId.Id:<o>`: the first
row of the pair, if there is one. -/
def listPostulacionesParCrud (e : Entorno) (estudianteID ofertaID : Int) :
    Op (List CastorPostulacion) := do
  peticion e
  fun w => (.ok ((w.postulaciones.filter (fun r =>
    decide (r.EstudianteId = estudianteID) &&
      decide (r.OfertaPasantiaId = some ofertaID))).take 1), w)

/-- `GET estudiante_perfil?limit=1&query=TerceroId:<t>`. -/
def listPerfilesCrud (e : Entorno) (terceroID : Int) : Op (List PerfilRecord) := do
  peticion e
  fun w => (.ok ((w.perfiles.filter (fun r => decide (r.TerceroId = terceroID))).take 1), w)

/-- `POST postulacion`: the upstream stores the row under a new id and answers with it. -/
def postPostulacionCrud (e : Entorno) (body : NuevaPostulacion) : Op CastorPostulacion := do
  (fun w => (.ok (), { w with escrituras := w.escrituras ++ [.postPostulacion body] }))
  peticion e
  fun w =>
    (.ok { Id := e.nuevoId w.postulaciones, EstudianteId := body.EstudianteId,
           OfertaPasantiaId := some body.OfertaId,
           EstadoPostulacion := body.EstadoPostulacion },
      { w with postulaciones := w.postulaciones ++
          [{ Id := e.nuevoId w.postulaciones, EstudianteId := body.EstudianteId,
             OfertaPasantiaId := some body.OfertaId,
             EstadoPostulacion := body.EstadoPostulacion }] })

/-- Go `helpers.IsHTTPError`. -/
def IsHTTPError (err : Err) (status : Nat) : Bool :=
  match err with
  | .up (.http s _) => decide (s = status)
  | _ => false

/-- Go `CastorCRUDClient.GetPerfilByTerceroID`. -/
def GetPerfilByTerceroID (e : Entorno) (terceroID : Int) : Op (Option PerfilRecord) := fun w =>
  match ctxErr e w with
  | (.error err, w1) => (.error err, w1)
  | (.ok _, w1) =>
    match listPerfilesCrud e terceroID w1 with
    | (.error err, w2) => if IsHTTPError err 404 then (.ok none, w2) else (.error err, w2)
    | (.ok records, w2) => (.ok records.head?, w2)

/-- Go `existsPostulacion` of `postulaciones_estudiante_service.go`. -/
def existsPostulacion (e : Entorno) (estudianteID ofertaID : Int) : Op Bool := fun w =>
  match listPostulacionesParCrud e estudianteID ofertaID w with
  | (.error err, w1) =>
    if IsHTTPError err 404 then (.ok false, w1)
    else (.error (AsAppError err "error consultando postulacion"), w1)
  | (.ok records, w1) => (.ok (!records.isEmpty), w1)

/-- The map `PostularOferta` returns (without the date). -/
structure PostulacionCreada where
  id : Int
  estudiante_id : Int
  oferta_id : Int
  estado : String
  deriving DecidableEq, Repr

/-- Go `PostularOferta`, after the profile was read. -/
def postularConPerfil (e : Entorno) (estudianteID ofertaID : Int) (perfil : PerfilRecord) :
    Op PostulacionCreada :=
  existsPostulacion e estudianteID ofertaID >>= fun existe =>
    if existe then fallar (.app 409 "ya existe postulacion")
    else
      comoAppError (postPostulacionCrud e
        { EstudianteId := estudianteID, OfertaId := ofertaID, EstadoPostulacion := "PSPO_CTR",
          EnlaceDocHv := if perfil.CvDocumentoId ≠ "" then some perfil.CvDocumentoId else none })
        "error creando postulacion" >>= fun created =>
      pure { id := created.Id, estudiante_id := estudianteID, oferta_id := ofertaID,
             estado := "PSPO_CTR" }

/-- Go `PostularOferta`. -/
def PostularOferta (e : Entorno) (estudianteID ofertaID : Int) : Op PostulacionCreada :=
  if estudianteID ≤ 0 then fallar (.app 400 "estudiante_id invalido")
  else if ofertaID ≤ 0 then fallar (.app 400 "oferta_id invalido")
  else
    GetPerfilByTerceroID e estudianteID >>= fun perfil =>
      match perfil with
      | none => fallar (.app 404 "perfil no encontrado")
      | some perfil => postularConPerfil e estudianteID ofertaID perfil

/-- Go `models.CreatePostulacionDTO`. -/
structure CreatePostulacionDTO where
  EstudianteId : Int
  OfertaId : Int
  EnlaceDocHv : String
  deriving DecidableEq, Repr

/-- Go `ListPostulaciones` of `services/postulacion_service.go` for the filter map of
`CreatePostulacion`: `estudiante_id`, `oferta_id` and `limit=1`, which overrides the
`limit=0` that `buildPostulacionQuery` sets first. -/
def ListPostulaciones (e : Entorno) (estudianteID ofertaID : Int) : Op (List Postulacion) := do
  let raw ← listPostulacionesParCrud e estudianteID ofertaID
  pure (raw.map mapCastorPostulacion)

/-- The loop of `CreatePostulacion` over `existentes`: the first application that is not
discarded. -/
def primeraVigente (u : Unicode) : List Postulacion → Option Postulacion
  | [] => none
  | existente :: otras =>
    if !equalFold u existente.EstadoPostulacion PostEstadoDescartada then some existente
    else primeraVigente u otras

/-- Go `CreatePostulacion`: the application and the flag `created`. -/
def CreatePostulacion (e : Entorno) (dto : CreatePostulacionDTO) : Op (Postulacion × Bool) :=
  ListPostulaciones e dto.EstudianteId dto.OfertaId >>= fun existentes =>
    match primeraVigente e.unicode existentes with
    | some existente => pure (existente, false)
    | none =>
      postPostulacionCrud e
        { EstudianteId := dto.EstudianteId, OfertaId := dto.OfertaId,
          EstadoPostulacion := PostEstadoEnviada,
          EnlaceDocHv :=
            if trimSpace dto.EnlaceDocHv ≠ "" then some (trimSpace dto.EnlaceDocHv)
            else none } >>= fun created =>
      pure (mapCastorPostulacion created, true)

/-! ## `helpers/http_client.go` -/

/-- Go `unicode.ToLower`; `lower` is the table of package `unicode` for runes above
`unicode.MaxASCII`. -/
def toLowerRune (lower : Char → Char) (c : Char) : Char :=
  if c.toNat < 128 then
    (if 65 ≤ c.toNat ∧ c.toNat ≤ 90 then Char.ofNat (c.toNat + 32) else c)
  else lower c

/-- Go `strings.ToLower`. -/
def toLower (lower : Char → Char) (s : String) : String := ⟨s.data.map (toLowerRune lower)⟩

/-- Go `strings.HasPrefix`. -/
def HasPrefix (s pre : String) : Bool := pre.data.isPrefixOf s.data

/-- Does `sub` occur in `s` at some position. -/
def containsRunes (sub : List Char) : List Char → Bool
  | [] => sub.isEmpty
  | c :: cs => sub.isPrefixOf (c :: cs) || containsRunes sub cs

/-- Go `strings.Contains`. -/
def Contains (s substr : String) : Bool := containsRunes substr.data s.data

/-- The errors an attempt of `DoJSONWithHeaders` returns, as far as `isRetryableErr` tells
them apart: a `*HTTPError`; an error for which `errors.Is` finds `io.EOF` or
`io.ErrUnexpectedEOF`; a `net.Error` with its `Timeout()` and `Temporary()`; any other
error, such as the one of `errors.New` or of `encoding/json`. All but the first carry the
text of `Error()`. -/
inductive ErrIntento where
  | http (Status : Nat) (Body : String)
  | eof (texto : String)
  | red (timeout temporary : Bool) (texto : String)
  | plano (texto : String)
  deriving DecidableEq, Repr

/-- Go `err.Error()`; for `*HTTPError` it is `fmt.Sprintf("HTTP %d: %s", Status, Body)`. -/
def ErrIntento.Error : ErrIntento → String
  | .http status body => "HTTP " ++ toString status ++ ": " ++ body
  | .eof texto => texto
  | .red _ _ texto => texto
  | .plano texto => texto

/-- Go `isRetryableErr` on a non-nil error. -/
def isRetryableErr (lower : Char → Char) (err : ErrIntento) : Bool :=
  match err with
  | .eof _ => true
  | .red true _ _ => true
  | .red _ true _ => true
  | _ =>
    let l := toLower lower err.Error
    if HasPrefix l "http 500" || HasPrefix l "http 502" ||
        HasPrefix l "http 503" || HasPrefix l "http 504" then true
    else
      Contains l "timeout" || Contains l "connection reset" ||
        Contains l "temporary" || Contains l "server closed idle connection"

/-- A value of `time.Duration` or `int64`: the integer `x` wrapped to 64 bits, two's
complement. -/
def wrapInt64 (x : Int) : Int := (x + 2 ^ 63) % 2 ^ 64 - 2 ^ 63

/-- Go `time.Millisecond`, in nanoseconds. -/
def Millisecond : Int := 1000000

/-- The package variables `defaultRetryCount` and `defaultBackoffBase` (nanoseconds). -/
structure Reintentos where
  defaultRetryCount : Nat
  defaultBackoffBase : Int
  deriving DecidableEq, Repr

/-- The initial values of the package variables. -/
def reintentosIniciales : Reintentos :=
  { defaultRetryCount := 0, defaultBackoffBase := 300 * Millisecond }

/-- The package variable `maxBackoff`, which nothing assigns. -/
def maxBackoff : Int := 3 * (1000 * Millisecond)

/-- Go `SetDefaultRetryCount`. -/
def SetDefaultRetryCount (n : Int) (cfg : Reintentos) : Reintentos :=
  { cfg with defaultRetryCount := if n < 0 then 0 else n.toNat }

/-- Go `SetRetryBackoff`. -/
def SetRetryBackoff (baseMs : Int) (cfg : Reintentos) : Reintentos :=
  { cfg with
    defaultBackoffBase := wrapInt64 ((if baseMs ≤ 0 then 300 else baseMs) * Millisecond) }

/-- Go `backoffFor`: the shift is a multiplication by `2 ^ attempt` wrapped to 64 bits. -/
def backoffFor (cfg : Reintentos) (attempt : Nat) : Int :=
  let d := wrapInt64 (cfg.defaultBackoffBase * 2 ^ attempt)
  if d > maxBackoff then maxBackoff else d

/-- Outcome of `json.Unmarshal(bodyBytes, &w)` for a `CrudWrapper`: the decoded fields, an
`UnmarshalTypeError` whose `Type` is `CrudWrapper`, or another error. -/
inductive Sobre (B : Type) where
  | sobre (Success : Bool) (Message : String) (Data : B)
  | errorDeTipo
  | error (err : ErrIntento)

/-- What the code does not control of the bytes `B` of a body and of the value `V` behind
`out`: the text and the length of the bytes and the behaviour of `encoding/json`. -/
structure Codec (B V : Type) where
  /-- Go `string(b)`. -/
  texto : B → String
  /-- Go `len(b) == 0`. -/
  vacio : B → Bool
  /-- Go `json.Unmarshal(b, &w)` with `w` a `CrudWrapper`. -/
  sobre : B → Sobre B
  /-- Go `json.Unmarshal(b, out)`: the error and the value behind `out` afterwards. -/
  unmarshal : B → V → Option ErrIntento × V

/-- A response as `client.Do` delivers it: the status, the bytes `io.ReadAll` yields and
its error. -/
structure RespuestaHTTP (B : Type) where
  StatusCode : Nat
  cuerpo : B
  errLectura : Option ErrIntento

/-- Outcome of `http.NewRequest` and `client.Do` in one attempt. -/
inductive Intento (B : Type) where
  | error (err : ErrIntento)
  | respuesta (resp : RespuestaHTTP B)

/-- Go `doOnce` inside `DoJSONWithHeaders`: the error returned and `out` afterwards;
`out = none` is the nil `out`. -/
def doOnce {B V : Type} (c : Codec B V) (wrapped : Bool) (i : Intento B) (out : Option V) :
    Option ErrIntento × Option V :=
  match i with
  | .error err => (some err, out)
  | .respuesta resp =>
    if resp.StatusCode < 200 ∨ resp.StatusCode > 299 then
      (some (.http resp.StatusCode (trimSpace (c.texto resp.cuerpo))), out)
    else
      match out with
      | none => (none, none)
      | some v =>
        match resp.errLectura with
        | some err => (some err, some v)
        | none =>
          if c.vacio resp.cuerpo then (none, some v)
          else if wrapped then
            match c.sobre resp.cuerpo with
            | .errorDeTipo =>
              ((c.unmarshal resp.cuerpo v).1, some (c.unmarshal resp.cuerpo v).2)
            | .error err => (some err, some v)
            | .sobre success message data =>
              if !success then
                (some (.plano
                  (if message = "" then "operación fallida (Success=false)" else message)),
                  some v)
              else if c.vacio data then (none, some v)
              else ((c.unmarshal data v).1, some (c.unmarshal data v).2)
          else ((c.unmarshal resp.cuerpo v).1, some (c.unmarshal resp.cuerpo v).2)

/-- What a call of `DoJSONWithHeaders` did: the error returned, `out` afterwards, the
number of attempts made and the waits slept, in order. -/
structure Corrida (V : Type) where
  err : Option ErrIntento
  out : Option V
  intentos : Nat
  esperas : List Int
  deriving DecidableEq, Repr

/-- The loop of `DoJSONWithHeaders` from the attempt number `attempt` on; `intentos k` is
what the network delivers to the attempt number `k`. The first argument bounds the number
of iterations. -/
def bucleReintentos {B V : Type} (cfg : Reintentos) (lower : Char → Char) (c : Codec B V)
    (wrapped : Bool) (intentos : Nat → Intento B) :
    Nat → Nat → Option V → List Int → Option (Corrida V)
  | 0, _, _, _ => none
  | vueltas + 1, attempt, out, esperas =>
    match doOnce c wrapped (intentos attempt) out with
    | (none, out1) =>
      some { err := none, out := out1, intentos := attempt + 1, esperas := esperas }
    | (some err, out1) =>
      if attempt ≥ cfg.defaultRetryCount ∨ isRetryableErr lower err = false then
        some { err := some err, out := out1, intentos := attempt + 1, esperas := esperas }
      else
        bucleReintentos cfg lower c wrapped intentos vueltas (attempt + 1) out1
          (esperas ++ [backoffFor cfg attempt])

/-- Go `DoJSONWithHeaders`; `marshal` is the error of `json.Marshal(in)`, if any. The loop
is given `defaultRetryCount + 1` iterations. -/
def DoJSONWithHeaders {B V : Type} (cfg : Reintentos) (lower : Char → Char) (c : Codec B V)
    (wrapped : Bool) (marshal : Option ErrIntento) (intentos : Nat → Intento B)
    (out : Option V) : Option (Corrida V) :=
  match marshal with
  | some err => some { err := some err, out := out, intentos := 0, esperas := [] }
  | none =>
    bucleReintentos cfg lower c wrapped intentos (cfg.defaultRetryCount + 1) 0 out []

/-- Go `DoJSON`. -/
def DoJSON {B V : Type} (cfg : Reintentos) (lower : Char → Char) (c : Codec B V)
    (marshal : Option ErrIntento) (intentos : Nat → Intento B) (out : Option V) :
    Option (Corrida V) :=
  DoJSONWithHeaders cfg lower c true marshal intentos out

/-- Go `BaseController.RespondError`: the status and the message of the response. -/
def RespondError (err : Err) : Nat × String :=
  match AsAppError err "error inesperado" with
  | .app status message => (status, message)
  | _ => (500, "error inesperado")

/-! ## Other reads of the record gateways -/

/-- `GET oferta_pasantia?query=...`: the rows satisfying the filter. -/
def listOfertasCrud (e : Entorno) (filtro : CastorOferta → Bool) : Op (List CastorOferta) := do
  peticion e
  fun w => (.ok (w.ofertas.filter filtro), w)

/-- Go `ListOfertas` of `services/oferta_service.go`; `filtro` is the query
`buildOfertaQuery` makes of the filter map. -/
def ListOfertas (e : Entorno) (filtro : CastorOferta → Bool) : Op (List Oferta) := do
  let raw ← listOfertasCrud e filtro
  pure (raw.map mapCastorOferta)

/-- `GET estudiante_perfil/<id>`. -/
def getPerfilCrud (e : Entorno) (id : Int) : Op PerfilRecord := do
  peticion e
  fun w =>
    match w.perfiles.find? (fun r => decide (r.Id = id)) with
    | some r => (.ok r, w)
    | none => (.error (.up (.http 404 "")), w)

/-- Go `CastorCRUDClient.GetPerfilByID`. -/
def GetPerfilByID (e : Entorno) (perfilID : Int) : Op (Option PerfilRecord) := do
  ctxErr e
  if perfilID ≤ 0 then pure none
  else do
    let raw ← getPerfilCrud e perfilID
    pure (some raw)

/-! ## Pagination (`internal/helpers/paging.go` and the listing services) -/

/-- The value of a decimal digit. -/
def digito (c : Char) : Option Nat :=
  if 48 ≤ c.toNat ∧ c.toNat ≤ 57 then some (c.toNat - 48) else none

/-- The number written by a list of decimal digits, after the digits already read. -/
def leerDigitos : List Char → Nat → Option Nat
  | [], acc => some acc
  | c :: cs, acc =>
    match digito c with
    | some d => leerDigitos cs (acc * 10 + d)
    | none => none

/-- Go `strconv.ParseInt(s, 10, 64)` and, on a 64-bit platform, `strconv.Atoi(s)`: an
optional sign and at least one decimal digit, within the range of `int64`; `none` is the
error. -/
def ParseInt (s : String) : Option Int :=
  match s.data with
  | [] => none
  | c :: ds =>
    if c = '-' then
      if ds = [] then none
      else
        match leerDigitos ds 0 with
        | some n => if n ≤ 2 ^ 63 then some (-(n : Int)) else none
        | none => none
    else if c = '+' then
      if ds = [] then none
      else
        match leerDigitos ds 0 with
        | some n => if n < 2 ^ 63 then some (n : Int) else none
        | none => none
    else
      match leerDigitos (c :: ds) 0 with
      | some n => if n < 2 ^ 63 then some (n : Int) else none
      | none => none

/-- Go `ParsePageSize`. -/
def ParsePageSize (pageStr sizeStr : String) : Int × Int :=
  let page :=
    match ParseInt (trimSpace pageStr) with
    | some v => if v > 0 then v else 1
    | none => 1
  let size :=
    match ParseInt (trimSpace sizeStr) with
    | some v => if v > 0 then v else 20
    | none => 20
  (page, if size > 100 then 100 else size)

/-- The manual pagination of `ListarOfertasCatalogo`, `BandejaTutor`,
`ListarInvitacionesDeEstudiante` and `ListarMisPostulaciones`: `start` and `end` after the
two clamps, in 64-bit `int` arithmetic. -/
def limitesPagina (total page size : Int) : Int × Int :=
  let start := wrapInt64 ((page - 1) * size)
  let start := if start > total then total else start
  let fin := wrapInt64 (start + size)
  let fin := if fin > total then total else fin
  (start, fin)

/-- Go `items[start:end]` on a slice whose capacity is its length; `none` is the run-time
panic. -/
def rebanada {α : Type} (items : List α) (start fin : Int) : Option (List α) :=
  if 0 ≤ start ∧ start ≤ fin ∧ fin ≤ items.length then
    some ((items.drop start.toNat).take (fin - start).toNat)
  else none

/-! ## `internal/services/estudiantes_service.go` -/

/-- Go `internaldto.EstudiantePerfilUpsert`: a nil pointer is `none`. -/
structure EstudiantePerfilUpsert where
  ProyectoCurricularID : Option Int
  Resumen : Option String
  Habilidades : Option String
  CVDocumentoID : Option String
  Visible : Option Bool
  TratamientoDatosAceptado : Option Bool
  deriving DecidableEq, Repr

/-- The row of a profile after the upstream applied the keys of a PUT body to it. -/
def PerfilCambio.aplicar (body : PerfilCambio) (r : PerfilRecord) : PerfilRecord :=
  { r with CvDocumentoId := body.CvDocumentoId.getD r.CvDocumentoId,
           Visible := body.Visible.getD r.Visible }

/-- `PUT estudiante_perfil/<id>`: answers with the stored row. -/
def putPerfilCrud (e : Entorno) (id : Int) (body : PerfilCambio) : Op PerfilRecord := do
  (fun w => (.ok (), { w with escrituras := w.escrituras ++ [.putPerfil id body] }))
  peticion e
  fun w =>
    match w.perfiles.find? (fun r => decide (r.Id = id)) with
    | some r =>
      (.ok (body.aplicar r), { w with
        perfiles := w.perfiles.map (fun x => if x.Id = id then body.aplicar x else x) })
    | none => (.error (.up (.http 404 "")), w)

/-- `POST estudiante_perfil`: the upstream stores the row under a new id and answers with
it. -/
def postPerfilCrud (e : Entorno) (body : PerfilNuevo) : Op PerfilRecord := do
  (fun w => (.ok (), { w with escrituras := w.escrituras ++ [.postPerfil body] }))
  peticion e
  fun w =>
    (.ok { Id := (w.perfiles.map (fun r => r.Id)).foldl max 0 + 1,
           TerceroId := body.TerceroId, CvDocumentoId := body.CvDocumentoId.getD "",
           Visible := body.Visible },
      { w with perfiles := w.perfiles ++
          [{ Id := (w.perfiles.map (fun r => r.Id)).foldl max 0 + 1,
             TerceroId := body.TerceroId, CvDocumentoId := body.CvDocumentoId.getD "",
             Visible := body.Visible }] })

/-- Go `findPerfil`. -/
def findPerfil (e : Entorno) (terceroID : Int) : Op (Option PerfilRecord) := fun w =>
  match listPerfilesCrud e terceroID w with
  | (.error err, w1) =>
    if IsHTTPError err 404 then (.ok none, w1)
    else (.error (AsAppError err "error consultando perfil de estudiante"), w1)
  | (.ok records, w1) => (.ok records.head?, w1)

/-- Go `crearPerfil`; the caller has checked that `ProyectoCurricularID` is set. -/
def crearPerfil (e : Entorno) (terceroID : Int) (payload : EstudiantePerfilUpsert) :
    Op PerfilRecord :=
  comoAppError (postPerfilCrud e
    { TerceroId := terceroID, ProyectoCurricularId := payload.ProyectoCurricularID.getD 0,
      Visible := payload.Visible.getD true,
      TratamientoDatosAceptado := payload.TratamientoDatosAceptado.getD false,
      Resumen := payload.Resumen.map trimSpace,
      Habilidades := payload.Habilidades.map trimSpace,
      CvDocumentoId := payload.CVDocumentoID })
    "error creando perfil de estudiante"

/-- Go `actualizarPerfil`. -/
def actualizarPerfil (e : Entorno) (perfilID : Int) (payload : EstudiantePerfilUpsert) :
    Op PerfilRecord :=
  comoAppError (putPerfilCrud e perfilID
    { ProyectoCurricularId :=
        match payload.ProyectoCurricularID with
        | some pc => if pc > 0 then some pc else none
        | none => none,
      Resumen := payload.Resumen.map trimSpace,
      Habilidades := payload.Habilidades.map trimSpace,
      CvDocumentoId := payload.CVDocumentoID,
      Visible := payload.Visible,
      TratamientoDatosAceptado := payload.TratamientoDatosAceptado })
    "error actualizando perfil de estudiante"

/-- Go `validarCvDocumentoID`: the error, or the payload with the document id trimmed. -/
def validarCvDocumentoID (e : Entorno) (payload : EstudiantePerfilUpsert) :
    Op EstudiantePerfilUpsert :=
  match payload.CVDocumentoID with
  | none => pure payload
  | some doc =>
    if trimSpace doc = "" then fallar (.app 400 "cv_documento_id inválido")
    else
      match e.documentoExiste (trimSpace doc) with
      | .error err => fallar err
      | .ok false => fallar (.app 400 "cv_documento_id no existe")
      | .ok true => pure { payload with CVDocumentoID := some (trimSpace doc) }

/-- Go `CastorCRUDClient.ListPostulaciones` for the filter map of `isPasanteActivo`, which
has the key `EstudianteId` alone. -/
def CastorCRUDClient.ListPostulacionesDeEstudiante (e : Entorno) (estudianteID : Int) :
    Op (List Postulacion) := do
  ctxErr e
  let raw ← listPostulacionesCrud e (fun r => decide (r.EstudianteId = estudianteID))
  pure (raw.map mapPostulacion)

/-- The loop of `isPasanteActivo`: is some accepted application on an offer in progress; an
offer that cannot be read is skipped. -/
def pasanteActivoEn (e : Entorno) : List Postulacion → Op Bool
  | [] => pure false
  | post :: ps =>
    if toUpper e.unicode (trimSpace post.EstadoPostulacion) ≠ "PSAC_CTR" then
      pasanteActivoEn e ps
    else fun w =>
      match GetOferta e post.OfertaId w with
      | (.error _, w1) => pasanteActivoEn e ps w1
      | (.ok oferta, w1) =>
        if toUpper e.unicode (trimSpace oferta.Estado) ≠ "OPCUR_CTR" then
          pasanteActivoEn e ps w1
        else (.ok true, w1)

/-- Go `isPasanteActivo` (the flag alone): a listing that fails counts as no internship. -/
def isPasanteActivo (e : Entorno) (estudianteID : Int) : Op Bool :=
  if estudianteID ≤ 0 then pure false
  else fun w =>
    match CastorCRUDClient.ListPostulacionesDeEstudiante e estudianteID w with
    | (.error _, w1) => (.ok false, w1)
    | (.ok list, w1) => pasanteActivoEn e list w1

/-- Go `ActualizarPerfil`, from the homologation of the curricular project on. -/
def actualizarTrasVisibilidad (e : Entorno) (record : PerfilRecord)
    (payload : EstudiantePerfilUpsert) : Op PerfilRecord :=
  (match payload.ProyectoCurricularID with
    | none => pure payload
    | some pc =>
      if pc ≤ 0 then fallar (.app 400 "proyecto_curricular_id inválido")
      else
        match e.homologacion pc with
        | .error _ => fallar (.app 400 "proyecto_curricular_id no homologable")
        | .ok idOikos => pure { payload with ProyectoCurricularID := some idOikos })
    >>= fun payload1 =>
  validarCvDocumentoID e payload1 >>= fun payload2 =>
  if payload2.ProyectoCurricularID = none ∧ payload2.Resumen = none ∧
      payload2.Habilidades = none ∧ payload2.CVDocumentoID = none ∧
      payload2.Visible = none ∧ payload2.TratamientoDatosAceptado = none then
    pure record
  else actualizarPerfil e record.Id payload2

/-- Go `ActualizarPerfil`. -/
def ActualizarPerfil (e : Entorno) (terceroID : Int) (payload : EstudiantePerfilUpsert) :
    Op PerfilRecord :=
  findPerfil e terceroID >>= fun record =>
    match record with
    | none => fallar (.app 404 "perfil no encontrado")
    | some record =>
      (if payload.Visible ≠ none then isPasanteActivo e terceroID else pure false)
        >>= fun activo =>
      if activo then
        fallar (.app 409
          "No puedes cambiar la visibilidad mientras tengas una pasantía activa")
      else actualizarTrasVisibilidad e record payload

/-- Go `UpsertPerfil`. -/
def UpsertPerfil (e : Entorno) (terceroID : Int) (payload : EstudiantePerfilUpsert) :
    Op PerfilRecord :=
  match payload.ProyectoCurricularID with
  | none => fallar (.app 400 "proyecto_curricular_id es requerido")
  | some pc =>
    if pc ≤ 0 then fallar (.app 400 "proyecto_curricular_id es requerido")
    else
      match e.homologacion pc with
      | .error err => fallar err
      | .ok idOikos =>
        validarCvDocumentoID e { payload with ProyectoCurricularID := some idOikos }
          >>= fun payload2 =>
        findPerfil e terceroID >>= fun record =>
          match record with
          | none => crearPerfil e terceroID payload2
          | some record => actualizarPerfil e record.Id payload2

/-! ## JSON documents and the identifier decoders -/

/-- A JSON document as far as the decoders of identifiers tell documents apart: `null`, a
boolean, a number written as an integer literal, a string, an array (its items are not
carried) and an object, given as its first member followed by the object of the remaining
members. -/
inductive Json where
  | null
  | bool (b : Bool)
  | num (n : Int)
  | str (s : String)
  | lista
  | vacio
  | campo (clave : String) (valor : Json) (resto : Json)
  deriving DecidableEq, Repr

/-- The last member of an object stored under exactly the key `k`, as a Go map keeps it. -/
def Json.miembro (k : String) : Json → Option Json
  | .campo clave valor resto =>
    match Json.miembro k resto with
    | some v => some v
    | none => if clave = k then some valor else none
  | _ => none

/-- The last member of an object whose key matches `k` ignoring case, as the decoder of a
struct field finds it. -/
def Json.miembroFold (u : Unicode) (k : String) : Json → Option Json
  | .campo clave valor resto =>
    match Json.miembroFold u k resto with
    | some v => some v
    | none => if equalFold u clave k then some valor else none
  | _ => none

/-- What the code uses of `float64`: the value an integer literal decodes to, which is the
integer itself up to `2 ^ 53` in absolute value. -/
structure Float64 where
  deEntero : Int → Int
  exacto : ∀ n : Int, n.natAbs ≤ 2 ^ 53 → deEntero n = n

/-- A Go value behind `interface{}` after `json.Unmarshal`: the contents of maps and slices
are not carried. -/
inductive Valor where
  | nil
  | bool (b : Bool)
  | float64 (v : Int)
  | string (s : String)
  | mapa
  | slice
  deriving DecidableEq, Repr

/-- Go `json.Unmarshal(raw, &simple)` with `simple` an `interface{}`. -/
def aInterface (f : Float64) : Json → Valor
  | .null => .nil
  | .bool b => .bool b
  | .num n => .float64 (f.deEntero n)
  | .str s => .string s
  | .lista => .slice
  | .vacio => .mapa
  | .campo _ _ _ => .mapa

/-- Go `json.Unmarshal(raw, &wrapper)` with `wrapper` a struct whose only field is
`Id interface{}`: the field afterwards, or `none` for the error. -/
def decodeWrapper (u : Unicode) (f : Float64) (raw : Json) : Option Valor :=
  match raw with
  | .null => some .nil
  | .vacio => some .nil
  | .campo _ _ _ =>
    match Json.miembroFold u "Id" raw with
    | some v => some (aInterface f v)
    | none => some .nil
  | _ => none

/-- Go conversion `int64(v)` of a `float64` holding an integer; outside the range of
`int64` the result is the one of amd64. -/
def entero64 (v : Int) : Int :=
  if -(2 ^ 63) ≤ v ∧ v < 2 ^ 63 then v else -(2 ^ 63)

/-- Go `normalizeToInt64` of `castor_crud_client.go` and of `postulacion_service.go`, which
agree; `none` is the `false` flag. -/
def normalizeToInt64 (value : Valor) : Option Int :=
  match value with
  | .nil => none
  | .float64 v => some (entero64 v)
  | .string v => if trimSpace v = "" then none else ParseInt (trimSpace v)
  | _ => none

/-- Go `extractOfertaID` of `castor_crud_client.go`; `raw = none` is the zero-length raw
message. -/
def extractOfertaID (u : Unicode) (f : Float64) (raw : Option Json) : Int :=
  match raw with
  | none => 0
  | some j =>
    match (decodeWrapper u f j).bind normalizeToInt64 with
    | some id => id
    | none =>
      match normalizeToInt64 (aInterface f j) with
      | some id => id
      | none => 0

/-- Go `extractOfertaId` of `services/postulacion_service.go`. -/
def extractOfertaId (u : Unicode) (f : Float64) (raw : Option Json) : Int :=
  match raw with
  | none => 0
  | some j =>
    match (decodeWrapper u f j).bind normalizeToInt64 with
    | some id => id
    | none =>
      match normalizeToInt64 (aInterface f j) with
      | some id => id
      | none => 0

/-- Go `FlexInt.UnmarshalJSON` on a valid JSON document: the value stored, or `none` for
the error. -/
def FlexInt.UnmarshalJSON (data : Json) : Option Int :=
  match data with
  | .null => some 0
  | .vacio => some 0
  | .campo clave valor resto =>
    match h : Json.miembro "Id" (.campo clave valor resto) with
    | some raw => FlexInt.UnmarshalJSON raw
    | none =>
      match h2 : Json.miembro "id" (.campo clave valor resto) with
      | some raw => FlexInt.UnmarshalJSON raw
      | none => some 0
  | .str s =>
    if trimSpace s = "" then some 0 else ParseInt (trimSpace s)
  | .num n => if -(2 ^ 63) ≤ n ∧ n < 2 ^ 63 then some n else none
  | .bool _ => none
  | .lista => none
termination_by sizeOf data
decreasing_by
  all_goals
    have menor : ∀ (k : String) (j v : Json), Json.miembro k j = some v →
        sizeOf v < sizeOf j := by
      intro k j
      induction j with
      | campo c1 v1 r1 _ ih =>
        intro v hm
        simp only [Json.miembro] at hm
        cases hr : Json.miembro k r1 with
        | some w1 =>
          rw [hr] at hm
          injection hm with hm
          subst hm
          have := ih w1 hr
          simp only [Json.campo.sizeOf_spec]
          omega
        | none =>
          rw [hr] at hm
          by_cases hk : c1 = k
          · simp only [hk, if_true] at hm
            injection hm with hm
            subst hm
            simp only [Json.campo.sizeOf_spec]
            omega
          · simp only [hk, if_false] at hm
            cases hm
      | _ => intro v hm; cases hm
    first
      | exact menor _ _ _ h2
      | exact menor _ _ _ h

/-! ## The application gateway on JSON documents

The typed store of the sections above holds, of each stored object, the keys the record
types decode. Here the upstream keeps each application as the JSON object it was sent and
serves it back as it is, and the transport does not fail. -/

/-- A Go `map[string]any`: members with distinct keys. -/
abbrev Mapa : Type := List (String × Json)

/-- Go `m[k]` with its `ok` flag. -/
def Mapa.obtener (m : Mapa) (k : String) : Option Json :=
  (m.find? (fun p => decide (p.1 = k))).map (fun p => p.2)

/-- Go `m[k] = v`. -/
def Mapa.poner (m : Mapa) (k : String) (v : Json) : Mapa :=
  if m.any (fun p => decide (p.1 = k)) then m.map (fun p => if p.1 = k then (k, v) else p)
  else m ++ [(k, v)]

/-- Go `json.Unmarshal` of the members of an object into a map: a later member replaces an
earlier one with the same key. -/
def aMapa (miembros : List (String × Json)) : Mapa :=
  miembros.foldl (fun m p => m.poner p.1 p.2) []

/-- Go `s < t` on strings: the order of the bytes, which for text is the order of the code
points. -/
def menorRunes : List Char → List Char → Bool
  | [], [] => false
  | [], _ :: _ => true
  | _ :: _, [] => false
  | a :: s, b :: t =>
    if a.toNat < b.toNat then true
    else if b.toNat < a.toNat then false
    else menorRunes s t

/-- Insertion of a member before the first member with a greater key. -/
def insertarPorClave (p : String × Json) : List (String × Json) → List (String × Json)
  | [] => [p]
  | q :: t => if menorRunes p.1.data q.1.data then p :: q :: t else q :: insertarPorClave p t

/-- Go `json.Marshal` of a map: the members sorted by key. -/
def marshalMapa (m : Mapa) : List (String × Json) := m.foldr insertarPorClave []

/-- The documents the upstream keeps under `postulacion/<id>`. -/
abbrev AlmacenJson : Type := List (Int × List (String × Json))

/-- `GET postulacion/<id>`: the members of the stored object. -/
def getRegistro (a : AlmacenJson) (id : Int) : Option (List (String × Json)) :=
  (a.find? (fun r => decide (r.1 = id))).map (fun r => r.2)

/-- `PUT postulacion/<id>`: the body replaces the stored object. -/
def putRegistro (a : AlmacenJson) (id : Int) (body : List (String × Json)) : AlmacenJson :=
  a.map (fun r => if r.1 = id then (id, body) else r)

/-- Go `CastorCRUDClient.UpdatePostulacionEstado` on the stored documents; `cuando` is the
formatted time. -/
def UpdatePostulacionEstadoJson (u : Unicode) (cancelado : Bool) (a : AlmacenJson) (id : Int)
    (estado cuando : String) : Except Err Unit × AlmacenJson :=
  if cancelado then (.error .ctx, a)
  else
    match getRegistro a id with
    | none => (.error (.up (.http 404 "")), a)
    | some miembros =>
      let current := aMapa miembros
      if current.length = 0 then (.error (.app 404 "postulación no encontrada"), a)
      else
        match current.obtener "OfertaPasantiaId" with
        | none => (.error (.app 400 "postulación sin OfertaPasantiaId"), a)
        | some .null => (.error (.app 400 "postulación sin OfertaPasantiaId"), a)
        | some _ =>
          let normalized := toUpper u (trimSpace estado)
          if normalized = "" then (.error (.app 400 "estado requerido"), a)
          else
            (.ok (), putRegistro a id (marshalMapa
              ((current.poner "estado_postulacion" (.str normalized)).poner
                "fecha_estado" (.str cuando))))

/-- Go `postulacionRecord` (of the dates and the link only the decoding is carried). -/
structure postulacionRecord where
  Id : Int
  EstudianteId : Int
  OfertaPasantiaId : Option Json
  EstadoPostulacion : String
  deriving DecidableEq, Repr

/-- What `json.Unmarshal` does with one member of the object for a `postulacionRecord`:
the field whose tag matches the key ignoring case takes the value, `null` leaves it as it
is, a value of another type is an error (`none`), and a key that matches no tag is
ignored. `esFecha` tells the strings `time.Time` accepts. -/
def decodeMiembro (u : Unicode) (esFecha : String → Bool) (r : postulacionRecord)
    (k : String) (v : Json) : Option postulacionRecord :=
  if equalFold u k "Id" then
    match v with
    | .null => some r
    | .num n => if -(2 ^ 63) ≤ n ∧ n < 2 ^ 63 then some { r with Id := n } else none
    | _ => none
  else if equalFold u k "EstudianteId" then
    match v with
    | .null => some r
    | .num n => if -(2 ^ 63) ≤ n ∧ n < 2 ^ 63 then some { r with EstudianteId := n } else none
    | _ => none
  else if equalFold u k "OfertaPasantiaId" then some { r with OfertaPasantiaId := some v }
  else if equalFold u k "EstadoPostulacion" then
    match v with
    | .null => some r
    | .str s => some { r with EstadoPostulacion := s }
    | _ => none
  else if equalFold u k "FechaPostulacion" ∨ equalFold u k "EnlaceDocHv" then
    match v with
    | .null => some r
    | .str _ => some r
    | _ => none
  else if equalFold u k "FechaEstado" then
    match v with
    | .null => some r
    | .str s => if esFecha s then some r else none
    | _ => none
  else some r

/-- Go `json.Unmarshal` of the members of an object into a `postulacionRecord`. -/
def decodePostulacionRecord (u : Unicode) (esFecha : String → Bool)
    (miembros : List (String × Json)) : Option postulacionRecord :=
  miembros.foldl (fun acc p => acc.bind (fun r => decodeMiembro u esFecha r p.1 p.2))
    (some { Id := 0, EstudianteId := 0, OfertaPasantiaId := none, EstadoPostulacion := "" })

/-- Go `mapPostulacion` of `castor_crud_client.go` on a decoded record. -/
def mapPostulacionJson (u : Unicode) (f : Float64) (raw : postulacionRecord) : Postulacion :=
  { Id := raw.Id, EstudianteId := raw.EstudianteId,
    OfertaId := extractOfertaID u f raw.OfertaPasantiaId,
    EstadoPostulacion := trimSpace raw.EstadoPostulacion }

/-- Go `CastorCRUDClient.GetPostulacionByID` on the stored documents. -/
def GetPostulacionByIDJson (u : Unicode) (f : Float64) (esFecha : String → Bool)
    (cancelado : Bool) (a : AlmacenJson) (id : Int) : Except Err Postulacion :=
  if cancelado then .error .ctx
  else
    match getRegistro a id with
    | none => .error (.up (.http 404 ""))
    | some miembros =>
      match decodePostulacionRecord u esFecha miembros with
      | none => .error (.up (.otro "json: cannot unmarshal"))
      | some raw => .ok (mapPostulacionJson u f raw)

/-- The object the upstream keeps for a typed row: the keys `Id` and `EstudianteId`, the
key `OfertaPasantiaId` as the nested object `{"Id": n}` when the row has one, and the key
`EstadoPostulacion`. -/
def documentoDe (r : CastorPostulacion) : List (String × Json) :=
  match r.OfertaPasantiaId with
  | some n =>
    [("Id", .num r.Id), ("EstudianteId", .num r.EstudianteId),
      ("OfertaPasantiaId", .campo "Id" (.num n) .vacio),
      ("EstadoPostulacion", .str r.EstadoPostulacion)]
  | none =>
    [("Id", .num r.Id), ("EstudianteId", .num r.EstudianteId),
      ("EstadoPostulacion", .str r.EstadoPostulacion)]

/-! ## Predicates used in the statements -/

/-- Every run of `m` relates the world before and the world after by `R`. -/
def Preserva {α : Type} (R : Mundo → Mundo → Prop) (m : Op α) : Prop :=
  ∀ w, R w (m w).2

/-- Between two worlds the stored applications, offers and audit entries and the log of
writes are the same: at most the request counter moved. -/
def SoloReloj (w w1 : Mundo) : Prop :=
  w1.postulaciones = w.postulaciones ∧ w1.ofertas = w.ofertas ∧
    w1.revisiones = w.revisiones ∧ w1.escrituras = w.escrituras

/-- The trimmed, upper-cased state code, as every state test of the code computes it. -/
def estadoNorm (u : Unicode) (estado : String) : String := toUpper u (trimSpace estado)

/-- Rows of the store that are applications of the offer `ofertaID` in the accepted state. -/
def aceptadasDeOferta (u : Unicode) (w : Mundo) (ofertaID : Int) : List CastorPostulacion :=
  w.postulaciones.filter (fun r =>
    decide (r.OfertaPasantiaId = some ofertaID) &&
      decide (estadoNorm u r.EstadoPostulacion = PostEstadoAceptada))

/-- The error is an `AppError` with status 409 (as built by
`helpers.NewAppError(http.StatusConflict, ...)`). -/
def esConflicto {α : Type} (r : Except Err α) : Prop := ∃ msg, r = .error (.app 409 msg)

/-- Every error `m` returns comes from `helpers.DoJSON`. -/
def ErrUp {α : Type} (m : Op α) : Prop := ∀ w err, (m w).1 = .error err → ∃ ue, err = .up ue

/-- The ids `validarOfertaEnCurso` collects in `descartables`. -/
def resto (u : Unicode) (ps : List Postulacion) : List Int :=
  (ps.filter (fun p =>
    !(decide (toUpper u (trimSpace p.EstadoPostulacion) = PostEstadoAceptada)) &&
    !(decide (toUpper u (trimSpace p.EstadoPostulacion) = PostEstadoDescartada)))).map
    (fun p => p.Id)

/-- The applications `validarOfertaEnCurso` sees as accepted. -/
def aceptadasVistas (u : Unicode) (ps : List Postulacion) : List Postulacion :=
  ps.filter (fun p => decide (toUpper u (trimSpace p.EstadoPostulacion) = PostEstadoAceptada))

/-- The applications of the offer `ofertaID`, as `ListPostulacionesByOferta` returns them. -/
def postulacionesDeOferta (w : Mundo) (ofertaID : Int) : List Postulacion :=
  (w.postulaciones.filter (fun r => decide (r.OfertaPasantiaId = some ofertaID))).map
    mapCastorPostulacion

/-- The applications of the student `estudianteID`, as `ListPostulacionesByEstudiante`
returns them. -/
def postulacionesDeEstudiante (w : Mundo) (estudianteID : Int) : List Postulacion :=
  (w.postulaciones.filter (fun r => decide (r.EstudianteId = estudianteID))).map
    mapCastorPostulacion

/-- Frame of the application cascades: offers and audit entries are untouched and
every write issued in between satisfies `P`. -/
def Marco (P : Peticion → Prop) (w w1 : Mundo) : Prop :=
  w1.ofertas = w.ofertas ∧ w1.revisiones = w.revisiones ∧
    ∃ l, w1.escrituras = w.escrituras ++ l ∧ ∀ x ∈ l, P x

/-- The write is a state update of the application `id`. -/
def esPutPostulacion (x : Peticion) : Prop := ∃ id body, x = .putPostulacion id body

/-- The request counter never goes back, and when `m` returns without error every
request it issued was answered without error. -/
def Honesto {α : Type} (e : Entorno) (m : Op α) : Prop :=
  ∀ w, w.reloj ≤ (m w).2.reloj ∧
    ((∃ a, (m w).1 = .ok a) → ∀ n, w.reloj ≤ n → n < (m w).2.reloj → e.respuesta n = none)

/-- The store after the state of every application whose id is in `ids` was set to `estado`. -/
def marcar (ids : List Int) (estado : String) (l : List CastorPostulacion) :
    List CastorPostulacion :=
  l.map (fun r => if r.Id ∈ ids then { r with EstadoPostulacion := estado } else r)

/-- The writes issued between the world `w` and the later world `w1`. -/
def nuevas (w w1 : Mundo) : List Peticion := w1.escrituras.drop w.escrituras.length

/-- Between two worlds the stored applications are the same. -/
def MismasPostulaciones (w w1 : Mundo) : Prop := w1.postulaciones = w.postulaciones

/-- The state matches `PSRJ_CTR` under `strings.EqualFold` after trimming: the test by
which `descartarPostulacionesDelEstudiante` recognises a discarded application. -/
def esDescartadaFold (u : Unicode) (estado : String) : Prop :=
  equalFold u (trimSpace estado) PostEstadoDescartada = true

/-- The error is an `AppError` with status 403 (`http.StatusForbidden`). -/
def esProhibido {α : Type} (r : Except Err α) : Prop := ∃ msg, r = .error (.app 403 msg)

/-- The call returned an error. -/
def esError {α : Type} (r : Except Err α) : Prop := ∃ err, r = .error err

/-- The payload `UpdateOfertaMerge` sends for the fetched row `raw` and the new state `estado`. -/
def payloadEstado (u : Unicode) (raw : CastorOferta) (estado : String) : OfertaPayload :=
  applyPatchEstado u
    { Id := raw.Id, Titulo := raw.Titulo, Descripcion := raw.Descripcion,
      Estado := toUpper u (trimSpace raw.Estado),
      EmpresaId := raw.EmpresaId, TutorExternoId := raw.TutorExternoId,
      FechaPublicacion :=
        if trimSpace raw.FechaPublicacion ≠ "" then some (trimSpace raw.FechaPublicacion)
        else none,
      ProyectoCurricularIds :=
        if raw.ProyectoCurricularIds.length > 0 then some raw.ProyectoCurricularIds
        else none } estado

/-- The destination is one of the five offer state codes `CambiarEstadoOferta` dispatches on. -/
def destinoSoportado (d : String) : Prop :=
  d = OfertaEstadoCancelada ∨ d = OfertaEstadoEnCurso ∨ d = OfertaEstadoPausada ∨
    d = OfertaEstadoCreada ∨ d = OfertaEstadoFinalizada

/-- The destination is one of the three codes reached without a cascade. -/
def destinoSinCascada (d : String) : Prop :=
  d = OfertaEstadoPausada ∨ d = OfertaEstadoCreada ∨ d = OfertaEstadoFinalizada

/-- The call returned without error. -/
def esExito {α : Type} (r : Except Err α) : Prop := ∃ a, r = .ok a

/-- The trimmed, upper-cased state is terminal: selected, accepted or discarded. -/
def esFinal (u : Unicode) (estado : String) : Prop :=
  estadoNorm u estado = PostEstadoSeleccionada ∨ estadoNorm u estado = PostEstadoAceptada ∨
    estadoNorm u estado = PostEstadoDescartada

/-- The audit entry `registrarRevision` posts: tutor, application, action and the
trimmed comment (absent when blank). -/
def revisionDe (tutorID postulacionID : Int) (accion : String) (comentario : Option String) :
    Revision :=
  { TutorId := tutorID, PostulacionId := postulacionID, Accion := trimSpace accion,
    Comentario :=
      if trimSpace (match comentario with
          | some c => trimSpace c
          | none => "") ≠ "" then
        some (trimSpace (match comentario with
          | some c => trimSpace c
          | none => ""))
      else none }

/-- No audit entry was written: the call returned an error, audit entries and stored
applications are as before, and at most the audit POST itself was issued. -/
def SinAuditoria {α : Type} (rev : Revision) (w : Mundo) (r : Except Err α) (w1 : Mundo) :
    Prop :=
  esError r ∧ w1.revisiones = w.revisiones ∧ w1.postulaciones = w.postulaciones ∧
    (w1.escrituras = w.escrituras ∨ w1.escrituras = w.escrituras ++ [.postRevision rev])

/-- The write is a state update of the application `postulacionID`: the PUT of the row by
`updatePostulacionEstado` or the PUT of the fetched object by
`CastorCRUDClient.UpdatePostulacionEstado`. -/
def esActualizacion (postulacionID : Int) (x : Peticion) : Prop :=
  (∃ body, x = .putPostulacion postulacionID body) ∨
    ∃ current estado, x = .putPostulacionMapa postulacionID current estado

/-- The audit entry was written, first: the log of writes is the audit POST, followed by
at most one state update of the application `postulacionID`. -/
def ConAuditoria (rev : Revision) (postulacionID : Int) (w w1 : Mundo) : Prop :=
  w1.revisiones = w.revisiones ++ [rev] ∧
    ((w1.escrituras = w.escrituras ++ [.postRevision rev] ∧
        w1.postulaciones = w.postulaciones) ∨
      ∃ x, esActualizacion postulacionID x ∧
        w1.escrituras = w.escrituras ++ [.postRevision rev, x])

/-- A state update step of the application `postulacionID`: audit entries untouched, and
either nothing written and the applications unchanged, or exactly one PUT issued. -/
def PasoEstado (postulacionID : Int) (w w1 : Mundo) : Prop :=
  w1.revisiones = w.revisiones ∧
    ((w1.escrituras = w.escrituras ∧ w1.postulaciones = w.postulaciones) ∨
      ∃ x, esActualizacion postulacionID x ∧ w1.escrituras = w.escrituras ++ [x])

/-- The row `p` once selected. -/
def seleccionada (p : CastorPostulacion) : CastorPostulacion :=
  { p with EstadoPostulacion := PostEstadoSeleccionada }

/-- The payload `body` keeps the fetched row `raw` but for the state: `Id`, `Titulo`,
`Descripcion`, `EmpresaId` and `TutorExternoId` are those of `raw`, `FechaPublicacion` is
the trimmed one of `raw` when that is not blank and is absent otherwise,
`ProyectoCurricularIds` are those of `raw` when there are any and are absent otherwise, and
`Estado` is the trimmed, upper-cased `s`. -/
def PayloadConserva (u : Unicode) (raw : CastorOferta) (s : String) (body : OfertaPayload) :
    Prop :=
  body.Id = raw.Id ∧ body.Titulo = raw.Titulo ∧ body.Descripcion = raw.Descripcion ∧
    body.EmpresaId = raw.EmpresaId ∧ body.TutorExternoId = raw.TutorExternoId ∧
    body.FechaPublicacion =
      (if trimSpace raw.FechaPublicacion ≠ "" then some (trimSpace raw.FechaPublicacion)
        else none) ∧
    body.ProyectoCurricularIds =
      (if raw.ProyectoCurricularIds.length > 0 then some raw.ProyectoCurricularIds
        else none) ∧
    body.Estado = toUpper u (trimSpace s)

/-- The offer `raw` passes the checks of `UpdateOfertaMerge`. -/
def ofertaCompleta (raw : CastorOferta) : Prop :=
  raw.Id ≠ 0 ∧ trimSpace raw.Titulo ≠ "" ∧ raw.EmpresaId ≠ 0

/-- The decimal digits of `n`, most significant first, in front of `acc`; the first
argument bounds the number of digits. -/
def cifras : Nat → Nat → List Char → List Char
  | 0, _, acc => acc
  | vueltas + 1, n, acc =>
    if n < 10 then Char.ofNat (48 + n) :: acc
    else cifras vueltas (n / 10) (Char.ofNat (48 + n % 10) :: acc)

/-- The text of the integer `n` in base 10, as in the JSON number `n` and inside the JSON
string `"n"`. -/
def decimal (n : Int) : String :=
  if n < 0 then ⟨'-' :: cifras (n.natAbs + 1) n.natAbs []⟩
  else ⟨cifras (n.natAbs + 1) n.natAbs []⟩

/-! ## Sample environments and stores -/

/-- Unicode tables that leave every rune above ASCII alone. -/
def unicodeSimple : Unicode := ⟨fun c => c, fun _ _ => false⟩

/-- An environment where every request succeeds and the context is never cancelled. -/
def entornoSinFallos : Entorno where
  unicode := unicodeSimple
  respuesta := fun _ => none
  cancelado := fun _ => false
  orden := fun l => l
  orden_perm := fun l => List.Perm.refl l
  preseleccionEnv := ""

/-- Offer 5 of tutor 77 with an accepted, a submitted and a discarded application;
offer 6 of tutor 78 with a selected application of the accepted student. -/
def mundoEjemplo : Mundo where
  postulaciones :=
    [⟨1, 10, some 5, "PSAC_CTR"⟩, ⟨2, 11, some 5, " pspo_ctr"⟩, ⟨3, 10, some 6, "PSSE_CTR"⟩,
      ⟨4, 12, some 5, "psrj_ctr"⟩]
  ofertas :=
    [⟨5, "Practica", "", "OPC_CTR", 1, 77, "", []⟩, ⟨6, "Pasantia", "", "OPC_CTR", 1, 78, "", []⟩]
  revisiones := []
  escrituras := []
  reloj := 0

/-- An environment where the request number `k` is answered with HTTP 500 and every
other request succeeds. -/
def entornoFallo (k : Nat) : Entorno where
  unicode := unicodeSimple
  respuesta := fun n => if n = k then some (.http 500 "") else none
  cancelado := fun _ => false
  orden := fun l => l
  orden_perm := fun l => List.Perm.refl l
  preseleccionEnv := ""

/-- The accepted application of offer 5 in `mundoEjemplo`. -/
def aceptadaEjemplo : CastorPostulacion := ⟨1, 10, some 5, "PSAC_CTR"⟩

/-- Offer 5 of `mundoEjemplo` once in progress. -/
def ofertaEnCursoEjemplo : Oferta := ⟨5, "Practica", "", "OPCUR_CTR", 1, 77, []⟩

/-- Offer 5 of `mundoEjemplo`. -/
def ofertaEjemplo : CastorOferta := ⟨5, "Practica", "", "OPC_CTR", 1, 77, "", []⟩

/-- The submitted application of offer 5 in `mundoEjemplo`. -/
def enviadaEjemplo : CastorPostulacion := ⟨2, 11, some 5, " pspo_ctr"⟩

/-- The store of `mundoEjemplo` with offer 5 cancelled. -/
def mundoCancelada : Mundo :=
  { mundoEjemplo with
    ofertas := [⟨5, "Practica", "", "OPCAN_CTR", 1, 77, "", []⟩] }

/-- Offer 5 of `mundoCancelada`. -/
def ofertaCancelada : CastorOferta := ⟨5, "Practica", "", "OPCAN_CTR", 1, 77, "", []⟩

/-- The discarded application of offer 5 in `mundoEjemplo`. -/
def descartadaEjemplo : CastorPostulacion := ⟨4, 12, some 5, "psrj_ctr"⟩

/-- A store where the student 10 holds two selected applications and one that is not. -/
def mundoSeleccion : Mundo :=
  { postulaciones := [⟨1, 10, some 5, "PSSE_CTR"⟩, ⟨2, 10, some 6, " seleccionado"⟩,
      ⟨3, 10, some 7, "PSPO_CTR"⟩, ⟨4, 11, some 5, "PSSE_CTR"⟩],
    ofertas := [], revisiones := [], escrituras := [], reloj := 0 }

/-- The first application of `mundoSeleccion`. -/
def seleccionadaEjemplo : CastorPostulacion := ⟨1, 10, some 5, "PSSE_CTR"⟩

/-- The third application of `mundoSeleccion`. -/
def porRevisarEjemplo : CastorPostulacion := ⟨3, 10, some 7, "PSPO_CTR"⟩

/-- A store where the student 10 has a profile and already applied to the offer 5. -/
def mundoPostulado : Mundo :=
  { postulaciones := [⟨1, 10, some 5, "PSPO_CTR"⟩],
    ofertas := [], revisiones := [], escrituras := [], reloj := 0,
    perfiles := [⟨1, 10, "", true⟩] }

/-- The application of `mundoPostulado`. -/
def postuladaEjemplo : CastorPostulacion := ⟨1, 10, some 5, "PSPO_CTR"⟩

/-- The profile of `mundoPostulado`. -/
def perfilEjemplo : PerfilRecord := ⟨1, 10, "", true⟩

/-- A store where, for the student 10 and the offer 5, a discarded application comes before
one that is not discarded. -/
def mundoDescartadaPrimero : Mundo :=
  { postulaciones := [⟨1, 10, some 5, "PSRJ_CTR"⟩, ⟨2, 10, some 5, "PSPO_CTR"⟩],
    ofertas := [], revisiones := [], escrituras := [], reloj := 0 }

/-- Bodies of the sample responses: no bytes, an envelope with its `Success`, `Message` and
`Data`, or a bare number. -/
inductive CuerpoEjemplo where
  | vacio
  | sobre (success : Bool) (message : String) (data : Option Nat)
  | numero (n : Nat)
  deriving DecidableEq, Repr

/-- A codec for `CuerpoEjemplo` where `out` points to a number. -/
def codecEjemplo : Codec CuerpoEjemplo Nat where
  texto := fun b =>
    match b with
    | .vacio => ""
    | .sobre _ message _ => message
    | .numero n => toString n
  vacio := fun b =>
    match b with
    | .vacio => true
    | _ => false
  sobre := fun b =>
    match b with
    | .sobre success message (some n) => .sobre success message (.numero n)
    | .sobre success message none => .sobre success message .vacio
    | .numero _ => .errorDeTipo
    | .vacio => .error (.plano "unexpected end of JSON input")
  unmarshal := fun b v =>
    match b with
    | .numero n => (none, n)
    | _ => (some (.plano "json: cannot unmarshal"), v)

/-- A response with the given status and body, read without error. -/
def respuestaEjemplo (status : Nat) (cuerpo : CuerpoEjemplo) : Intento CuerpoEjemplo :=
  .respuesta { StatusCode := status, cuerpo := cuerpo, errLectura := none }

/-- The package variables after `SetDefaultRetryCount(n)`. -/
def reintentosDe (n : Int) : Reintentos := SetDefaultRetryCount n reintentosIniciales

/-- A network that answers the first `n` attempts with HTTP 503 and the later ones with an
envelope whose `Success` is true and whose `Data` is the number 7. -/
def redInestable (n : Nat) : Nat → Intento CuerpoEjemplo :=
  fun k => if k < n then respuestaEjemplo 503 .vacio
    else respuestaEjemplo 200 (.sobre true "" (some 7))

/-- An environment where the request number `k` is answered with HTTP 404 and every other
request succeeds. -/
def entornoNoEncontrado (k : Nat) : Entorno where
  unicode := unicodeSimple
  respuesta := fun n => if n = k then some (.http 404 "") else none
  cancelado := fun _ => false
  orden := fun l => l
  orden_perm := fun l => List.Perm.refl l
  preseleccionEnv := ""

/-- A store whose offer 5 has a publication date followed by a blank. -/
def mundoFecha : Mundo :=
  { postulaciones := [],
    ofertas := [⟨5, "Practica", "", "OPC_CTR", 1, 77, "2024-05-01 ", [3]⟩],
    revisiones := [], escrituras := [], reloj := 0 }

/-- Offer 5 of `mundoFecha`. -/
def ofertaFecha : CastorOferta := ⟨5, "Practica", "", "OPC_CTR", 1, 77, "2024-05-01 ", [3]⟩

/-- A store whose only application, of the student 10 to the offer 5 of the tutor 77, is in
the state `PPE_CTR`; the student has a profile. -/
def mundoInvitada : Mundo :=
  { postulaciones := [⟨1, 10, some 5, "PPE_CTR"⟩],
    ofertas := [⟨5, "Practica", "", "OPC_CTR", 1, 77, "", []⟩],
    revisiones := [], escrituras := [], reloj := 0,
    perfiles := [⟨1, 10, "", true⟩] }

/-- A store where the student 10 has a visible profile and an accepted application on the
offer 5, which is in progress. -/
def mundoPasante : Mundo :=
  { postulaciones := [⟨1, 10, some 5, "PSAC_CTR"⟩],
    ofertas := [⟨5, "Practica", "", "OPCUR_CTR", 1, 77, "", []⟩],
    revisiones := [], escrituras := [], reloj := 0,
    perfiles := [⟨1, 10, "", true⟩] }

/-- A payload that sets the curricular project and hides the profile. -/
def payloadOcultar : EstudiantePerfilUpsert :=
  { ProyectoCurricularID := some 20, Resumen := none, Habilidades := none,
    CVDocumentoID := none, Visible := some false, TratamientoDatosAceptado := none }

/-- A `float64` that holds every integer exactly, for the sample evaluations. -/
def float64Exacto : Float64 := ⟨fun n => n, fun _ _ => rfl⟩

/-- An upstream that keeps the application 1, of the student 10 to the offer 5, in the state
`PSPO_CTR`. -/
def almacenEjemplo : AlmacenJson :=
  [(1, [("Id", .num 1), ("EstudianteId", .num 10),
        ("OfertaPasantiaId", .campo "Id" (.num 5) .vacio),
        ("EstadoPostulacion", .str "PSPO_CTR")])]

/-- A store whose only application, of the student 10 to the offer 5 of the tutor 77, is in
the state `PSPO_CTR`. -/
def mundoPorRevisar : Mundo :=
  { postulaciones := [⟨1, 10, some 5, "PSPO_CTR"⟩],
    ofertas := [⟨5, "Practica", "", "OPC_CTR", 1, 77, "", []⟩],
    revisiones := [], escrituras := [], reloj := 0 }

/-- A store where the student 10 holds the selected applications 1 and 2, the selected
application 3 whose object has no `OfertaPasantiaId`, and the application 4 in the state
`SELECCIONAR`. -/
def mundoEleccion : Mundo :=
  { postulaciones := [⟨1, 10, some 5, "PSSE_CTR"⟩, ⟨2, 10, some 6, "PSSE_CTR"⟩,
      ⟨3, 10, none, "PSSE_CTR"⟩, ⟨4, 10, some 7, "SELECCIONAR"⟩],
    ofertas := [], revisiones := [], escrituras := [], reloj := 0 }

/-! ## Facts about the string functions -/

theorem dropWhile_rdropWhile_dropWhile {α : Type} (p : α → Bool) (l : List α) :
    (List.rdropWhile p (l.dropWhile p)).dropWhile p = List.rdropWhile p (l.dropWhile p) := by
  obtain ⟨t, ht⟩ := List.rdropWhile_prefix p (l := l.dropWhile p)
  generalize hr : List.rdropWhile p (l.dropWhile p) = r at ht
  cases r with
  | nil => rfl
  | cons a r =>
    have hne : l.dropWhile p ≠ [] := by rw [← ht]; simp
    have hhead := List.head_dropWhile_not p l hne
    have ha : (l.dropWhile p).head hne = a := by
      simp only [← ht, List.cons_append, List.head_cons]
    rw [ha] at hhead
    simp [List.dropWhile_cons, hhead]

theorem trimSpace_idem (s : String) : trimSpace (trimSpace s) = trimSpace s := by
  have h1 : ∀ t : String, trimSpace t = ⟨List.rdropWhile isSpace (t.data.dropWhile isSpace)⟩ :=
    fun t => rfl
  rw [h1 (trimSpace s), h1 s]
  simp only [dropWhile_rdropWhile_dropWhile, List.rdropWhile_idempotent]

/-! ## Reasoning about computations -/

theorem bind_apply {α β : Type} (m : Op α) (f : α → Op β) (w : Mundo) :
    (m >>= f) w = match m w with
      | (.error err, w1) => (.error err, w1)
      | (.ok a, w1) => f a w1 := rfl

theorem pure_apply {α : Type} (a : α) (w : Mundo) : (pure a : Op α) w = (.ok a, w) := rfl

theorem preserva_pure {α : Type} {R : Mundo → Mundo → Prop} (hrefl : ∀ w, R w w) (a : α) :
    Preserva R (pure a : Op α) := fun w => hrefl w

theorem preserva_fallar {α : Type} {R : Mundo → Mundo → Prop} (hrefl : ∀ w, R w w)
    (err : Err) : Preserva R (fallar err : Op α) := fun w => hrefl w

theorem preserva_bind {α β : Type} {R : Mundo → Mundo → Prop}
    (htrans : ∀ a b c, R a b → R b c → R a c) {m : Op α} {f : α → Op β}
    (hm : Preserva R m) (hf : ∀ a, Preserva R (f a)) : Preserva R (m >>= f) := by
  intro w
  have h1 := hm w
  rw [bind_apply]
  rcases hmw : m w with ⟨r, w1⟩
  rw [hmw] at h1
  cases r with
  | error err => exact h1
  | ok a => exact htrans _ _ _ h1 (hf a w1)

theorem preserva_comoAppError {α : Type} {R : Mundo → Mundo → Prop} {m : Op α}
    (hm : Preserva R m) (msg : String) : Preserva R (comoAppError m msg) := by
  intro w
  have h1 := hm w
  unfold Pasantia.comoAppError
  rcases hmw : m w with ⟨r, w1⟩
  rw [hmw] at h1
  cases r <;> exact h1

theorem preserva_ite {α : Type} {R : Mundo → Mundo → Prop} {c : Prop} [Decidable c]
    {a b : Op α} (ha : Preserva R a) (hb : Preserva R b) :
    Preserva R (if c then a else b) := by
  split
  · exact ha
  · exact hb

theorem soloReloj_refl (w : Mundo) : SoloReloj w w := ⟨rfl, rfl, rfl, rfl⟩

theorem soloReloj_trans (a b c : Mundo) (h1 : SoloReloj a b) (h2 : SoloReloj b c) :
    SoloReloj a c :=
  ⟨h2.1.trans h1.1, h2.2.1.trans h1.2.1, h2.2.2.1.trans h1.2.2.1, h2.2.2.2.trans h1.2.2.2⟩

theorem peticion_soloReloj (e : Entorno) : Preserva SoloReloj (peticion e) := by
  intro w
  unfold peticion
  split <;> exact ⟨rfl, rfl, rfl, rfl⟩

theorem listPostulacionesCrud_soloReloj (e : Entorno) (f : CastorPostulacion → Bool) :
    Preserva SoloReloj (listPostulacionesCrud e f) :=
  preserva_bind soloReloj_trans (peticion_soloReloj e) (fun _ w => soloReloj_refl w)

theorem ListPostulacionesByOferta_soloReloj (e : Entorno) (ofertaID : Int) :
    Preserva SoloReloj (ListPostulacionesByOferta e ofertaID) :=
  preserva_bind soloReloj_trans (listPostulacionesCrud_soloReloj e _)
    (fun _ => preserva_pure soloReloj_refl _)

/-! ## The classification loop of `validarOfertaEnCurso` -/

theorem clasificar_some (u : Unicode) (ps : List Postulacion) (a : Postulacion)
    (ds : List Int) :
    clasificar u ps (some a) ds =
      if aceptadasVistas u ps = [] then .ok (some a, ds ++ resto u ps)
      else .error (.app 409 "la oferta tiene más de una postulación aceptada") := by
  induction ps generalizing ds with
  | nil => simp [clasificar, aceptadasVistas, resto]
  | cons p ps ih =>
    by_cases h1 : toUpper u (trimSpace p.EstadoPostulacion) = PostEstadoAceptada
    · simp [clasificar, aceptadasVistas, h1, List.filter_cons]
    · by_cases h2 : toUpper u (trimSpace p.EstadoPostulacion) = PostEstadoDescartada
      · have hda : ¬ (PostEstadoDescartada = PostEstadoAceptada) := by decide
        simp only [clasificar, h2, hda, if_false, if_true, ih]
        simp [aceptadasVistas, resto, List.filter_cons, h2, hda]
      · simp only [clasificar, h1, h2, if_false, ih]
        simp [aceptadasVistas, resto, List.filter_cons, h1, h2]

theorem clasificar_none (u : Unicode) (ps : List Postulacion) (ds : List Int) :
    clasificar u ps none ds =
      match aceptadasVistas u ps with
      | [] => .ok (none, ds ++ resto u ps)
      | [a] => .ok (some a, ds ++ resto u ps)
      | _ :: _ :: _ => .error (.app 409 "la oferta tiene más de una postulación aceptada") := by
  induction ps generalizing ds with
  | nil => simp [clasificar, aceptadasVistas, resto]
  | cons p ps ih =>
    by_cases h1 : toUpper u (trimSpace p.EstadoPostulacion) = PostEstadoAceptada
    · have hr : resto u (p :: ps) = resto u ps := by simp [resto, List.filter_cons, h1]
      have ha : aceptadasVistas u (p :: ps) = p :: aceptadasVistas u ps := by
        simp [aceptadasVistas, List.filter_cons, h1]
      simp only [clasificar, h1, if_true, clasificar_some, hr, ha]
      cases hq : aceptadasVistas u ps with
      | nil => simp
      | cons q qs => simp
    · have ha : aceptadasVistas u (p :: ps) = aceptadasVistas u ps := by
        simp [aceptadasVistas, List.filter_cons, h1]
      by_cases h2 : toUpper u (trimSpace p.EstadoPostulacion) = PostEstadoDescartada
      · have hr : resto u (p :: ps) = resto u ps := by simp [resto, List.filter_cons, h2]
        have hda : ¬ (PostEstadoDescartada = PostEstadoAceptada) := by decide
        simp only [clasificar, h2, hda, if_false, if_true, ih, hr, ha]
      · have hr : resto u (p :: ps) = p.Id :: resto u ps := by
          simp [resto, List.filter_cons, h1, h2]
        simp only [clasificar, h1, h2, if_false, ih, hr, ha, List.append_assoc,
          List.singleton_append]

/-! ## Errors of the cascade come from upstream -/

theorem errUp_pure {α : Type} (a : α) : ErrUp (pure a : Op α) := by
  intro w err h
  simp [pure_apply] at h

theorem errUp_bind {α β : Type} {m : Op α} {f : α → Op β}
    (hm : ErrUp m) (hf : ∀ a, ErrUp (f a)) : ErrUp (m >>= f) := by
  intro w err h
  rw [bind_apply] at h
  have h1 := hm w
  rcases hmw : m w with ⟨r, w1⟩
  rw [hmw] at h h1
  cases r with
  | error err1 =>
    simp only at h
    exact h1 err (by simpa using h)
  | ok a => exact hf a w1 err h

theorem errUp_ite {α : Type} {c : Prop} [Decidable c] {a b : Op α}
    (ha : ErrUp a) (hb : ErrUp b) : ErrUp (if c then a else b) := by
  split
  · exact ha
  · exact hb

theorem peticion_errUp (e : Entorno) : ErrUp (peticion e) := by
  intro w err h
  unfold peticion at h
  split at h
  · next ue _ => exact ⟨ue, by simpa using h.symm⟩
  · simp at h

theorem getPostulacionCrud_errUp (e : Entorno) (id : Int) : ErrUp (getPostulacionCrud e id) := by
  refine errUp_bind (peticion_errUp e) (fun _ w err h => ?_)
  split at h
  · simp at h
  · exact ⟨_, by simpa using h.symm⟩

theorem putPostulacionCrud_errUp (e : Entorno) (id : Int) (body : CastorPostulacion) :
    ErrUp (putPostulacionCrud e id body) := by
  refine errUp_bind (fun w err h => by simp at h) (fun _ => ?_)
  exact errUp_bind (peticion_errUp e) (fun _ w err h => by simp at h)

theorem listPostulacionesCrud_errUp (e : Entorno) (f : CastorPostulacion → Bool) :
    ErrUp (listPostulacionesCrud e f) :=
  errUp_bind (peticion_errUp e) (fun _ w err h => by simp at h)

theorem updatePostulacionEstado_errUp (e : Entorno) (id : Int) (estado : String) :
    ErrUp (updatePostulacionEstado e id estado) :=
  errUp_bind (getPostulacionCrud_errUp e id) (fun _ => putPostulacionCrud_errUp e id _)

theorem updateEach_errUp (e : Entorno) (estado : String) (ids : List Int) :
    ErrUp (updateEach e estado ids) := by
  induction ids with
  | nil => exact errUp_pure ()
  | cons id rest ih => exact errUp_bind (updatePostulacionEstado_errUp e id estado) (fun _ => ih)

theorem updatePostulacionEstadoBulk_errUp (e : Entorno) (ids : List Int) (estado : String) :
    ErrUp (updatePostulacionEstadoBulk e ids estado) :=
  errUp_ite (errUp_pure ()) (updateEach_errUp e estado _)

theorem descartarPostulacionesDelEstudiante_errUp (e : Entorno) (a : Postulacion) :
    ErrUp (descartarPostulacionesDelEstudiante e a) := by
  refine errUp_bind (errUp_bind (listPostulacionesCrud_errUp e _) (fun _ => errUp_pure _))
    (fun todas => ?_)
  exact errUp_ite (errUp_pure ()) (updatePostulacionEstadoBulk_errUp e _ _)

theorem cascadaEnCurso_errUp (e : Entorno) (a : Postulacion) (ds : List Int) :
    ErrUp (cascadaEnCurso e a ds) :=
  errUp_bind (errUp_ite (updatePostulacionEstadoBulk_errUp e _ _) (errUp_pure _))
    (fun _ => descartarPostulacionesDelEstudiante_errUp e a)

/-! ## Evaluation of the listings -/

theorem ListPostulacionesByOferta_ok (e : Entorno) (ofertaID : Int) (w : Mundo)
    (h : e.respuesta w.reloj = none) :
    ListPostulacionesByOferta e ofertaID w =
      (.ok (postulacionesDeOferta w ofertaID), { w with reloj := w.reloj + 1 }) := by
  simp [ListPostulacionesByOferta, listPostulacionesCrud, bind_apply, peticion, h, pure_apply,
    postulacionesDeOferta]

theorem ListPostulacionesByEstudiante_ok (e : Entorno) (estudianteID : Int) (w : Mundo)
    (h : e.respuesta w.reloj = none) :
    ListPostulacionesByEstudiante e estudianteID w =
      (.ok (postulacionesDeEstudiante w estudianteID), { w with reloj := w.reloj + 1 }) := by
  simp [ListPostulacionesByEstudiante, listPostulacionesCrud, bind_apply, peticion, h,
    pure_apply, postulacionesDeEstudiante]

theorem aceptadasVistas_postulacionesDeOferta (u : Unicode) (w : Mundo) (ofertaID : Int) :
    aceptadasVistas u (postulacionesDeOferta w ofertaID) =
      (aceptadasDeOferta u w ofertaID).map mapCastorPostulacion := by
  simp only [aceptadasVistas, postulacionesDeOferta, aceptadasDeOferta, List.filter_map,
    List.filter_filter, estadoNorm]
  congr 1
  apply List.filter_congr
  intro r _
  simp [mapCastorPostulacion, trimSpace_idem, Bool.and_comm]

/-! ## Evaluation of the upstream operations -/

theorem getPostulacionCrud_eval (e : Entorno) (id : Int) (w : Mundo) :
    getPostulacionCrud e id w =
      match e.respuesta w.reloj with
      | some err => (.error (.up err), { w with reloj := w.reloj + 1 })
      | none =>
        match w.postulaciones.find? (fun r => decide (r.Id = id)) with
        | some r => (.ok r, { w with reloj := w.reloj + 1 })
        | none => (.error (.up (.http 404 "")), { w with reloj := w.reloj + 1 }) := by
  simp only [getPostulacionCrud, bind_apply, peticion]
  cases e.respuesta w.reloj <;> rfl

theorem getOfertaCrud_eval (e : Entorno) (id : Int) (w : Mundo) :
    getOfertaCrud e id w =
      match e.respuesta w.reloj with
      | some err => (.error (.up err), { w with reloj := w.reloj + 1 })
      | none =>
        match w.ofertas.find? (fun r => decide (r.Id = id)) with
        | some r => (.ok r, { w with reloj := w.reloj + 1 })
        | none => (.error (.up (.http 404 "")), { w with reloj := w.reloj + 1 }) := by
  simp only [getOfertaCrud, bind_apply, peticion]
  cases e.respuesta w.reloj <;> rfl

theorem putPostulacionCrud_eval (e : Entorno) (id : Int) (body : CastorPostulacion)
    (w : Mundo) :
    putPostulacionCrud e id body w =
      match e.respuesta w.reloj with
      | some err => (.error (.up err),
          { w with escrituras := w.escrituras ++ [.putPostulacion id body],
                   reloj := w.reloj + 1 })
      | none => (.ok (),
          { w with postulaciones := w.postulaciones.map (fun r => if r.Id = id then body else r),
                   escrituras := w.escrituras ++ [.putPostulacion id body],
                   reloj := w.reloj + 1 }) := by
  simp only [putPostulacionCrud, bind_apply, peticion]
  cases e.respuesta w.reloj <;> rfl

theorem putPostulacionMapaCrud_eval (e : Entorno) (id : Int) (current : CastorPostulacion)
    (estado : String) (w : Mundo) :
    putPostulacionMapaCrud e id current estado w =
      match e.respuesta w.reloj with
      | some err => (.error (.up err),
          { w with escrituras := w.escrituras ++ [.putPostulacionMapa id current estado],
                   reloj := w.reloj + 1 })
      | none => (.ok (),
          { w with
            postulaciones := w.postulaciones.map (fun r => if r.Id = id then current else r),
            escrituras := w.escrituras ++ [.putPostulacionMapa id current estado],
            reloj := w.reloj + 1 }) := by
  simp only [putPostulacionMapaCrud, bind_apply, peticion]
  cases e.respuesta w.reloj <;> rfl

theorem sinMiembros_con_oferta (e : Entorno) (r : CastorPostulacion)
    (h : r.OfertaPasantiaId ≠ none) : e.sinMiembros r = false := by
  cases hs : e.sinMiembros r with
  | false => rfl
  | true =>
    refine absurd ?_ h
    rw [e.sinMiembros_cero r hs]

theorem putOfertaCrud_eval (e : Entorno) (id : Int) (body : OfertaPayload) (w : Mundo) :
    putOfertaCrud e id body w =
      match e.respuesta w.reloj with
      | some err => (.error (.up err),
          { w with escrituras := w.escrituras ++ [.putOferta id body], reloj := w.reloj + 1 })
      | none => (.ok body.fila,
          { w with ofertas := w.ofertas.map (fun r => if r.Id = id then body.fila else r),
                   escrituras := w.escrituras ++ [.putOferta id body],
                   reloj := w.reloj + 1 }) := by
  simp only [putOfertaCrud, bind_apply, peticion]
  cases e.respuesta w.reloj <;> rfl

theorem postRevisionCrud_eval (e : Entorno) (body : Revision) (w : Mundo) :
    postRevisionCrud e body w =
      match e.respuesta w.reloj with
      | some err => (.error (.up err),
          { w with escrituras := w.escrituras ++ [.postRevision body], reloj := w.reloj + 1 })
      | none => (.ok (),
          { w with revisiones := w.revisiones ++ [body],
                   escrituras := w.escrituras ++ [.postRevision body],
                   reloj := w.reloj + 1 }) := by
  simp only [postRevisionCrud, bind_apply, peticion]
  cases e.respuesta w.reloj <;> rfl

theorem listPostulacionesCrud_eval (e : Entorno) (f : CastorPostulacion → Bool) (w : Mundo) :
    listPostulacionesCrud e f w =
      match e.respuesta w.reloj with
      | some err => (.error (.up err), { w with reloj := w.reloj + 1 })
      | none => (.ok (w.postulaciones.filter f), { w with reloj := w.reloj + 1 }) := by
  simp only [listPostulacionesCrud, bind_apply, peticion]
  cases e.respuesta w.reloj <;> rfl

/-! ## Frame of the cascades -/

theorem marco_refl (P : Peticion → Prop) (w : Mundo) : Marco P w w :=
  ⟨rfl, rfl, [], by simp, by simp⟩

theorem marco_trans (P : Peticion → Prop) (a b c : Mundo) (h1 : Marco P a b)
    (h2 : Marco P b c) : Marco P a c := by
  obtain ⟨ho1, hr1, l1, hl1, hp1⟩ := h1
  obtain ⟨ho2, hr2, l2, hl2, hp2⟩ := h2
  refine ⟨ho2.trans ho1, hr2.trans hr1, l1 ++ l2, ?_, ?_⟩
  · rw [hl2, hl1, List.append_assoc]
  · intro x hx
    rcases List.mem_append.1 hx with h | h
    · exact hp1 x h
    · exact hp2 x h

theorem marco_mono {P Q : Peticion → Prop} (hPQ : ∀ x, P x → Q x) {w w1 : Mundo}
    (h : Marco P w w1) : Marco Q w w1 := by
  obtain ⟨ho, hr, l, hl, hp⟩ := h
  exact ⟨ho, hr, l, hl, fun x hx => hPQ x (hp x hx)⟩

theorem marco_of_soloReloj (P : Peticion → Prop) {w w1 : Mundo} (h : SoloReloj w w1) :
    Marco P w w1 :=
  ⟨h.2.1, h.2.2.1, [], by simp [h.2.2.2], by simp⟩

theorem preserva_mono {α : Type} {R S : Mundo → Mundo → Prop} (h : ∀ a b, R a b → S a b)
    {m : Op α} (hm : Preserva R m) : Preserva S m := fun w => h _ _ (hm w)

theorem getPostulacionCrud_soloReloj (e : Entorno) (id : Int) :
    Preserva SoloReloj (getPostulacionCrud e id) := by
  refine preserva_bind soloReloj_trans (peticion_soloReloj e) (fun _ w => ?_)
  split <;> exact soloReloj_refl w

theorem getOfertaCrud_soloReloj (e : Entorno) (id : Int) :
    Preserva SoloReloj (getOfertaCrud e id) := by
  refine preserva_bind soloReloj_trans (peticion_soloReloj e) (fun _ w => ?_)
  split <;> exact soloReloj_refl w

theorem putPostulacionCrud_marco (e : Entorno) (id : Int) (body : CastorPostulacion) :
    Preserva (Marco (fun x => x = .putPostulacion id body)) (putPostulacionCrud e id body) := by
  intro w
  rw [putPostulacionCrud_eval]
  cases e.respuesta w.reloj <;> exact ⟨rfl, rfl, [.putPostulacion id body], rfl, by simp⟩

theorem updatePostulacionEstado_marco (e : Entorno) (id : Int) (estado : String) :
    Preserva (Marco (fun x => ∃ body, x = .putPostulacion id body ∧
      body.EstadoPostulacion = toUpper e.unicode (trimSpace estado)))
      (updatePostulacionEstado e id estado) := by
  refine preserva_bind (marco_trans _)
    (preserva_mono (fun _ _ h => marco_of_soloReloj _ h) (getPostulacionCrud_soloReloj e id))
    (fun raw => ?_)
  exact preserva_mono (fun _ _ h => marco_mono (fun x hx => ⟨_, hx, rfl⟩) h)
    (putPostulacionCrud_marco e id _)

theorem updateEach_marco (e : Entorno) (estado : String) (ids : List Int) :
    Preserva (Marco (fun x => ∃ id body, x = .putPostulacion id body ∧ id ∈ ids ∧
      body.EstadoPostulacion = toUpper e.unicode (trimSpace estado)))
      (updateEach e estado ids) := by
  induction ids with
  | nil => exact preserva_pure (marco_refl _) ()
  | cons id rest ih =>
    refine preserva_bind (marco_trans _) ?_ (fun _ => ?_)
    · exact preserva_mono (fun _ _ h => marco_mono
        (fun x ⟨b, hx, hb⟩ => ⟨id, b, hx, List.mem_cons_self _ _, hb⟩) h)
        (updatePostulacionEstado_marco e id estado)
    · exact preserva_mono (fun _ _ h => marco_mono
        (fun x ⟨i, b, hx, hi, hb⟩ => ⟨i, b, hx, List.mem_cons_of_mem _ hi, hb⟩) h) ih

theorem mem_orden_uniqueIds (e : Entorno) (ids : List Int) (x : Int) :
    x ∈ e.orden (uniqueIds ids) ↔ x ∈ ids ∧ x ≠ 0 := by
  rw [(e.orden_perm _).mem_iff]
  simp [uniqueIds]

theorem updatePostulacionEstadoBulk_marco (e : Entorno) (ids : List Int) (estado : String) :
    Preserva (Marco (fun x => ∃ id body, x = .putPostulacion id body ∧ (id ∈ ids ∧ id ≠ 0) ∧
      body.EstadoPostulacion = toUpper e.unicode (trimSpace estado)))
      (updatePostulacionEstadoBulk e ids estado) := by
  refine preserva_ite (preserva_pure (marco_refl _) ()) ?_
  exact preserva_mono (fun _ _ h => marco_mono
    (fun x ⟨i, b, hx, hi, hb⟩ => ⟨i, b, hx, (mem_orden_uniqueIds e ids i).1 hi, hb⟩) h)
    (updateEach_marco e estado _)

theorem ListPostulacionesByEstudiante_soloReloj (e : Entorno) (estudianteID : Int) :
    Preserva SoloReloj (ListPostulacionesByEstudiante e estudianteID) :=
  preserva_bind soloReloj_trans (listPostulacionesCrud_soloReloj e _)
    (fun _ => preserva_pure soloReloj_refl _)

theorem bulk_marco_put (e : Entorno) (ids : List Int) (estado : String) :
    Preserva (Marco esPutPostulacion) (updatePostulacionEstadoBulk e ids estado) :=
  preserva_mono (fun _ _ h => marco_mono (fun _ ⟨i, b, hx, _⟩ => ⟨i, b, hx⟩) h)
    (updatePostulacionEstadoBulk_marco e ids estado)

theorem descartarPostulacionesDelEstudiante_marco (e : Entorno) (a : Postulacion) :
    Preserva (Marco esPutPostulacion) (descartarPostulacionesDelEstudiante e a) := by
  refine preserva_bind (marco_trans _)
    (preserva_mono (fun _ _ h => marco_of_soloReloj _ h)
      (ListPostulacionesByEstudiante_soloReloj e _)) (fun todas => ?_)
  exact preserva_ite (preserva_pure (marco_refl _) ()) (bulk_marco_put e _ _)

theorem cascadaEnCurso_marco (e : Entorno) (a : Postulacion) (ds : List Int) :
    Preserva (Marco esPutPostulacion) (cascadaEnCurso e a ds) :=
  preserva_bind (marco_trans _)
    (preserva_ite (bulk_marco_put e _ _) (preserva_pure (marco_refl _) ()))
    (fun _ => descartarPostulacionesDelEstudiante_marco e a)

theorem validarOfertaEnCurso_marco (e : Entorno) (ofertaID : Int) :
    Preserva (Marco esPutPostulacion) (validarOfertaEnCurso e ofertaID) := by
  refine preserva_bind (marco_trans _)
    (preserva_mono (fun _ _ h => marco_of_soloReloj _ h)
      (ListPostulacionesByOferta_soloReloj e _)) (fun ps => ?_)
  split
  · exact preserva_fallar (marco_refl _) _
  · exact preserva_fallar (marco_refl _) _
  · exact cascadaEnCurso_marco e _ _

/-! ## Failures of upstream requests are never swallowed by the cascades -/

theorem honesto_pure {α : Type} (e : Entorno) (a : α) : Honesto e (pure a : Op α) := by
  intro w
  refine ⟨Nat.le_refl _, fun _ n h1 h2 => ?_⟩
  simp only [pure_apply] at h2
  omega

theorem honesto_fallar {α : Type} (e : Entorno) (err : Err) : Honesto e (fallar err : Op α) := by
  intro w
  refine ⟨Nat.le_refl _, fun h => ?_⟩
  obtain ⟨a, ha⟩ := h
  simp [fallar] at ha

theorem honesto_bind {α β : Type} (e : Entorno) {m : Op α} {f : α → Op β}
    (hm : Honesto e m) (hf : ∀ a, Honesto e (f a)) : Honesto e (m >>= f) := by
  intro w
  rw [bind_apply]
  have h1 := hm w
  rcases hmw : m w with ⟨r, w1⟩
  rw [hmw] at h1
  cases r with
  | error err =>
    refine ⟨h1.1, fun h => ?_⟩
    obtain ⟨b, hb⟩ := h
    simp at hb
  | ok a =>
    have h2 := hf a w1
    simp only at h1 ⊢
    refine ⟨Nat.le_trans h1.1 h2.1, fun h n hn1 hn2 => ?_⟩
    by_cases hlt : n < w1.reloj
    · exact h1.2 ⟨a, rfl⟩ n hn1 hlt
    · exact h2.2 h n (by omega) hn2

theorem honesto_ite {α : Type} (e : Entorno) {c : Prop} [Decidable c] {a b : Op α}
    (ha : Honesto e a) (hb : Honesto e b) : Honesto e (if c then a else b) := by
  split
  · exact ha
  · exact hb

theorem peticion_honesto (e : Entorno) : Honesto e (peticion e) := by
  intro w
  unfold peticion
  cases h : e.respuesta w.reloj with
  | some ue =>
    refine ⟨by simp, fun hok => ?_⟩
    obtain ⟨a, ha⟩ := hok
    simp at ha
  | none =>
    refine ⟨by simp, fun _ n h1 h2 => ?_⟩
    simp only at h2
    have : n = w.reloj := by omega
    rw [this, h]

theorem honesto_puro {α : Type} (e : Entorno) (g : Mundo → Except Err α)
    : Honesto e (fun w => (g w, w)) := by
  intro w
  refine ⟨Nat.le_refl _, fun _ n h1 h2 => ?_⟩
  simp only at h2
  omega

theorem getPostulacionCrud_honesto (e : Entorno) (id : Int) :
    Honesto e (getPostulacionCrud e id) := by
  refine honesto_bind e (peticion_honesto e) (fun _ w => ?_)
  refine ⟨?_, fun _ n h1 h2 => ?_⟩
  · split <;> exact Nat.le_refl _
  · split at h2 <;> simp only at h2 <;> omega

theorem listPostulacionesCrud_honesto (e : Entorno) (f : CastorPostulacion → Bool) :
    Honesto e (listPostulacionesCrud e f) :=
  honesto_bind e (peticion_honesto e) (fun _ => honesto_puro e _)

theorem putPostulacionCrud_honesto (e : Entorno) (id : Int) (body : CastorPostulacion) :
    Honesto e (putPostulacionCrud e id body) := by
  intro w
  rw [putPostulacionCrud_eval]
  cases h : e.respuesta w.reloj with
  | some ue =>
    refine ⟨by simp, fun hok => ?_⟩
    obtain ⟨a, ha⟩ := hok
    simp at ha
  | none =>
    refine ⟨by simp, fun _ n h1 h2 => ?_⟩
    simp only at h2
    have : n = w.reloj := by omega
    rw [this, h]

theorem updatePostulacionEstado_honesto (e : Entorno) (id : Int) (estado : String) :
    Honesto e (updatePostulacionEstado e id estado) :=
  honesto_bind e (getPostulacionCrud_honesto e id) (fun _ => putPostulacionCrud_honesto e id _)

theorem updateEach_honesto (e : Entorno) (estado : String) (ids : List Int) :
    Honesto e (updateEach e estado ids) := by
  induction ids with
  | nil => exact honesto_pure e ()
  | cons id rest ih =>
    exact honesto_bind e (updatePostulacionEstado_honesto e id estado) (fun _ => ih)

theorem updatePostulacionEstadoBulk_honesto (e : Entorno) (ids : List Int) (estado : String) :
    Honesto e (updatePostulacionEstadoBulk e ids estado) :=
  honesto_ite e (honesto_pure e ()) (updateEach_honesto e estado _)

theorem descartarPostulacionesDelEstudiante_honesto (e : Entorno) (a : Postulacion) :
    Honesto e (descartarPostulacionesDelEstudiante e a) := by
  refine honesto_bind e
    (honesto_bind e (listPostulacionesCrud_honesto e _) (fun _ => honesto_pure e _))
    (fun todas => ?_)
  exact honesto_ite e (honesto_pure e ()) (updatePostulacionEstadoBulk_honesto e _ _)

theorem cascadaEnCurso_honesto (e : Entorno) (a : Postulacion) (ds : List Int) :
    Honesto e (cascadaEnCurso e a ds) :=
  honesto_bind e
    (honesto_ite e (updatePostulacionEstadoBulk_honesto e _ _) (honesto_pure e ()))
    (fun _ => descartarPostulacionesDelEstudiante_honesto e a)

theorem validarOfertaEnCurso_honesto (e : Entorno) (ofertaID : Int) :
    Honesto e (validarOfertaEnCurso e ofertaID) := by
  refine honesto_bind e
    (honesto_bind e (listPostulacionesCrud_honesto e _) (fun _ => honesto_pure e _))
    (fun ps => ?_)
  split
  · exact honesto_fallar e _
  · exact honesto_fallar e _
  · exact cascadaEnCurso_honesto e _ _

theorem estadoNorm_enCurso (u : Unicode) :
    toUpper u (trimSpace OfertaEstadoEnCurso) = OfertaEstadoEnCurso := rfl

theorem ChangeOfertaEstado_enCurso (e : Entorno) (id : Int) :
    ChangeOfertaEstado e id OfertaEstadoEnCurso =
      (validarOfertaEnCurso e id >>= fun _ => UpdateOfertaMerge e id OfertaEstadoEnCurso) := by
  have h1 : ¬ (OfertaEstadoEnCurso = "") := by decide
  have h2 : ¬ (OfertaEstadoEnCurso = OfertaEstadoCreada) := by decide
  have h3 : ¬ (OfertaEstadoEnCurso = OfertaEstadoCancelada) := by decide
  simp only [ChangeOfertaEstado, estadoNorm_enCurso, h1, h2, h3, if_false, if_true]

/-! ## The cascades when every request succeeds -/

theorem find_of_mem (l : List CastorPostulacion) (id : Int)
    (h : ∃ r ∈ l, r.Id = id) :
    ∃ raw, l.find? (fun r => decide (r.Id = id)) = some raw := by
  cases hf : l.find? (fun r => decide (r.Id = id)) with
  | some raw => exact ⟨raw, rfl⟩
  | none =>
    obtain ⟨r, hr, hid⟩ := h
    have := List.find?_eq_none.1 hf r hr
    simp [hid] at this

theorem find_id (l : List CastorPostulacion) (id : Int) (raw : CastorPostulacion)
    (h : l.find? (fun r => decide (r.Id = id)) = some raw) : raw.Id = id ∧ raw ∈ l := by
  have h1 := List.find?_some h
  exact ⟨by simpa using h1, List.mem_of_find?_eq_some h⟩

theorem updatePostulacionEstado_sinFallos (e : Entorno) (id : Int) (estado : String)
    (w : Mundo) (raw : CastorPostulacion) (hresp : ∀ n, e.respuesta n = none)
    (hfind : w.postulaciones.find? (fun r => decide (r.Id = id)) = some raw) :
    updatePostulacionEstado e id estado w =
      (.ok (), { w with
        postulaciones := w.postulaciones.map (fun r =>
          if r.Id = id then
            { raw with EstadoPostulacion := toUpper e.unicode (trimSpace estado) }
          else r),
        escrituras := w.escrituras ++ [.putPostulacion id
          { raw with EstadoPostulacion := toUpper e.unicode (trimSpace estado) }],
        reloj := w.reloj + 1 + 1 }) := by
  simp only [updatePostulacionEstado, bind_apply, getPostulacionCrud_eval,
    putPostulacionCrud_eval, hresp, hfind]

theorem marcar_ids (ids : List Int) (estado : String) (l : List CastorPostulacion) :
    (marcar ids estado l).map (fun r => r.Id) = l.map (fun r => r.Id) := by
  simp only [marcar, List.map_map]
  apply List.map_congr_left
  intro r _
  simp only [Function.comp]
  split <;> rfl

theorem map_put_eq_marcar (l : List CastorPostulacion) (id : Int) (raw : CastorPostulacion)
    (estado : String) (hnd : (l.map (fun r => r.Id)).Nodup)
    (hfind : l.find? (fun r => decide (r.Id = id)) = some raw) :
    l.map (fun r => if r.Id = id then { raw with EstadoPostulacion := estado } else r) =
      marcar [id] estado l := by
  obtain ⟨hid, hmem⟩ := find_id l id raw hfind
  unfold marcar
  apply List.map_congr_left
  intro r hr
  by_cases h : r.Id = id
  · have : r = raw := List.inj_on_of_nodup_map hnd hr hmem (h.trans hid.symm)
    simp [h, this]
  · simp [h]

theorem marcar_marcar (a b : List Int) (estado : String) (l : List CastorPostulacion) :
    marcar b estado (marcar a estado l) = marcar (a ++ b) estado l := by
  simp only [marcar, List.map_map]
  apply List.map_congr_left
  intro r _
  simp only [Function.comp, List.mem_append]
  by_cases ha : r.Id ∈ a <;> by_cases hb : r.Id ∈ b <;> simp [ha, hb]

theorem marcar_congr (a b : List Int) (estado : String) (l : List CastorPostulacion)
    (h : ∀ r ∈ l, (r.Id ∈ a ↔ r.Id ∈ b)) : marcar a estado l = marcar b estado l := by
  unfold marcar
  apply List.map_congr_left
  intro r hr
  simp only [h r hr]

theorem updateEach_sinFallos (e : Entorno) (estado : String) (hresp : ∀ n, e.respuesta n = none)
    (ids : List Int) (w : Mundo)
    (hex : ∀ id ∈ ids, ∃ r ∈ w.postulaciones, r.Id = id) :
    ∃ w1, updateEach e estado ids w = (.ok (), w1) ∧
      w1.postulaciones.map (fun r => r.Id) = w.postulaciones.map (fun r => r.Id) ∧
      ((w.postulaciones.map (fun r => r.Id)).Nodup →
        w1.postulaciones = marcar ids (toUpper e.unicode (trimSpace estado)) w.postulaciones) ∧
      w1.ofertas = w.ofertas ∧ w1.revisiones = w.revisiones := by
  induction ids generalizing w with
  | nil =>
    refine ⟨w, rfl, rfl, fun _ => ?_, rfl, rfl⟩
    simp [marcar]
  | cons id rest ih =>
    obtain ⟨raw, hraw⟩ := find_of_mem w.postulaciones id (hex id (List.mem_cons_self _ _))
    obtain ⟨hrid, _⟩ := find_id _ _ _ hraw
    have hstep := updatePostulacionEstado_sinFallos e id estado w raw hresp hraw
    have hids : (w.postulaciones.map (fun r =>
          if r.Id = id then
            { raw with EstadoPostulacion := toUpper e.unicode (trimSpace estado) }
          else r)).map (fun r => r.Id) = w.postulaciones.map (fun r => r.Id) := by
      simp only [List.map_map]
      apply List.map_congr_left
      intro r _
      simp only [Function.comp]
      split
      · next h => simp [hrid, h]
      · rfl
    obtain ⟨w2, h2, hid2, hnd2, ho2, hr2⟩ := ih
      { w with
        postulaciones := w.postulaciones.map (fun r =>
          if r.Id = id then
            { raw with EstadoPostulacion := toUpper e.unicode (trimSpace estado) }
          else r),
        escrituras := w.escrituras ++ [.putPostulacion id
          { raw with EstadoPostulacion := toUpper e.unicode (trimSpace estado) }],
        reloj := w.reloj + 1 + 1 }
      (by
        intro i hi
        obtain ⟨r, hr, hri⟩ := hex i (List.mem_cons_of_mem _ hi)
        have : i ∈ w.postulaciones.map (fun r => r.Id) :=
          List.mem_map.2 ⟨r, hr, hri⟩
        rw [← hids] at this
        obtain ⟨r2, hr2, hr2i⟩ := List.mem_map.1 this
        exact ⟨r2, hr2, hr2i⟩)
    refine ⟨w2, ?_, ?_, ?_, ho2, hr2⟩
    · show (updatePostulacionEstado e id estado >>= fun _ => updateEach e estado rest) w = _
      rw [bind_apply, hstep]
      exact h2
    · rw [hid2]
      exact hids
    · intro hnd
      have h3 := hnd2 (by simp only; rw [hids]; exact hnd)
      rw [h3]
      simp only
      rw [map_put_eq_marcar _ _ _ _ hnd hraw, marcar_marcar]
      rfl

theorem updatePostulacionEstadoBulk_sinFallos (e : Entorno) (estado : String)
    (hresp : ∀ n, e.respuesta n = none) (ids : List Int) (w : Mundo)
    (hex : ∀ id ∈ ids, id ≠ 0 → ∃ r ∈ w.postulaciones, r.Id = id) :
    ∃ w1, updatePostulacionEstadoBulk e ids estado w = (.ok (), w1) ∧
      w1.postulaciones.map (fun r => r.Id) = w.postulaciones.map (fun r => r.Id) ∧
      ((w.postulaciones.map (fun r => r.Id)).Nodup →
        w1.postulaciones =
          marcar (ids.filter (fun id => decide (id ≠ 0)))
            (toUpper e.unicode (trimSpace estado)) w.postulaciones) ∧
      w1.ofertas = w.ofertas ∧ w1.revisiones = w.revisiones := by
  unfold updatePostulacionEstadoBulk
  split
  · next h =>
    have : ids = [] := List.length_eq_zero.1 h
    subst this
    refine ⟨w, rfl, rfl, fun _ => ?_, rfl, rfl⟩
    simp [marcar]
  · obtain ⟨w1, h1, hid1, hnd1, ho1, hr1⟩ := updateEach_sinFallos e estado hresp
      (e.orden (uniqueIds ids)) w
      (fun id hid => hex id ((mem_orden_uniqueIds e ids id).1 hid).1
        ((mem_orden_uniqueIds e ids id).1 hid).2)
    refine ⟨w1, h1, hid1, fun hnd => ?_, ho1, hr1⟩
    rw [hnd1 hnd]
    apply marcar_congr
    intro r _
    rw [mem_orden_uniqueIds]
    simp

theorem nuevas_of_eq {w w1 : Mundo} {l : List Peticion}
    (h : w1.escrituras = w.escrituras ++ l) : nuevas w w1 = l := by
  simp [nuevas, h]

theorem nuevas_of_marco {P : Peticion → Prop} {w w1 : Mundo} (h : Marco P w w1) :
    w1.escrituras = w.escrituras ++ nuevas w w1 ∧ ∀ x ∈ nuevas w w1, P x := by
  obtain ⟨_, _, l, hl, hp⟩ := h
  rw [nuevas_of_eq hl]
  exact ⟨hl, hp⟩

theorem nuevas_trans {w w1 w2 : Mundo} (h1 : w1.escrituras = w.escrituras ++ nuevas w w1)
    (h2 : w2.escrituras = w1.escrituras ++ nuevas w1 w2) :
    nuevas w w2 = nuevas w w1 ++ nuevas w1 w2 := by
  apply nuevas_of_eq
  rw [h2, h1, List.append_assoc]

theorem updatePostulacionEstado_emite (e : Entorno) (id : Int) (estado : String) (w : Mundo)
    (hok : (updatePostulacionEstado e id estado w).1 = .ok ()) :
    ∃ body, Peticion.putPostulacion id body ∈
      nuevas w (updatePostulacionEstado e id estado w).2 := by
  simp only [updatePostulacionEstado, bind_apply, getPostulacionCrud_eval,
    putPostulacionCrud_eval] at hok ⊢
  cases h1 : e.respuesta w.reloj with
  | some ue => simp [h1] at hok
  | none =>
    cases h2 : w.postulaciones.find? (fun r => decide (r.Id = id)) with
    | none => simp [h1, h2] at hok
    | some raw =>
      cases h3 : e.respuesta (w.reloj + 1) with
      | some ue => simp [h1, h2, h3] at hok
      | none =>
        refine ⟨{ raw with EstadoPostulacion := toUpper e.unicode (trimSpace estado) }, ?_⟩
        simp [h1, h2, h3, nuevas]

theorem updateEach_emite (e : Entorno) (estado : String) (ids : List Int) (w : Mundo)
    (hok : (updateEach e estado ids w).1 = .ok ()) :
    ∀ id ∈ ids, ∃ body, Peticion.putPostulacion id body ∈
      nuevas w (updateEach e estado ids w).2 := by
  induction ids generalizing w with
  | nil => intro id hid; cases hid
  | cons i rest ih =>
    have hm1 := nuevas_of_marco (updatePostulacionEstado_marco e i estado w)
    have hem := updatePostulacionEstado_emite e i estado w
    change ((updatePostulacionEstado e i estado >>= fun _ => updateEach e estado rest) w).1
      = .ok () at hok
    change ∀ id ∈ i :: rest, ∃ body, Peticion.putPostulacion id body ∈
      nuevas w ((updatePostulacionEstado e i estado >>= fun _ => updateEach e estado rest) w).2
    rw [bind_apply] at hok ⊢
    rcases hu : updatePostulacionEstado e i estado w with ⟨r, w1⟩
    rw [hu] at hok hm1 hem
    cases r with
    | error err => simp at hok
    | ok a =>
      simp only at hok hm1 hem ⊢
      have hm2 := nuevas_of_marco (updateEach_marco e estado rest w1)
      have hn := nuevas_trans hm1.1 hm2.1
      intro id hid
      rw [hn]
      rcases List.mem_cons.1 hid with h | h
      · subst h
        obtain ⟨body, hb⟩ := hem trivial
        exact ⟨body, List.mem_append_left _ hb⟩
      · obtain ⟨body, hb⟩ := ih w1 hok id h
        exact ⟨body, List.mem_append_right _ hb⟩

theorem updatePostulacionEstadoBulk_emite (e : Entorno) (estado : String) (ids : List Int)
    (w : Mundo) (hok : (updatePostulacionEstadoBulk e ids estado w).1 = .ok ()) :
    ∀ id ∈ ids, id ≠ 0 → ∃ body, Peticion.putPostulacion id body ∈
      nuevas w (updatePostulacionEstadoBulk e ids estado w).2 := by
  unfold updatePostulacionEstadoBulk at hok ⊢
  split at hok
  · next h =>
    have : ids = [] := List.length_eq_zero.1 h
    subst this
    intro id hid
    cases hid
  · next h =>
    rw [if_neg h]
    intro id hid hne
    exact updateEach_emite e estado _ w hok id ((mem_orden_uniqueIds e ids id).2 ⟨hid, hne⟩)

/-! ## `cancelarOferta` -/

theorem cancelarOferta_eval (e : Entorno) (ofertaID : Int) (w : Mundo)
    (h : e.respuesta w.reloj = none) :
    cancelarOferta e ofertaID w =
      updatePostulacionEstadoBulk e (idsActivos e.unicode (postulacionesDeOferta w ofertaID))
        "PSCD_CTR" { w with reloj := w.reloj + 1 } := by
  unfold cancelarOferta
  rw [bind_apply, ListPostulacionesByOferta_ok e ofertaID w h]
  simp only
  by_cases h1 : (postulacionesDeOferta w ofertaID).length = 0
  · have h2 : postulacionesDeOferta w ofertaID = [] := List.length_eq_zero.1 h1
    simp [h2, idsActivos, updatePostulacionEstadoBulk]
  · rw [if_neg h1]
    by_cases h3 : (idsActivos e.unicode (postulacionesDeOferta w ofertaID)).length = 0
    · simp [h3, updatePostulacionEstadoBulk]
    · rw [if_neg h3]

theorem cancelarOferta_eval_error (e : Entorno) (ofertaID : Int) (w : Mundo) (ue : UpErr)
    (h : e.respuesta w.reloj = some ue) :
    cancelarOferta e ofertaID w = (.error (.up ue), { w with reloj := w.reloj + 1 }) := by
  simp [cancelarOferta, bind_apply, ListPostulacionesByOferta, listPostulacionesCrud_eval, h]

theorem mem_idsActivos (u : Unicode) (w : Mundo) (ofertaID id : Int) :
    id ∈ idsActivos u (postulacionesDeOferta w ofertaID) ↔
      ∃ r ∈ w.postulaciones, r.OfertaPasantiaId = some ofertaID ∧
        estadoNorm u r.EstadoPostulacion ∈ estadosActivos ∧ r.Id = id := by
  simp only [idsActivos, postulacionesDeOferta, List.mem_map, List.mem_filter,
    decide_eq_true_eq, estadoNorm]
  constructor
  · rintro ⟨p, ⟨⟨r, ⟨hr, ho⟩, rfl⟩, hact⟩, rfl⟩
    refine ⟨r, hr, ho, ?_, rfl⟩
    simpa [mapCastorPostulacion, trimSpace_idem] using hact
  · rintro ⟨r, hr, ho, hact, rfl⟩
    refine ⟨mapCastorPostulacion r, ⟨⟨r, ⟨hr, ho⟩, rfl⟩, ?_⟩, rfl⟩
    simpa [mapCastorPostulacion, trimSpace_idem] using hact

/-! ## `validarOfertaEnCurso` when every request succeeds -/

theorem bulk_o_nada (e : Entorno) (ds : List Int) (estado : String) :
    (if ds.length > 0 then updatePostulacionEstadoBulk e ds estado else pure ()) =
      updatePostulacionEstadoBulk e ds estado := by
  by_cases h : ds.length > 0
  · rw [if_pos h]
  · rw [if_neg h]
    have : ds.length = 0 := by omega
    simp [updatePostulacionEstadoBulk, this]

theorem descartarPostulacionesDelEstudiante_eval (e : Entorno) (a : Postulacion) (w : Mundo)
    (h : e.respuesta w.reloj = none) :
    descartarPostulacionesDelEstudiante e a w =
      updatePostulacionEstadoBulk e
        (idsDelEstudiante e.unicode a (postulacionesDeEstudiante w a.EstudianteId))
        PostEstadoDescartada { w with reloj := w.reloj + 1 } := by
  unfold descartarPostulacionesDelEstudiante
  rw [bind_apply, ListPostulacionesByEstudiante_ok e _ w h]
  simp only
  by_cases h3 : (idsDelEstudiante e.unicode a
      (postulacionesDeEstudiante w a.EstudianteId)).length = 0
  · simp [h3, updatePostulacionEstadoBulk]
  · rw [if_neg h3]

theorem mem_resto (u : Unicode) (w : Mundo) (ofertaID id : Int) :
    id ∈ resto u (postulacionesDeOferta w ofertaID) ↔
      ∃ r ∈ w.postulaciones, r.OfertaPasantiaId = some ofertaID ∧
        estadoNorm u r.EstadoPostulacion ≠ PostEstadoAceptada ∧
        estadoNorm u r.EstadoPostulacion ≠ PostEstadoDescartada ∧ r.Id = id := by
  simp only [resto, postulacionesDeOferta, List.mem_map, List.mem_filter,
    decide_eq_true_eq, estadoNorm, Bool.and_eq_true, Bool.not_eq_true', decide_eq_false_iff_not]
  constructor
  · rintro ⟨p, ⟨⟨r, ⟨hr, ho⟩, rfl⟩, h1, h2⟩, rfl⟩
    refine ⟨r, hr, ho, ?_, ?_, rfl⟩
    · simpa [mapCastorPostulacion, trimSpace_idem] using h1
    · simpa [mapCastorPostulacion, trimSpace_idem] using h2
  · rintro ⟨r, hr, ho, h1, h2, rfl⟩
    refine ⟨mapCastorPostulacion r, ⟨⟨r, ⟨hr, ho⟩, rfl⟩, ?_, ?_⟩, rfl⟩
    · simpa [mapCastorPostulacion, trimSpace_idem] using h1
    · simpa [mapCastorPostulacion, trimSpace_idem] using h2

theorem mem_idsDelEstudiante (u : Unicode) (a : Postulacion) (w : Mundo) (est id : Int) :
    id ∈ idsDelEstudiante u a (postulacionesDeEstudiante w est) ↔
      ∃ r ∈ w.postulaciones, r.EstudianteId = est ∧ r.Id ≠ a.Id ∧
        equalFold u (trimSpace r.EstadoPostulacion) PostEstadoDescartada = false ∧
        r.Id = id := by
  simp only [idsDelEstudiante, postulacionesDeEstudiante, List.mem_map, List.mem_filter,
    decide_eq_true_eq, Bool.and_eq_true, Bool.not_eq_true', decide_eq_false_iff_not]
  constructor
  · rintro ⟨p, ⟨⟨r, ⟨hr, ho⟩, rfl⟩, h1, h2⟩, rfl⟩
    exact ⟨r, hr, ho, h1, h2, rfl⟩
  · rintro ⟨r, hr, ho, h1, h2, rfl⟩
    exact ⟨mapCastorPostulacion r, ⟨⟨r, ⟨hr, ho⟩, rfl⟩, h1, h2⟩, rfl⟩

theorem estadoNorm_descartada (u : Unicode) :
    toUpper u (trimSpace PostEstadoDescartada) = PostEstadoDescartada := rfl

theorem equalFold_descartada (u : Unicode) :
    equalFold u (trimSpace PostEstadoDescartada) PostEstadoDescartada = true := rfl

theorem validarOfertaEnCurso_sinFallos (e : Entorno) (ofertaID : Int) (w : Mundo)
    (A : CastorPostulacion) (hresp : ∀ n, e.respuesta n = none)
    (hnd : (w.postulaciones.map (fun r => r.Id)).Nodup)
    (hA : aceptadasDeOferta e.unicode w ofertaID = [A]) :
    ∃ w2 I1 I2, validarOfertaEnCurso e ofertaID w = (.ok (), w2) ∧
      w2.postulaciones =
        marcar I2 PostEstadoDescartada (marcar I1 PostEstadoDescartada w.postulaciones) ∧
      w2.ofertas = w.ofertas ∧ w2.revisiones = w.revisiones ∧
      (∀ id, id ∈ I1 ↔ id ≠ 0 ∧ ∃ r ∈ w.postulaciones,
        r.OfertaPasantiaId = some ofertaID ∧
        estadoNorm e.unicode r.EstadoPostulacion ≠ PostEstadoAceptada ∧
        estadoNorm e.unicode r.EstadoPostulacion ≠ PostEstadoDescartada ∧ r.Id = id) ∧
      (∀ id, id ∈ I2 ↔ id ≠ 0 ∧ ∃ r ∈ marcar I1 PostEstadoDescartada w.postulaciones,
        r.EstudianteId = A.EstudianteId ∧ r.Id ≠ A.Id ∧
        equalFold e.unicode (trimSpace r.EstadoPostulacion) PostEstadoDescartada = false ∧
        r.Id = id) := by
  have hav : aceptadasVistas e.unicode (postulacionesDeOferta w ofertaID) =
      [mapCastorPostulacion A] := by
    rw [aceptadasVistas_postulacionesDeOferta, hA]
    rfl
  unfold validarOfertaEnCurso
  rw [bind_apply, ListPostulacionesByOferta_ok e ofertaID w (hresp _)]
  simp only
  rw [clasificar_none, hav]
  simp only [List.nil_append]
  unfold cascadaEnCurso
  rw [bulk_o_nada, bind_apply]
  obtain ⟨w1, hw1, hid1, hm1, ho1, hr1⟩ := updatePostulacionEstadoBulk_sinFallos e
    PostEstadoDescartada hresp (resto e.unicode (postulacionesDeOferta w ofertaID))
    { w with reloj := w.reloj + 1 }
    (fun id hid _ => by
      obtain ⟨r, hr, _, _, _, hrid⟩ := (mem_resto e.unicode w ofertaID id).1 hid
      exact ⟨r, hr, hrid⟩)
  rw [hw1]
  simp only
  rw [descartarPostulacionesDelEstudiante_eval e _ w1 (hresp _)]
  obtain ⟨w2, hw2, _, hm2, ho2, hr2⟩ := updatePostulacionEstadoBulk_sinFallos e
    PostEstadoDescartada hresp
    (idsDelEstudiante e.unicode (mapCastorPostulacion A)
      (postulacionesDeEstudiante w1 (mapCastorPostulacion A).EstudianteId))
    { w1 with reloj := w1.reloj + 1 }
    (fun id hid _ => by
      obtain ⟨r, hr, _, _, _, hrid⟩ := (mem_idsDelEstudiante e.unicode _ w1 _ id).1 hid
      exact ⟨r, hr, hrid⟩)
  have hp1 := hm1 hnd
  simp only at hp1
  have hnd1 : (w1.postulaciones.map (fun r => r.Id)).Nodup := by
    rw [hid1]
    exact hnd
  have hp2 := hm2 hnd1
  simp only at hp2 ho2 hr2 ho1 hr1
  refine ⟨w2,
    (resto e.unicode (postulacionesDeOferta w ofertaID)).filter (fun id => decide (id ≠ 0)),
    (idsDelEstudiante e.unicode (mapCastorPostulacion A)
      (postulacionesDeEstudiante w1 (mapCastorPostulacion A).EstudianteId)).filter
      (fun id => decide (id ≠ 0)),
    hw2, ?_, ho2.trans ho1, hr2.trans hr1, ?_, ?_⟩
  · rw [hp2, hp1]
    rfl
  · intro id
    simp only [List.mem_filter, decide_eq_true_eq, mem_resto]
    tauto
  · intro id
    simp only [List.mem_filter, decide_eq_true_eq, mem_idsDelEstudiante, hp1]
    constructor
    · rintro ⟨⟨r, hr, h1, h2, h3, h4⟩, hne⟩
      exact ⟨hne, r, hr, h1, h2, h3, h4⟩
    · rintro ⟨hne, r, hr, h1, h2, h3, h4⟩
      exact ⟨⟨r, hr, h1, h2, h3, h4⟩, hne⟩

theorem UpdateOfertaMerge_mismasPostulaciones (e : Entorno) (id : Int) (estado : String) :
    Preserva MismasPostulaciones (UpdateOfertaMerge e id estado) := by
  have htrans : ∀ a b c : Mundo, MismasPostulaciones a b → MismasPostulaciones b c →
      MismasPostulaciones a c := fun a b c h1 h2 => h2.trans h1
  have hrefl : ∀ a : Mundo, MismasPostulaciones a a := fun _ => rfl
  refine preserva_bind htrans
    (preserva_mono (fun _ _ h => h.1) (getOfertaCrud_soloReloj e id)) (fun raw => ?_)
  refine preserva_ite (preserva_fallar hrefl _) ?_
  refine preserva_ite (preserva_fallar hrefl _) ?_
  refine preserva_bind htrans ?_ (fun _ => preserva_pure hrefl _)
  intro w
  rw [putOfertaCrud_eval]
  cases e.respuesta w.reloj <;> rfl

theorem mem_marcar {ids : List Int} {estado : String} {l : List CastorPostulacion}
    {r : CastorPostulacion} (h : r ∈ marcar ids estado l) :
    ∃ r0 ∈ l, r0.Id = r.Id ∧ r0.EstudianteId = r.EstudianteId ∧
      r0.OfertaPasantiaId = r.OfertaPasantiaId ∧
      ((r0.Id ∈ ids ∧ r.EstadoPostulacion = estado) ∨ (r0.Id ∉ ids ∧ r = r0)) := by
  obtain ⟨r0, hr0, rfl⟩ := List.mem_map.1 h
  refine ⟨r0, hr0, ?_⟩
  by_cases hc : r0.Id ∈ ids
  · simp [hc]
  · simp [hc]

/-! ## Evaluation of the gateway reads -/

theorem GetOferta_eval (e : Entorno) (id : Int) (w : Mundo) :
    GetOferta e id w =
      match e.respuesta w.reloj with
      | some err => (.error (.up err), { w with reloj := w.reloj + 1 })
      | none =>
        match w.ofertas.find? (fun r => decide (r.Id = id)) with
        | some r => (.ok (mapCastorOferta r), { w with reloj := w.reloj + 1 })
        | none => (.error (.up (.http 404 "")), { w with reloj := w.reloj + 1 }) := by
  simp only [GetOferta, bind_apply, getOfertaCrud_eval]
  cases e.respuesta w.reloj with
  | some ue => rfl
  | none => cases w.ofertas.find? (fun r => decide (r.Id = id)) <;> rfl

theorem GetPostulacionByID_eval (e : Entorno) (id : Int) (w : Mundo) :
    GetPostulacionByID e id w =
      if e.cancelado w.reloj then (.error .ctx, w)
      else
        match e.respuesta w.reloj with
        | some err => (.error (.up err), { w with reloj := w.reloj + 1 })
        | none =>
          match w.postulaciones.find? (fun r => decide (r.Id = id)) with
          | some r => (.ok (mapPostulacion r), { w with reloj := w.reloj + 1 })
          | none => (.error (.up (.http 404 "")), { w with reloj := w.reloj + 1 }) := by
  simp only [GetPostulacionByID, bind_apply, getPostulacionCrud_eval, ctxErr]
  cases e.cancelado w.reloj with
  | true => rfl
  | false =>
    simp only [Bool.false_eq_true, if_false]
    cases e.respuesta w.reloj with
    | some ue => rfl
    | none => cases w.postulaciones.find? (fun r => decide (r.Id = id)) <;> rfl

/-! ## `UpdateOfertaMerge` and `ChangeOfertaEstado` when every request succeeds -/

theorem find_map_replace {α : Type} (key : α → Int) (l : List α) (id : Int) (x b : α)
    (hb : key b = id) (h : l.find? (fun r => decide (key r = id)) = some x) :
    (l.map (fun r => if key r = id then b else r)).find? (fun r => decide (key r = id)) =
      some b := by
  induction l with
  | nil => simp at h
  | cons a l ih =>
    by_cases ha : key a = id
    · simp [List.find?_cons, ha, hb]
    · simp only [List.find?_cons, ha, decide_False] at h
      simp [List.find?_cons, ha, ih h]

theorem UpdateOfertaMerge_sinFallos (e : Entorno) (id : Int) (estado : String) (w : Mundo)
    (o : CastorOferta) (hresp : ∀ n, e.respuesta n = none)
    (ho : w.ofertas.find? (fun r => decide (r.Id = id)) = some o)
    (hid : o.Id ≠ 0) (htit : trimSpace o.Titulo ≠ "") (hemp : o.EmpresaId ≠ 0) :
    UpdateOfertaMerge e id estado w =
      (.ok (mapCastorOferta (payloadEstado e.unicode o estado).fila),
        { w with
          ofertas := w.ofertas.map (fun r =>
            if r.Id = id then (payloadEstado e.unicode o estado).fila else r),
          escrituras := w.escrituras ++ [.putOferta id (payloadEstado e.unicode o estado)],
          reloj := w.reloj + 1 + 1 }) := by
  simp only [UpdateOfertaMerge, bind_apply, getOfertaCrud_eval, hresp, ho, hid, htit, hemp,
    if_false, or_self, putOfertaCrud_eval, pure_apply, payloadEstado]

theorem ChangeOfertaEstado_sinCascada (e : Entorno) (id : Int) (d : String)
    (hd : destinoSinCascada d) : ChangeOfertaEstado e id d = UpdateOfertaMerge e id d := by
  rcases hd with h | h | h <;> subst h <;> rfl

theorem estadoNorm_sinCascada (u : Unicode) (d : String) (hd : destinoSinCascada d) :
    toUpper u (trimSpace d) = d ∧ trimSpace d ≠ "" ∧ trimSpace d = d := by
  rcases hd with h | h | h <;> subst h <;> exact ⟨rfl, by decide, by decide⟩

theorem mapOferta_eval (oferta : Oferta) (w : Mundo) (h : trimSpace oferta.Estado ≠ "") :
    mapOferta oferta w = (.ok oferta, { w with reloj := w.reloj + 1 }) := by
  simp only [mapOferta, bind_apply, h, ne_eq, not_false_eq_true, if_true, consultaIgnorada,
    pure_apply]

/-! ## The update of the record gateway when every request succeeds -/

theorem UpdatePostulacionEstado_sinFallos (e : Entorno) (id : Int) (estado : String)
    (w : Mundo) (p : CastorPostulacion) (hresp : ∀ n, e.respuesta n = none)
    (hctx : ∀ n, e.cancelado n = false)
    (hp : w.postulaciones.find? (fun r => decide (r.Id = id)) = some p)
    (hpo : p.OfertaPasantiaId ≠ none) (hest : toUpper e.unicode (trimSpace estado) ≠ "") :
    UpdatePostulacionEstado e id estado w =
      (.ok (), { w with
        postulaciones := w.postulaciones.map (fun r => if r.Id = id then p else r),
        escrituras := w.escrituras ++
          [.putPostulacionMapa id p (toUpper e.unicode (trimSpace estado))],
        reloj := w.reloj + 1 + 1 }) := by
  simp only [UpdatePostulacionEstado, bind_apply, ctxErr, hctx, Bool.false_eq_true, if_false,
    getPostulacionCrud_eval, hresp, hp, hpo, hest, sinMiembros_con_oferta e p hpo,
    putPostulacionMapaCrud_eval]

theorem resolveEstadoNombre_eval (u : Unicode) (code : String) (w : Mundo) :
    ∃ w1, resolveEstadoNombre u code w = (.ok (), w1) ∧ SoloReloj w w1 := by
  unfold resolveEstadoNombre
  split
  · exact ⟨_, rfl, rfl, rfl, rfl, rfl⟩
  · exact ⟨_, rfl, rfl, rfl, rfl, rfl⟩

theorem ejecutarRespuesta_sinFallos (e : Entorno) (id : Int) (w : Mundo)
    (p : CastorPostulacion) (hresp : ∀ n, e.respuesta n = none)
    (hctx : ∀ n, e.cancelado n = false)
    (hp : w.postulaciones.find? (fun r => decide (r.Id = id)) = some p) :
    esExito (ejecutarRespuesta e id w).1 ∧ SoloReloj w (ejecutarRespuesta e id w).2 := by
  simp only [ejecutarRespuesta, bind_apply, Pasantia.comoAppError, GetPostulacionByID_eval,
    hctx, hresp, hp, Bool.false_eq_true, if_false]
  obtain ⟨w1, hw1, hs⟩ := resolveEstadoNombre_eval e.unicode
    (toUpper e.unicode (trimSpace (mapPostulacion p).EstadoPostulacion))
    { w with reloj := w.reloj + 1 }
  rw [hw1]
  exact ⟨⟨_, rfl⟩, hs⟩

/-! ## Audit entry before state update -/

theorem registrarRevision_casos (e : Entorno) (tutorID postulacionID : Int) (accion : String)
    (comentario : Option String) (w : Mundo) :
    SinAuditoria (revisionDe tutorID postulacionID accion comentario) w
        (registrarRevision e tutorID postulacionID accion comentario w).1
        (registrarRevision e tutorID postulacionID accion comentario w).2 ∨
      ((registrarRevision e tutorID postulacionID accion comentario w).1 = .ok () ∧
        (registrarRevision e tutorID postulacionID accion comentario w).2.revisiones =
          w.revisiones ++ [revisionDe tutorID postulacionID accion comentario] ∧
        (registrarRevision e tutorID postulacionID accion comentario w).2.escrituras =
          w.escrituras ++ [.postRevision (revisionDe tutorID postulacionID accion comentario)] ∧
        (registrarRevision e tutorID postulacionID accion comentario w).2.postulaciones =
          w.postulaciones) := by
  simp only [registrarRevision, Pasantia.comoAppError, AddPostulacionRevision, bind_apply,
    ctxErr, postRevisionCrud_eval]
  cases h0 : e.cancelado w.reloj with
  | true =>
    left
    exact ⟨⟨_, rfl⟩, rfl, rfl, Or.inl rfl⟩
  | false =>
    simp only [Bool.false_eq_true, if_false]
    cases h1 : e.respuesta w.reloj with
    | some ue =>
      left
      exact ⟨⟨_, rfl⟩, rfl, rfl, Or.inr rfl⟩
    | none =>
      right
      exact ⟨rfl, rfl, rfl, rfl⟩

theorem updatePostulacionEstado_paso (e : Entorno) (id : Int) (estado : String) (w : Mundo) :
    PasoEstado id w (updatePostulacionEstado e id estado w).2 := by
  simp only [updatePostulacionEstado, bind_apply, getPostulacionCrud_eval,
    putPostulacionCrud_eval]
  cases h1 : e.respuesta w.reloj with
  | some ue => exact ⟨rfl, Or.inl ⟨rfl, rfl⟩⟩
  | none =>
    cases h2 : w.postulaciones.find? (fun r => decide (r.Id = id)) with
    | none => exact ⟨rfl, Or.inl ⟨rfl, rfl⟩⟩
    | some raw =>
      simp only
      cases h3 : e.respuesta (w.reloj + 1) with
      | some ue => exact ⟨rfl, Or.inr ⟨_, Or.inl ⟨_, rfl⟩, rfl⟩⟩
      | none => exact ⟨rfl, Or.inr ⟨_, Or.inl ⟨_, rfl⟩, rfl⟩⟩

theorem UpdatePostulacionEstado_paso (e : Entorno) (id : Int) (estado : String) (w : Mundo) :
    PasoEstado id w (UpdatePostulacionEstado e id estado w).2 := by
  simp only [UpdatePostulacionEstado, bind_apply, ctxErr, getPostulacionCrud_eval]
  cases h0 : e.cancelado w.reloj with
  | true => exact ⟨rfl, Or.inl ⟨rfl, rfl⟩⟩
  | false =>
    simp only [Bool.false_eq_true, if_false]
    cases h1 : e.respuesta w.reloj with
    | some ue => exact ⟨rfl, Or.inl ⟨rfl, rfl⟩⟩
    | none =>
      cases h2 : w.postulaciones.find? (fun r => decide (r.Id = id)) with
      | none => exact ⟨rfl, Or.inl ⟨rfl, rfl⟩⟩
      | some raw =>
        simp only
        cases h6 : e.sinMiembros raw with
        | true =>
          simp only [if_true, fallar]
          exact ⟨rfl, Or.inl ⟨rfl, rfl⟩⟩
        | false =>
          simp only [Bool.false_eq_true, if_false]
          by_cases h4 : raw.OfertaPasantiaId = none
          · simp only [h4, if_true, fallar]
            exact ⟨rfl, Or.inl ⟨rfl, rfl⟩⟩
          · simp only [h4, if_false]
            by_cases h5 : toUpper e.unicode (trimSpace estado) = ""
            · simp only [h5, if_true, fallar]
              exact ⟨rfl, Or.inl ⟨rfl, rfl⟩⟩
            · simp only [h5, if_false, putPostulacionMapaCrud_eval]
              cases h3 : e.respuesta (w.reloj + 1) with
              | some ue => exact ⟨rfl, Or.inr ⟨_, Or.inr ⟨_, _, rfl⟩, rfl⟩⟩
              | none => exact ⟨rfl, Or.inr ⟨_, Or.inr ⟨_, _, rfl⟩, rfl⟩⟩

theorem pasoEstado_soloReloj {id : Int} {w w1 w2 : Mundo} (h1 : PasoEstado id w w1)
    (h2 : SoloReloj w1 w2) : PasoEstado id w w2 := by
  obtain ⟨hr, hc⟩ := h1
  obtain ⟨hp2, _, hr2, he2⟩ := h2
  refine ⟨hr2.trans hr, ?_⟩
  rcases hc with ⟨he, hp⟩ | ⟨x, hx, hb⟩
  · exact Or.inl ⟨he2.trans he, hp2.trans hp⟩
  · exact Or.inr ⟨x, hx, he2.trans hb⟩

theorem GetPostulacion_soloReloj (e : Entorno) (id : Int) :
    Preserva SoloReloj (GetPostulacion e id) :=
  preserva_bind soloReloj_trans (getPostulacionCrud_soloReloj e id)
    (fun _ => preserva_pure soloReloj_refl _)

theorem GetPostulacionByID_soloReloj (e : Entorno) (id : Int) :
    Preserva SoloReloj (GetPostulacionByID e id) := by
  refine preserva_bind soloReloj_trans ?_ (fun _ => ?_)
  · intro w
    unfold ctxErr
    split <;> exact soloReloj_refl w
  · exact preserva_bind soloReloj_trans (getPostulacionCrud_soloReloj e id)
      (fun _ => preserva_pure soloReloj_refl _)

theorem ejecutarRespuesta_soloReloj (e : Entorno) (id : Int) :
    Preserva SoloReloj (ejecutarRespuesta e id) := by
  refine preserva_bind soloReloj_trans
    (preserva_comoAppError (GetPostulacionByID_soloReloj e id) _) (fun updated => ?_)
  refine preserva_bind soloReloj_trans ?_ (fun _ => preserva_pure soloReloj_refl _)
  intro w
  obtain ⟨w1, hw1, hs⟩ := resolveEstadoNombre_eval e.unicode
    (toUpper e.unicode (trimSpace updated.EstadoPostulacion)) w
  rw [hw1]
  exact hs

theorem bind_paso {α β : Type} (id : Int) (m : Op α) (f : α → Op β)
    (hm : ∀ w, PasoEstado id w (m w).2) (hf : ∀ a, Preserva SoloReloj (f a)) (w : Mundo) :
    PasoEstado id w ((m >>= f) w).2 := by
  rw [bind_apply]
  have h1 := hm w
  rcases hmw : m w with ⟨r, w1⟩
  rw [hmw] at h1
  cases r with
  | error err => exact h1
  | ok a => exact pasoEstado_soloReloj h1 (hf a w1)

theorem auditoria_luego_estado (e : Entorno) (tutorID postulacionID : Int) (accion : String)
    (comentario : Option String) (U : Op Unit)
    (hU : ∀ w, PasoEstado postulacionID w (U w).2) (w : Mundo) :
    SinAuditoria (revisionDe tutorID postulacionID accion comentario) w
        ((registrarRevision e tutorID postulacionID accion comentario >>= fun _ => U) w).1
        ((registrarRevision e tutorID postulacionID accion comentario >>= fun _ => U) w).2 ∨
      ConAuditoria (revisionDe tutorID postulacionID accion comentario) postulacionID w
        ((registrarRevision e tutorID postulacionID accion comentario >>= fun _ => U) w).2 := by
  rw [bind_apply]
  have h1 := registrarRevision_casos e tutorID postulacionID accion comentario w
  rcases hr : registrarRevision e tutorID postulacionID accion comentario w with ⟨r, w1⟩
  rw [hr] at h1
  rcases h1 with hsin | ⟨hok, hrev, hesc, hpost⟩
  · left
    obtain ⟨⟨err, herr⟩, h2⟩ := hsin
    simp only at herr
    subst herr
    exact ⟨⟨err, rfl⟩, h2⟩
  · right
    simp only at hok hrev hesc hpost
    subst hok
    simp only
    obtain ⟨hr2, hc⟩ := hU w1
    refine ⟨hr2.trans hrev, ?_⟩
    rcases hc with ⟨he, hp⟩ | ⟨x, hx, hb⟩
    · exact Or.inl ⟨he.trans hesc, hp.trans hpost⟩
    · refine Or.inr ⟨x, hx, ?_⟩
      rw [hb, hesc, List.append_assoc]
      rfl

theorem ejecutarSwitch_auditada (e : Entorno) (tutorID postulacionID : Int) (accion : String)
    (comentario : Option String) (estadoActual : String)
    (hacc : accion = accionDescartar ∨ accion = accionSeleccionar ∨
      accion = accionPreseleccionar) (w : Mundo) :
    SinAuditoria (revisionDe tutorID postulacionID accion comentario) w
        (ejecutarSwitch e tutorID postulacionID accion comentario estadoActual w).1
        (ejecutarSwitch e tutorID postulacionID accion comentario estadoActual w).2 ∨
      ConAuditoria (revisionDe tutorID postulacionID accion comentario) postulacionID w
        (ejecutarSwitch e tutorID postulacionID accion comentario estadoActual w).2 := by
  have c1 : ¬ (accionDescartar = accionVisto) := by decide
  have c2 : ¬ (accionSeleccionar = accionVisto) := by decide
  have c3 : ¬ (accionSeleccionar = accionDescartar) := by decide
  have c4 : ¬ (accionPreseleccionar = accionVisto) := by decide
  have c5 : ¬ (accionPreseleccionar = accionDescartar) := by decide
  have c6 : ¬ (accionPreseleccionar = accionSeleccionar) := by decide
  rcases hacc with h | h | h
  · subst h
    have hsw : ejecutarSwitch e tutorID postulacionID accionDescartar comentario estadoActual =
        (registrarRevision e tutorID postulacionID accionDescartar comentario >>= fun _ =>
          (DescartarPostulacion e postulacionID >>= fun _ => pure ())) := by
      simp only [ejecutarSwitch, c1, if_false, if_true]
    rw [hsw]
    exact auditoria_luego_estado e tutorID postulacionID accionDescartar comentario _
      (fun w1 => bind_paso postulacionID _ _
        (fun w2 => bind_paso postulacionID _ _
          (updatePostulacionEstado_paso e postulacionID PostEstadoDescartada)
          (fun _ => GetPostulacion_soloReloj e postulacionID) w2)
        (fun _ => preserva_pure soloReloj_refl ()) w1) w
  · subst h
    have hsw : ejecutarSwitch e tutorID postulacionID accionSeleccionar comentario estadoActual =
        (registrarRevision e tutorID postulacionID accionSeleccionar comentario >>= fun _ =>
          (SeleccionarPostulacion e postulacionID >>= fun _ => pure ())) := by
      simp only [ejecutarSwitch, c2, c3, if_false, if_true]
    rw [hsw]
    exact auditoria_luego_estado e tutorID postulacionID accionSeleccionar comentario _
      (fun w1 => bind_paso postulacionID _ _
        (fun w2 => bind_paso postulacionID _ _
          (updatePostulacionEstado_paso e postulacionID PostEstadoSeleccionada)
          (fun _ => GetPostulacion_soloReloj e postulacionID) w2)
        (fun _ => preserva_pure soloReloj_refl ()) w1) w
  · subst h
    have hsw : ejecutarSwitch e tutorID postulacionID accionPreseleccionar comentario
        estadoActual =
        (registrarRevision e tutorID postulacionID accionPreseleccionar comentario >>= fun _ =>
          UpdatePostulacionEstado e postulacionID (obtenerPreselectCodigo e)) := by
      simp only [ejecutarSwitch, c4, c5, c6, if_false, if_true]
    rw [hsw]
    exact auditoria_luego_estado e tutorID postulacionID accionPreseleccionar comentario _
      (UpdatePostulacionEstado_paso e postulacionID (obtenerPreselectCodigo e)) w

theorem sinAuditoria_de_soloReloj {α : Type} (rev : Revision) {w w1 : Mundo}
    (r : Except Err α) (hr : esError r) (h : SoloReloj w w1) : SinAuditoria rev w r w1 :=
  ⟨hr, h.2.2.1, h.1, Or.inl h.2.2.2⟩

theorem auditoria_desde {α : Type} (rev : Revision) (id : Int) {w w1 w2 : Mundo}
    (r : Except Err α) (h0 : SoloReloj w w1)
    (h : SinAuditoria rev w1 r w2 ∨ ConAuditoria rev id w1 w2) :
    SinAuditoria rev w r w2 ∨ ConAuditoria rev id w w2 := by
  obtain ⟨hp, _, hr, he⟩ := h0
  rcases h with ⟨herr, h1, h2, h3⟩ | ⟨h1, h3⟩
  · left
    refine ⟨herr, h1.trans hr, h2.trans hp, ?_⟩
    rw [← he]
    exact h3
  · right
    unfold ConAuditoria
    rw [← hr, ← he, ← hp]
    exact ⟨h1, h3⟩

theorem switch_luego_respuesta (e : Entorno) (tutorID postulacionID : Int) (accion : String)
    (comentario : Option String) (estadoActual : String)
    (hacc : accion = accionDescartar ∨ accion = accionSeleccionar ∨
      accion = accionPreseleccionar) (w : Mundo) :
    SinAuditoria (revisionDe tutorID postulacionID accion comentario) w
        ((ejecutarSwitch e tutorID postulacionID accion comentario estadoActual >>= fun _ =>
          ejecutarRespuesta e postulacionID) w).1
        ((ejecutarSwitch e tutorID postulacionID accion comentario estadoActual >>= fun _ =>
          ejecutarRespuesta e postulacionID) w).2 ∨
      ConAuditoria (revisionDe tutorID postulacionID accion comentario) postulacionID w
        ((ejecutarSwitch e tutorID postulacionID accion comentario estadoActual >>= fun _ =>
          ejecutarRespuesta e postulacionID) w).2 := by
  rw [bind_apply]
  have h1 := ejecutarSwitch_auditada e tutorID postulacionID accion comentario estadoActual
    hacc w
  rcases hs : ejecutarSwitch e tutorID postulacionID accion comentario estadoActual w
    with ⟨r, w1⟩
  rw [hs] at h1
  cases r with
  | error err =>
    rcases h1 with ⟨_, h2⟩ | h2
    · exact Or.inl ⟨⟨err, rfl⟩, h2⟩
    · exact Or.inr h2
  | ok a =>
    have h3 := ejecutarRespuesta_soloReloj e postulacionID w1
    obtain ⟨hp, _, hr, he⟩ := h3
    rcases h1 with ⟨⟨err, herr⟩, _⟩ | ⟨h2, h4⟩
    · cases herr
    · right
      simp only at h2 h4 ⊢
      unfold ConAuditoria
      rw [hr, he, hp]
      exact ⟨h2, h4⟩

/-! ## The `SELECCIONAR` action when every request succeeds -/

theorem registrarRevision_sinFallos (e : Entorno) (tutorID postulacionID : Int)
    (accion : String) (comentario : Option String) (w : Mundo)
    (hresp : ∀ n, e.respuesta n = none) (hctx : ∀ n, e.cancelado n = false) :
    registrarRevision e tutorID postulacionID accion comentario w =
      (.ok (), { w with
        revisiones := w.revisiones ++ [revisionDe tutorID postulacionID accion comentario],
        escrituras := w.escrituras ++
          [.postRevision (revisionDe tutorID postulacionID accion comentario)],
        reloj := w.reloj + 1 }) := by
  simp only [registrarRevision, Pasantia.comoAppError, AddPostulacionRevision, bind_apply,
    ctxErr, postRevisionCrud_eval, hctx, hresp, Bool.false_eq_true, if_false]
  rfl

theorem GetPostulacion_sinFallos (e : Entorno) (id : Int) (w : Mundo) (p : CastorPostulacion)
    (hresp : ∀ n, e.respuesta n = none)
    (hp : w.postulaciones.find? (fun r => decide (r.Id = id)) = some p) :
    GetPostulacion e id w = (.ok (mapCastorPostulacion p), { w with reloj := w.reloj + 1 }) := by
  simp only [GetPostulacion, bind_apply, getPostulacionCrud_eval, hresp, hp, pure_apply]

theorem estadoNorm_seleccionada (u : Unicode) :
    toUpper u (trimSpace PostEstadoSeleccionada) = PostEstadoSeleccionada := rfl

theorem SeleccionarPostulacion_sinFallos (e : Entorno) (id : Int) (w : Mundo)
    (p : CastorPostulacion) (hresp : ∀ n, e.respuesta n = none)
    (hp : w.postulaciones.find? (fun r => decide (r.Id = id)) = some p) :
    SeleccionarPostulacion e id w =
      (.ok (mapCastorPostulacion (seleccionada p)), { w with
        postulaciones := w.postulaciones.map (fun r =>
          if r.Id = id then seleccionada p else r),
        escrituras := w.escrituras ++ [.putPostulacion id (seleccionada p)],
        reloj := w.reloj + 1 + 1 + 1 }) := by
  have hpid : p.Id = id := by simpa using List.find?_some hp
  have hup : updatePostulacionEstado e id PostEstadoSeleccionada w =
      (.ok (), { w with
        postulaciones := w.postulaciones.map (fun r =>
          if r.Id = id then seleccionada p else r),
        escrituras := w.escrituras ++ [.putPostulacion id (seleccionada p)],
        reloj := w.reloj + 1 + 1 }) :=
    updatePostulacionEstado_sinFallos e id PostEstadoSeleccionada w p hresp hp
  have hfind := find_map_replace (fun r : CastorPostulacion => r.Id) w.postulaciones
    id p (seleccionada p) hpid hp
  have hget := GetPostulacion_sinFallos e id
    { w with
      postulaciones := w.postulaciones.map (fun r =>
        if r.Id = id then seleccionada p else r),
      escrituras := w.escrituras ++ [.putPostulacion id (seleccionada p)],
      reloj := w.reloj + 1 + 1 } (seleccionada p) hresp hfind
  show (updatePostulacionEstado e id PostEstadoSeleccionada >>= fun _ =>
    GetPostulacion e id) w = _
  rw [bind_apply, hup]
  exact hget

/-! ## `strings.EqualFold` and `strings.ToUpper` agree on ASCII -/

theorem foldRune_ascii (u : Unicode) (a b : Char) (ha : a.toNat < 128) (hb : b.toNat < 128)
    (h : foldRune u a b = true) : toUpperRune u a = toUpperRune u b := by
  unfold foldRune at h
  by_cases hab : a = b
  · rw [hab]
  · simp only [hab, if_false] at h
    by_cases hlt : b.toNat < a.toNat
    · simp only [hlt, if_true, ha, Bool.and_eq_true, decide_eq_true_eq, beq_iff_eq] at h
      obtain ⟨⟨h1, h2⟩, h3⟩ := h
      have hb2 : ¬ (97 ≤ b.toNat ∧ b.toNat ≤ 122) := by omega
      have ha2 : 97 ≤ a.toNat ∧ a.toNat ≤ 122 := by omega
      simp only [toUpperRune, ha, hb, if_true, ha2, hb2, if_false, and_self]
      have : a.toNat - 32 = b.toNat := by omega
      rw [this, Char.ofNat_toNat]
    · simp only [hlt, if_false, hb, if_true, Bool.and_eq_true, decide_eq_true_eq,
        beq_iff_eq] at h
      obtain ⟨⟨h1, h2⟩, h3⟩ := h
      have ha2 : ¬ (97 ≤ a.toNat ∧ a.toNat ≤ 122) := by omega
      have hb2 : 97 ≤ b.toNat ∧ b.toNat ≤ 122 := by omega
      simp only [toUpperRune, ha, hb, if_true, ha2, hb2, if_false, and_self]
      have : b.toNat - 32 = a.toNat := by omega
      rw [this, Char.ofNat_toNat]

theorem equalFoldRunes_ascii (u : Unicode) (s t : List Char)
    (hs : ∀ c ∈ s, c.toNat < 128) (ht : ∀ c ∈ t, c.toNat < 128)
    (h : equalFoldRunes u s t = true) : s.map (toUpperRune u) = t.map (toUpperRune u) := by
  induction s generalizing t with
  | nil =>
    cases t with
    | nil => rfl
    | cons b t => simp [equalFoldRunes] at h
  | cons a s ih =>
    cases t with
    | nil => simp [equalFoldRunes] at h
    | cons b t =>
      simp only [equalFoldRunes, Bool.and_eq_true] at h
      simp only [List.map_cons]
      rw [foldRune_ascii u a b (hs a (List.mem_cons_self _ _)) (ht b (List.mem_cons_self _ _))
        h.1, ih t (fun c hc => hs c (List.mem_cons_of_mem _ hc))
        (fun c hc => ht c (List.mem_cons_of_mem _ hc)) h.2]

theorem mem_trimSpace (s : String) (c : Char) (h : c ∈ (trimSpace s).data) : c ∈ s.data := by
  have h1 : (trimSpace s).data = List.rdropWhile isSpace (s.data.dropWhile isSpace) := rfl
  rw [h1] at h
  exact (List.dropWhile_suffix isSpace).subset
    ((List.rdropWhile_prefix isSpace (s.data.dropWhile isSpace)).subset h)

theorem esDescartadaFold_ascii (u : Unicode) (estado : String)
    (hascii : ∀ c ∈ estado.data, c.toNat < 128) (h : esDescartadaFold u estado) :
    estadoNorm u estado = PostEstadoDescartada := by
  have ht : ∀ c ∈ PostEstadoDescartada.data, c.toNat < 128 := by decide
  have := equalFoldRunes_ascii u (trimSpace estado).data PostEstadoDescartada.data
    (fun c hc => hascii c (mem_trimSpace estado c hc)) ht h
  show toUpper u (trimSpace estado) = toUpper u PostEstadoDescartada
  unfold toUpper
  rw [this]

theorem AddPostulacionRevision_sinFallos (e : Entorno) (postulacionID tutorID : Int)
    (accion comentario : String) (w : Mundo)
    (hresp : ∀ n, e.respuesta n = none) (hctx : ∀ n, e.cancelado n = false) :
    AddPostulacionRevision e postulacionID tutorID accion comentario w =
      (.ok (), { w with
        revisiones := w.revisiones ++
          [{ TutorId := tutorID, PostulacionId := postulacionID, Accion := trimSpace accion,
             Comentario :=
              if trimSpace comentario ≠ "" then some (trimSpace comentario) else none }],
        escrituras := w.escrituras ++
          [.postRevision
            { TutorId := tutorID, PostulacionId := postulacionID, Accion := trimSpace accion,
              Comentario :=
                if trimSpace comentario ≠ "" then some (trimSpace comentario) else none }],
        reloj := w.reloj + 1 }) := by
  simp only [AddPostulacionRevision, bind_apply, ctxErr, hctx, postRevisionCrud_eval, hresp,
    Bool.false_eq_true, if_false]

theorem rechazarOtras_ok (e : Entorno) (postId : Int) :
    ∀ (L : List Postulacion) (w : Mundo), (rechazarOtras e postId L w).1 = .ok () := by
  intro L
  induction L with
  | nil => intro w; rfl
  | cons p ps ih =>
    intro w
    by_cases h1 : p.Id = postId
    · simp only [rechazarOtras, h1, if_true]; exact ih w
    · by_cases h2 : hermanaSeleccionada e.unicode p.EstadoPostulacion = true
      · simp only [rechazarOtras, h1, if_false, h2, if_true, bind_apply, ignorar]
        exact ih _
      · simp only [rechazarOtras, h1, if_false, h2]; exact ih w

theorem cascadaAceptar_ok (e : Entorno) (estudianteID : Int) (post : Postulacion) (w : Mundo) :
    (cascadaAceptar e estudianteID post w).1 = .ok () := by
  simp only [cascadaAceptar]
  rcases CastorCRUDClient.ListPostulaciones e estudianteID post.Id
    (AddPostulacionRevision e post.Id 0 "ACEPTAR_SELECCION" "Aceptada por el estudiante"
      w).2 with ⟨r, w4⟩
  cases r with
  | error err => rfl
  | ok others => exact rechazarOtras_ok e _ _ _

theorem listPostulacionesParCrud_eval (e : Entorno) (estudianteID ofertaID : Int) (w : Mundo) :
    listPostulacionesParCrud e estudianteID ofertaID w =
      match e.respuesta w.reloj with
      | some err => (.error (.up err), { w with reloj := w.reloj + 1 })
      | none => (.ok ((w.postulaciones.filter (fun r =>
          decide (r.EstudianteId = estudianteID) &&
            decide (r.OfertaPasantiaId = some ofertaID))).take 1),
          { w with reloj := w.reloj + 1 }) := by
  simp only [listPostulacionesParCrud, bind_apply, peticion]
  cases e.respuesta w.reloj <;> rfl

theorem listPerfilesCrud_eval (e : Entorno) (terceroID : Int) (w : Mundo) :
    listPerfilesCrud e terceroID w =
      match e.respuesta w.reloj with
      | some err => (.error (.up err), { w with reloj := w.reloj + 1 })
      | none => (.ok ((w.perfiles.filter (fun r => decide (r.TerceroId = terceroID))).take 1),
          { w with reloj := w.reloj + 1 }) := by
  simp only [listPerfilesCrud, bind_apply, peticion]
  cases e.respuesta w.reloj <;> rfl

theorem postPostulacionCrud_eval (e : Entorno) (body : NuevaPostulacion) (w : Mundo) :
    postPostulacionCrud e body w =
      match e.respuesta w.reloj with
      | some err => (.error (.up err),
          { w with escrituras := w.escrituras ++ [.postPostulacion body],
                   reloj := w.reloj + 1 })
      | none =>
        (.ok { Id := e.nuevoId w.postulaciones, EstudianteId := body.EstudianteId,
               OfertaPasantiaId := some body.OfertaId,
               EstadoPostulacion := body.EstadoPostulacion },
          { w with
            postulaciones := w.postulaciones ++
              [{ Id := e.nuevoId w.postulaciones, EstudianteId := body.EstudianteId,
                 OfertaPasantiaId := some body.OfertaId,
                 EstadoPostulacion := body.EstadoPostulacion }],
            escrituras := w.escrituras ++ [.postPostulacion body],
            reloj := w.reloj + 1 }) := by
  simp only [postPostulacionCrud, bind_apply, peticion]
  cases e.respuesta w.reloj <;> rfl

theorem take_uno_no_vacia {α : Type} (l : List α) (x : α) (hx : x ∈ l) :
    (l.take 1).isEmpty = false ∧ ∃ y, (l.take 1).head? = some y ∧ y ∈ l := by
  cases l with
  | nil => cases hx
  | cons a t => exact ⟨rfl, a, rfl, List.mem_cons_self _ _⟩

theorem GetPerfilByTerceroID_soloReloj (e : Entorno) (terceroID : Int) :
    Preserva SoloReloj (GetPerfilByTerceroID e terceroID) := by
  intro w
  simp only [GetPerfilByTerceroID, ctxErr]
  by_cases hc : e.cancelado w.reloj = true
  · simp only [hc, if_true]; exact ⟨rfl, rfl, rfl, rfl⟩
  · simp only [hc, Bool.false_eq_true, if_false, listPerfilesCrud_eval]
    cases h : e.respuesta w.reloj with
    | none => exact ⟨rfl, rfl, rfl, rfl⟩
    | some err =>
      simp only []
      split <;> exact ⟨rfl, rfl, rfl, rfl⟩

theorem existsPostulacion_existente (e : Entorno) (estudianteID ofertaID : Int) (w : Mundo)
    (r : CastorPostulacion) (hr : r ∈ w.postulaciones) (hest : r.EstudianteId = estudianteID)
    (hof : r.OfertaPasantiaId = some ofertaID) :
    SoloReloj w (existsPostulacion e estudianteID ofertaID w).2 ∧
    ((∀ body, e.respuesta w.reloj ≠ some (.http 404 body)) →
      esError (existsPostulacion e estudianteID ofertaID w).1 ∨
        (existsPostulacion e estudianteID ofertaID w).1 = .ok true) ∧
    (e.respuesta w.reloj = none →
      (existsPostulacion e estudianteID ofertaID w).1 = .ok true) := by
  have hmem : r ∈ w.postulaciones.filter (fun r =>
      decide (r.EstudianteId = estudianteID) &&
        decide (r.OfertaPasantiaId = some ofertaID)) :=
    List.mem_filter.2 ⟨hr, by simp [hest, hof]⟩
  have hne := (take_uno_no_vacia _ _ hmem).1
  simp only [existsPostulacion, listPostulacionesParCrud_eval]
  cases h : e.respuesta w.reloj with
  | none =>
    simp only [hne, Bool.not_false]
    exact ⟨⟨rfl, rfl, rfl, rfl⟩, fun _ => Or.inr trivial, fun _ => trivial⟩
  | some err =>
    simp only []
    cases err with
    | otro msg =>
      simp only [IsHTTPError, Bool.false_eq_true, if_false]
      exact ⟨⟨rfl, rfl, rfl, rfl⟩, fun _ => Or.inl ⟨_, rfl⟩, fun h0 => by cases h0⟩
    | http s body =>
      by_cases hs : s = 404
      · subst hs
        simp only [IsHTTPError, decide_True, if_true]
        exact ⟨⟨rfl, rfl, rfl, rfl⟩, fun h4 => absurd rfl (h4 body), fun h0 => by cases h0⟩
      · simp only [IsHTTPError, hs, decide_False, Bool.false_eq_true, if_false]
        exact ⟨⟨rfl, rfl, rfl, rfl⟩, fun _ => Or.inl ⟨_, rfl⟩, fun h0 => by cases h0⟩

theorem CreatePostulacion_primera_vigente (e : Entorno) (dto : CreatePostulacionDTO)
    (w : Mundo) (r : CastorPostulacion) (t : List CastorPostulacion)
    (hresp : e.respuesta w.reloj = none)
    (hfil : w.postulaciones.filter (fun r =>
      decide (r.EstudianteId = dto.EstudianteId) &&
        decide (r.OfertaPasantiaId = some dto.OfertaId)) = r :: t)
    (hvig : equalFold e.unicode (trimSpace r.EstadoPostulacion) PostEstadoDescartada = false) :
    CreatePostulacion e dto w =
      (.ok (mapCastorPostulacion r, false), { w with reloj := w.reloj + 1 }) := by
  simp only [CreatePostulacion, ListPostulaciones, bind_apply, listPostulacionesParCrud_eval,
    hresp, hfil, pure_apply, List.take_succ_cons, List.take_zero, List.map_cons, List.map_nil,
    primeraVigente]
  have h2 : equalFold e.unicode (mapCastorPostulacion r).EstadoPostulacion
      PostEstadoDescartada = false := hvig
  simp only [h2, Bool.not_false, if_true]
  rfl

theorem bucleReintentos_spec {B V : Type} (cfg : Reintentos) (lower : Char → Char)
    (c : Codec B V) (wrapped : Bool) (intentos : Nat → Intento B) :
    ∀ (vueltas attempt : Nat) (out : Option V) (esperas : List Int),
      attempt + vueltas = cfg.defaultRetryCount + 1 → 0 < vueltas →
      ∃ r, bucleReintentos cfg lower c wrapped intentos vueltas attempt out esperas = some r ∧
        attempt < r.intentos ∧ r.intentos ≤ cfg.defaultRetryCount + 1 ∧
        r.esperas =
          esperas ++ (List.range' attempt (r.intentos - 1 - attempt)).map (backoffFor cfg) ∧
        ((∀ k, attempt ≤ k → k < cfg.defaultRetryCount → ∀ o,
            ∃ err, (doOnce c wrapped (intentos k) o).1 = some err ∧
              isRetryableErr lower err = true) →
          (∀ o, (doOnce c wrapped (intentos cfg.defaultRetryCount) o).1 = none) →
          r.err = none ∧ r.intentos = cfg.defaultRetryCount + 1) := by
  intro vueltas
  induction vueltas with
  | zero => intro _ _ _ _ h; exact absurd h (Nat.lt_irrefl 0)
  | succ k ih =>
    intro attempt out esperas hsum _
    have hle : attempt ≤ cfg.defaultRetryCount := by omega
    rcases hd : doOnce c wrapped (intentos attempt) out with ⟨res, out1⟩
    cases res with
    | none =>
      refine ⟨{ err := none, out := out1, intentos := attempt + 1, esperas := esperas },
        ?_, Nat.lt_succ_self _, by simpa using hle, by simp, ?_⟩
      · simp only [bucleReintentos, hd]
      · intro h1 _
        refine ⟨rfl, ?_⟩
        rcases Nat.lt_or_ge attempt cfg.defaultRetryCount with hlt | hge
        · obtain ⟨err, he, _⟩ := h1 attempt (Nat.le_refl _) hlt out
          rw [hd] at he; cases he
        · show attempt + 1 = cfg.defaultRetryCount + 1
          omega
    | some err =>
      by_cases hc : attempt ≥ cfg.defaultRetryCount ∨ isRetryableErr lower err = false
      · refine ⟨{ err := some err, out := out1, intentos := attempt + 1, esperas := esperas },
          ?_, Nat.lt_succ_self _, by simpa using hle, by simp, ?_⟩
        · simp only [bucleReintentos, hd, if_pos hc]
        · intro h1 h2
          exfalso
          rcases Nat.lt_or_ge attempt cfg.defaultRetryCount with hlt | hge
          · obtain ⟨err1, he, hr⟩ := h1 attempt (Nat.le_refl _) hlt out
            rw [hd] at he
            injection he with he
            subst he
            rcases hc with hc | hc
            · omega
            · rw [hr] at hc; cases hc
          · have heq : attempt = cfg.defaultRetryCount := by omega
            have h3 := h2 out
            rw [← heq, hd] at h3
            cases h3
      · have hlt : attempt < cfg.defaultRetryCount := by
          by_contra hn
          exact hc (Or.inl (by omega))
        obtain ⟨r, hr, hgt, hmax, hesp, hok⟩ := ih (attempt + 1) out1
          (esperas ++ [backoffFor cfg attempt]) (by omega) (by omega)
        refine ⟨r, ?_, by omega, hmax, ?_, ?_⟩
        · simp only [bucleReintentos, hd, if_neg hc]; exact hr
        · rw [hesp]
          have hn : r.intentos - 1 - attempt = (r.intentos - 1 - (attempt + 1)) + 1 := by omega
          rw [hn, List.range'_succ]
          simp
        · intro h1 h2
          exact hok (fun k hk => h1 k (by omega)) h2

theorem wrapInt64_id (x : Int) (h0 : - 2 ^ 63 ≤ x) (h1 : x < 2 ^ 63) : wrapInt64 x = x := by
  unfold wrapInt64
  rw [Int.emod_eq_of_lt (by omega) (by omega)]
  omega

theorem backoffFor_sin_desborde (cfg : Reintentos) (n : Nat)
    (hpos : 0 < cfg.defaultBackoffBase) (hfit : cfg.defaultBackoffBase * 2 ^ n < 2 ^ 63) :
    backoffFor cfg n = min (cfg.defaultBackoffBase * 2 ^ n) maxBackoff := by
  have h0 : (0 : Int) ≤ cfg.defaultBackoffBase * 2 ^ n :=
    Int.mul_nonneg (Int.le_of_lt hpos) (pow_nonneg (by decide) n)
  unfold backoffFor
  simp only []
  rw [wrapInt64_id _ (by omega) hfit]
  by_cases h : cfg.defaultBackoffBase * 2 ^ n > maxBackoff
  · rw [if_pos h, min_eq_right (Int.le_of_lt h)]
  · rw [if_neg h, min_eq_left (not_lt.1 h)]

theorem bucleReintentos_constante {B V : Type} (cfg : Reintentos) (lower : Char → Char)
    (c : Codec B V) (wrapped : Bool) (intentos : Nat → Intento B) (out : Option V)
    (err : ErrIntento) (h : ∀ k, doOnce c wrapped (intentos k) out = (some err, out)) :
    ∀ (vueltas attempt : Nat) (esperas : List Int),
      attempt + vueltas = cfg.defaultRetryCount + 1 → 0 < vueltas →
      ∃ r, bucleReintentos cfg lower c wrapped intentos vueltas attempt out esperas = some r ∧
        r.err = some err ∧ r.out = out := by
  intro vueltas
  induction vueltas with
  | zero => intro _ _ _ h0; exact absurd h0 (Nat.lt_irrefl 0)
  | succ k ih =>
    intro attempt esperas hsum _
    by_cases hc : attempt ≥ cfg.defaultRetryCount ∨ isRetryableErr lower err = false
    · exact ⟨{ err := some err, out := out, intentos := attempt + 1, esperas := esperas },
        by simp only [bucleReintentos, h, if_pos hc], rfl, rfl⟩
    · have hlt : attempt < cfg.defaultRetryCount := by
        by_contra hn
        exact hc (Or.inl (by omega))
      obtain ⟨r, hr, he, ho⟩ := ih (attempt + 1) (esperas ++ [backoffFor cfg attempt])
        (by omega) (by omega)
      exact ⟨r, by simp only [bucleReintentos, h, if_neg hc]; exact hr, he, ho⟩

theorem UpdateOfertaMerge_emite (e : Entorno) (id : Int) (estado : String) (w : Mundo) :
    (UpdateOfertaMerge e id estado w).2.postulaciones = w.postulaciones ∧
    ∃ l, (UpdateOfertaMerge e id estado w).2.escrituras = w.escrituras ++ l ∧
      ∀ x ∈ l, ∃ raw, w.ofertas.find? (fun r => decide (r.Id = id)) = some raw ∧
        ofertaCompleta raw ∧ x = .putOferta id (payloadEstado e.unicode raw estado) := by
  refine ⟨UpdateOfertaMerge_mismasPostulaciones e id estado w, ?_⟩
  cases hr : e.respuesta w.reloj with
  | some err =>
    have key : UpdateOfertaMerge e id estado w =
        (.error (.up err), { w with reloj := w.reloj + 1 }) := by
      simp only [UpdateOfertaMerge, bind_apply, getOfertaCrud_eval, hr]
    rw [key]
    exact ⟨[], by simp, by simp⟩
  | none =>
    cases hf : w.ofertas.find? (fun r => decide (r.Id = id)) with
    | none =>
      have key : UpdateOfertaMerge e id estado w =
          (.error (.up (.http 404 "")), { w with reloj := w.reloj + 1 }) := by
        simp only [UpdateOfertaMerge, bind_apply, getOfertaCrud_eval, hr, hf]
      rw [key]
      exact ⟨[], by simp, by simp⟩
    | some raw =>
      by_cases h0 : raw.Id = 0
      · have key : UpdateOfertaMerge e id estado w =
            (.error (.app 404 "oferta no encontrada"), { w with reloj := w.reloj + 1 }) := by
          simp only [UpdateOfertaMerge, bind_apply, getOfertaCrud_eval, hr, hf, h0, if_true,
            fallar]
        rw [key]
        exact ⟨[], by simp, by simp⟩
      · by_cases h1 : trimSpace raw.Titulo = "" ∨ raw.EmpresaId = 0
        · have key : UpdateOfertaMerge e id estado w =
              (.error (.app 409 "oferta inválida para actualización"),
                { w with reloj := w.reloj + 1 }) := by
            simp only [UpdateOfertaMerge, bind_apply, getOfertaCrud_eval, hr, hf, h0, if_false,
              h1, if_true, fallar]
          rw [key]
          exact ⟨[], by simp, by simp⟩
        · have hc : ofertaCompleta raw :=
            ⟨h0, fun h => h1 (Or.inl h), fun h => h1 (Or.inr h)⟩
          have key : (UpdateOfertaMerge e id estado w).2.escrituras =
              w.escrituras ++ [.putOferta id (payloadEstado e.unicode raw estado)] := by
            simp only [UpdateOfertaMerge, bind_apply, getOfertaCrud_eval, hr, hf, h0, if_false,
              h1, putOfertaCrud_eval, payloadEstado]
            cases e.respuesta (w.reloj + 1) <;> rfl
          rw [key]
          exact ⟨[_], rfl, fun x hx => ⟨raw, rfl, hc, List.mem_singleton.1 hx⟩⟩

theorem cancelarOferta_marco (e : Entorno) (ofertaID : Int) :
    Preserva (Marco esPutPostulacion) (cancelarOferta e ofertaID) := by
  refine preserva_bind (marco_trans _)
    (preserva_mono (fun _ _ h => marco_of_soloReloj _ h)
      (ListPostulacionesByOferta_soloReloj e _)) (fun ps => ?_)
  refine preserva_ite (preserva_pure (marco_refl _) ()) ?_
  exact preserva_ite (preserva_pure (marco_refl _) ()) (bulk_marco_put e _ _)

theorem payloadEstado_conserva (u : Unicode) (raw : CastorOferta) (d : String)
    (hd : trimSpace d ≠ "") : PayloadConserva u raw d (payloadEstado u raw d) := by
  simp only [payloadEstado, applyPatchEstado, hd, ne_eq, not_false_eq_true, if_true,
    PayloadConserva, and_self]

theorem cascada_luego_merge (e : Entorno) (id : Int) (d : String) (m : Op Unit)
    (hm : Preserva (Marco esPutPostulacion) m) (w : Mundo) (i : Int) (body : OfertaPayload)
    (h : Peticion.putOferta i body ∈
      nuevas w ((m >>= fun _ => UpdateOfertaMerge e id d) w).2) :
    ∃ raw, w.ofertas.find? (fun r => decide (r.Id = id)) = some raw ∧ ofertaCompleta raw ∧
      i = id ∧ body = payloadEstado e.unicode raw d := by
  obtain ⟨hof, _, l1, hl1, hp1⟩ := hm w
  rw [bind_apply] at h
  rcases hmw : m w with ⟨r, w1⟩
  rw [hmw] at h hof hl1
  cases r with
  | error err =>
    rw [nuevas_of_eq hl1] at h
    obtain ⟨_, _, hx⟩ := hp1 _ h
    cases hx
  | ok u =>
    obtain ⟨_, l2, hl2, hp2⟩ := UpdateOfertaMerge_emite e id d w1
    have hl : (UpdateOfertaMerge e id d w1).2.escrituras = w.escrituras ++ (l1 ++ l2) := by
      rw [hl2, hl1, List.append_assoc]
    have h2 : Peticion.putOferta i body ∈ l1 ++ l2 := by
      rw [← nuevas_of_eq hl]; exact h
    rcases List.mem_append.1 h2 with h3 | h3
    · obtain ⟨_, _, hx⟩ := hp1 _ h3
      cases hx
    · obtain ⟨raw, hf, hc, hx⟩ := hp2 _ h3
      injection hx with hi hb
      exact ⟨raw, by rw [← hof]; exact hf, hc, hi, hb⟩

theorem payloadEstado_de_destino (u : Unicode) (raw : CastorOferta) (s c : String)
    (hn : toUpper u (trimSpace s) = c) (hc : toUpper u (trimSpace c) = c)
    (hne : trimSpace c ≠ "") : PayloadConserva u raw s (payloadEstado u raw c) := by
  obtain ⟨h1, h2, h3, h4, h5, h6, h7, h8⟩ := payloadEstado_conserva u raw c hne
  exact ⟨h1, h2, h3, h4, h5, h6, h7, by rw [h8, hc, hn]⟩

theorem limitesPagina_sin_desborde (total page size : Int) (ht : 0 ≤ total) (hp : 1 ≤ page)
    (hs : 1 ≤ size) (hfit : (page - 1) * size < 2 ^ 63) (hfit2 : total + size < 2 ^ 63) :
    0 ≤ (limitesPagina total page size).1 ∧
    (limitesPagina total page size).1 ≤ (limitesPagina total page size).2 ∧
    (limitesPagina total page size).2 ≤ total := by
  have h0 : 0 ≤ (page - 1) * size := Int.mul_nonneg (by omega) (by omega)
  simp only [limitesPagina]
  rw [wrapInt64_id _ (by omega) hfit]
  by_cases h1 : (page - 1) * size > total
  · simp only [h1, if_true]
    rw [wrapInt64_id _ (by omega) hfit2]
    have h2 : total + size > total := by omega
    simp only [h2, if_true]
    omega
  · simp only [h1, if_false]
    rw [wrapInt64_id _ (by omega) (by omega)]
    by_cases h2 : (page - 1) * size + size > total
    · simp only [h2, if_true]; omega
    · simp only [h2, if_false]; omega

theorem digito_cifra (d : Nat) (h : d < 10) : digito (Char.ofNat (48 + d)) = some d := by
  interval_cases d <;> rfl

theorem cifra_no_signo (d : Nat) (h : d < 10) :
    Char.ofNat (48 + d) ≠ '-' ∧ Char.ofNat (48 + d) ≠ '+' ∧
      isSpace (Char.ofNat (48 + d)) = false := by
  interval_cases d <;> exact ⟨by decide, by decide, rfl⟩

theorem leerDigitos_cifras :
    ∀ (vueltas n : Nat) (acc : List Char), n < 10 ^ vueltas →
      leerDigitos (cifras vueltas n acc) 0 = leerDigitos acc n := by
  intro vueltas
  induction vueltas with
  | zero =>
    intro n acc h
    have hn : n = 0 := by simpa using h
    subst hn
    rfl
  | succ k ih =>
    intro n acc h
    by_cases h10 : n < 10
    · simp only [cifras, h10, if_true, leerDigitos, digito_cifra n h10, Nat.zero_mul,
        Nat.zero_add]
    · have hk : n / 10 < 10 ^ k := by
        rw [Nat.div_lt_iff_lt_mul (by decide)]
        rw [pow_succ] at h
        exact h
      simp only [cifras, h10, if_false]
      rw [ih (n / 10) _ hk]
      simp only [leerDigitos, digito_cifra (n % 10) (Nat.mod_lt _ (by decide))]
      rw [Nat.div_add_mod' n 10]

theorem cifras_cabeza :
    ∀ (vueltas n : Nat) (acc : List Char), n < 10 ^ (vueltas + 1) →
      ∃ d t, d < 10 ∧ cifras (vueltas + 1) n acc = Char.ofNat (48 + d) :: t ∧
        (∀ c ∈ t, c ∈ acc ∨ ∃ d1, d1 < 10 ∧ c = Char.ofNat (48 + d1)) := by
  intro vueltas
  induction vueltas with
  | zero =>
    intro n acc h
    have h10 : n < 10 := by simpa using h
    exact ⟨n, acc, h10, by simp only [cifras, h10, if_true], fun c hc => Or.inl hc⟩
  | succ k ih =>
    intro n acc h
    by_cases h10 : n < 10
    · exact ⟨n, acc, h10, by simp only [cifras, h10, if_true], fun c hc => Or.inl hc⟩
    · have hk : n / 10 < 10 ^ (k + 1) := by
        rw [Nat.div_lt_iff_lt_mul (by decide)]
        rw [pow_succ] at h
        exact h
      obtain ⟨d, t, hd, ht, hmem⟩ := ih (n / 10) (Char.ofNat (48 + n % 10) :: acc) hk
      refine ⟨d, t, hd, ?_, ?_⟩
      · rw [← ht]
        conv_lhs => rw [cifras]
        simp only [h10, if_false]
      · intro c hc
        rcases hmem c hc with h1 | h1
        · rcases List.mem_cons.1 h1 with h2 | h2
          · exact Or.inr ⟨n % 10, Nat.mod_lt _ (by decide), h2⟩
          · exact Or.inl h2
        · exact Or.inr h1

theorem dropWhile_sin_espacios (l : List Char) (h : ∀ c ∈ l, isSpace c = false) :
    l.dropWhile isSpace = l := by
  cases l with
  | nil => rfl
  | cons a t => simp only [List.dropWhile, h a (List.mem_cons_self _ _)]

theorem trimSpace_sin_espacios (s : String) (h : ∀ c ∈ s.data, isSpace c = false) :
    trimSpace s = s := by
  have h1 : s.data.dropWhile isSpace = s.data := dropWhile_sin_espacios _ h
  have h2 : s.data.reverse.dropWhile isSpace = s.data.reverse :=
    dropWhile_sin_espacios _ (fun c hc => h c (List.mem_reverse.1 hc))
  show (⟨((s.data.dropWhile isSpace).reverse.dropWhile isSpace).reverse⟩ : String) = s
  rw [h1, h2, List.reverse_reverse]

theorem cifras_forma (m : Nat) :
    ∃ d t, d < 10 ∧ cifras (m + 1) m [] = Char.ofNat (48 + d) :: t ∧
      (∀ c ∈ t, isSpace c = false) ∧ leerDigitos (cifras (m + 1) m []) 0 = some m := by
  have hm : m < 10 ^ (m + 1) :=
    Nat.lt_of_lt_of_le (Nat.lt_pow_self (by decide) m) (Nat.pow_le_pow_right (by decide)
      (Nat.le_succ m))
  obtain ⟨d, t, hd, ht, hmem⟩ := cifras_cabeza m m [] hm
  refine ⟨d, t, hd, ht, ?_, ?_⟩
  · intro c hc
    rcases hmem c hc with h1 | ⟨d1, hd1, h1⟩
    · cases h1
    · rw [h1]; exact (cifra_no_signo d1 hd1).2.2
  · rw [leerDigitos_cifras (m + 1) m [] hm]; rfl

theorem trimSpace_decimal (n : Int) : trimSpace (decimal n) = decimal n ∧ decimal n ≠ "" := by
  obtain ⟨d, t, hd, ht, hesp, _⟩ := cifras_forma n.natAbs
  have hdig := (cifra_no_signo d hd).2.2
  unfold decimal
  by_cases hneg : n < 0
  · simp only [hneg, if_true]
    refine ⟨trimSpace_sin_espacios _ ?_, ?_⟩
    · intro c hc
      rw [ht] at hc
      rcases List.mem_cons.1 hc with h1 | h1
      · rw [h1]; rfl
      · rcases List.mem_cons.1 h1 with h2 | h2
        · rw [h2]; exact hdig
        · exact hesp c h2
    · intro h
      have := congrArg String.data h
      cases this
  · simp only [hneg, if_false]
    refine ⟨trimSpace_sin_espacios _ ?_, ?_⟩
    · intro c hc
      rw [ht] at hc
      rcases List.mem_cons.1 hc with h2 | h2
      · rw [h2]; exact hdig
      · exact hesp c h2
    · intro h
      have := congrArg String.data h
      rw [ht] at this
      cases this

theorem ParseInt_decimal (n : Int) (h : n.natAbs < 2 ^ 63) :
    ParseInt (decimal n) = some n := by
  obtain ⟨d, t, hd, ht, _, hleer⟩ := cifras_forma n.natAbs
  obtain ⟨hmenos, hmas, _⟩ := cifra_no_signo d hd
  unfold decimal
  by_cases hneg : n < 0
  · have hne : cifras (n.natAbs + 1) n.natAbs [] ≠ [] := by rw [ht]; exact List.cons_ne_nil _ _
    have hle : n.natAbs ≤ 2 ^ 63 := Nat.le_of_lt h
    simp only [hneg, if_true, ParseInt, hne, if_false, hleer, hle]
    congr 1
    omega
  · simp only [hneg, if_false, ParseInt]
    rw [ht]
    simp only [hmenos, hmas, if_false]
    rw [← ht, hleer]
    simp only [h, if_true]
    congr 1
    omega

/-! ## The PUT of `UpdatePostulacionEstado` against the stored objects

For an upstream that keeps the object of a row under the keys the record type of the
gateway decodes, the object after the PUT has the new state under `estado_postulacion`
and decodes to the same record as before: this is the step `putPostulacionMapaCrud` takes
on the typed rows. -/

theorem decode_tras_actualizar (u : Unicode) (esFecha : String → Bool)
    (r : CastorPostulacion) (n : Int) (normalized cuando : String)
    (ho : r.OfertaPasantiaId = some n) :
    decodePostulacionRecord u esFecha
        [("EstadoPostulacion", .str r.EstadoPostulacion), ("EstudianteId", .num r.EstudianteId),
          ("Id", .num r.Id), ("OfertaPasantiaId", .campo "Id" (.num n) .vacio),
          ("estado_postulacion", .str normalized), ("fecha_estado", .str cuando)] =
      decodePostulacionRecord u esFecha (documentoDe r) := by
  simp only [documentoDe, ho, decodePostulacionRecord, List.foldl, Option.bind]
  delta decodeMiembro
  simp [equalFold, equalFoldRunes, foldRune]
  by_cases h1 : -9223372036854775808 ≤ r.EstudianteId ∧ r.EstudianteId < 9223372036854775808 <;>
    by_cases h2 : -9223372036854775808 ≤ r.Id ∧ r.Id < 9223372036854775808 <;>
    simp [h1, h2]

theorem UpdatePostulacionEstadoJson_conserva (u : Unicode) (f : Float64)
    (esFecha : String → Bool) (r : CastorPostulacion) (n : Int) (estado cuando : String)
    (ho : r.OfertaPasantiaId = some n) (hest : toUpper u (trimSpace estado) ≠ "") :
    UpdatePostulacionEstadoJson u false [(r.Id, documentoDe r)] r.Id estado cuando =
      (.ok (), [(r.Id,
        [("EstadoPostulacion", .str r.EstadoPostulacion), ("EstudianteId", .num r.EstudianteId),
          ("Id", .num r.Id), ("OfertaPasantiaId", .campo "Id" (.num n) .vacio),
          ("estado_postulacion", .str (toUpper u (trimSpace estado))),
          ("fecha_estado", .str cuando)])]) ∧
    GetPostulacionByIDJson u f esFecha false
        (UpdatePostulacionEstadoJson u false [(r.Id, documentoDe r)] r.Id estado cuando).2
        r.Id =
      GetPostulacionByIDJson u f esFecha false [(r.Id, documentoDe r)] r.Id := by
  have h1 : UpdatePostulacionEstadoJson u false [(r.Id, documentoDe r)] r.Id estado cuando =
      (.ok (), [(r.Id,
        [("EstadoPostulacion", .str r.EstadoPostulacion), ("EstudianteId", .num r.EstudianteId),
          ("Id", .num r.Id), ("OfertaPasantiaId", .campo "Id" (.num n) .vacio),
          ("estado_postulacion", .str (toUpper u (trimSpace estado))),
          ("fecha_estado", .str cuando)])]) := by
    simp [UpdatePostulacionEstadoJson, getRegistro, documentoDe, ho, aMapa, Mapa.poner,
      Mapa.obtener, hest, putRegistro, marshalMapa, insertarPorClave, menorRunes]
  refine ⟨h1, ?_⟩
  rw [h1]
  simp only [GetPostulacionByIDJson, getRegistro, List.find?, decide_True, Option.map,
    Bool.false_eq_true, if_false]
  rw [decode_tras_actualizar u esFecha r n _ cuando ho]

/-! ## Claims -/

/-- C1: when the listing of the offer's applications succeeds, `validarOfertaEnCurso`
returns a 409 conflict exactly when the number of applications of the offer whose
trimmed, upper-cased state is `PSAC_CTR` is not one, and when it returns that
conflict it has issued no write and the stored applications are unchanged. -/
theorem validarOfertaEnCurso_conflicto_iff (e : Entorno) (ofertaID : Int) (w : Mundo)
    (hlist : (ListPostulacionesByOferta e ofertaID w).1 = .ok (postulacionesDeOferta w ofertaID)) :
    (esConflicto (validarOfertaEnCurso e ofertaID w).1 ↔
        (aceptadasDeOferta e.unicode w ofertaID).length ≠ 1) ∧
    (esConflicto (validarOfertaEnCurso e ofertaID w).1 →
        (validarOfertaEnCurso e ofertaID w).2.escrituras = w.escrituras ∧
        (validarOfertaEnCurso e ofertaID w).2.postulaciones = w.postulaciones) := by
  have hresp : e.respuesta w.reloj = none := by
    cases h : e.respuesta w.reloj with
    | none => rfl
    | some ue =>
      simp [ListPostulacionesByOferta, listPostulacionesCrud, bind_apply, peticion, h] at hlist
  have hlen : (aceptadasVistas e.unicode (postulacionesDeOferta w ofertaID)).length =
      (aceptadasDeOferta e.unicode w ofertaID).length := by
    rw [aceptadasVistas_postulacionesDeOferta, List.length_map]
  unfold validarOfertaEnCurso
  rw [bind_apply, ListPostulacionesByOferta_ok e ofertaID w hresp]
  simp only
  rw [clasificar_none, ← hlen]
  rcases hav : aceptadasVistas e.unicode (postulacionesDeOferta w ofertaID) with _ | ⟨a, _ | ⟨b, l⟩⟩
  · simp [fallar, esConflicto]
  · simp only [List.length_singleton, ne_eq, not_true_eq_false, iff_false]
    have hno : ∀ ds w1, ¬ esConflicto (cascadaEnCurso e a ds w1).1 := by
      rintro ds w1 ⟨msg, hmsg⟩
      obtain ⟨ue, hue⟩ := cascadaEnCurso_errUp e a ds w1 _ hmsg
      cases hue
    exact ⟨hno _ _, fun h => absurd h (hno _ _)⟩
  · simp [fallar, esConflicto]

theorem validarOfertaEnCurso_conflicto_iff_witness :
    (ListPostulacionesByOferta entornoSinFallos 5 mundoEjemplo).1 =
        .ok (postulacionesDeOferta mundoEjemplo 5) ∧
    ((esConflicto (validarOfertaEnCurso entornoSinFallos 5 mundoEjemplo).1 ↔
        (aceptadasDeOferta entornoSinFallos.unicode mundoEjemplo 5).length ≠ 1) ∧
    (esConflicto (validarOfertaEnCurso entornoSinFallos 5 mundoEjemplo).1 →
        (validarOfertaEnCurso entornoSinFallos 5 mundoEjemplo).2.escrituras =
          mundoEjemplo.escrituras ∧
        (validarOfertaEnCurso entornoSinFallos 5 mundoEjemplo).2.postulaciones =
          mundoEjemplo.postulaciones)) :=
  ⟨rfl, validarOfertaEnCurso_conflicto_iff entornoSinFallos 5 mundoEjemplo rfl⟩

/-- C3: if any request issued by the in-progress cascade (the listing of the offer's
applications, the listing of the student's applications, or the GET or PUT of an
application update) is answered with an error, `validarOfertaEnCurso` returns an error,
`ChangeOfertaEstado` returns that same error, the stored offers are unchanged and no
PUT of the offer has been issued. -/
theorem ChangeOfertaEstado_enCurso_propaga (e : Entorno) (ofertaID : Int) (w : Mundo)
    (hfail : ∃ n, w.reloj ≤ n ∧ n < (validarOfertaEnCurso e ofertaID w).2.reloj ∧
      e.respuesta n ≠ none) :
    (∃ err, (validarOfertaEnCurso e ofertaID w).1 = .error err ∧
      (ChangeOfertaEstado e ofertaID OfertaEstadoEnCurso w).1 = .error err) ∧
    (ChangeOfertaEstado e ofertaID OfertaEstadoEnCurso w).2.ofertas = w.ofertas ∧
    ∀ id body,
      Peticion.putOferta id body ∈
          (ChangeOfertaEstado e ofertaID OfertaEstadoEnCurso w).2.escrituras →
        Peticion.putOferta id body ∈ w.escrituras := by
  obtain ⟨n, hn1, hn2, hn3⟩ := hfail
  have hh := validarOfertaEnCurso_honesto e ofertaID w
  have hm := validarOfertaEnCurso_marco e ofertaID w
  rw [ChangeOfertaEstado_enCurso, bind_apply]
  rcases hv : validarOfertaEnCurso e ofertaID w with ⟨r, w1⟩
  rw [hv] at hh hm hn2
  cases r with
  | ok a => exact absurd (hh.2 ⟨a, rfl⟩ n hn1 hn2) hn3
  | error err =>
    obtain ⟨ho, _, l, hl, hp⟩ := hm
    refine ⟨⟨err, rfl, rfl⟩, ho, fun id body hmem => ?_⟩
    simp only at hmem hl
    rw [hl] at hmem
    rcases List.mem_append.1 hmem with h | h
    · exact h
    · obtain ⟨i, b, hib⟩ := hp _ h
      cases hib

theorem ChangeOfertaEstado_enCurso_propaga_witness :
    (∃ n, mundoEjemplo.reloj ≤ n ∧
        n < (validarOfertaEnCurso (entornoFallo 2) 5 mundoEjemplo).2.reloj ∧
        (entornoFallo 2).respuesta n ≠ none) ∧
    ((∃ err, (validarOfertaEnCurso (entornoFallo 2) 5 mundoEjemplo).1 = .error err ∧
      (ChangeOfertaEstado (entornoFallo 2) 5 OfertaEstadoEnCurso mundoEjemplo).1 = .error err) ∧
    (ChangeOfertaEstado (entornoFallo 2) 5 OfertaEstadoEnCurso mundoEjemplo).2.ofertas =
      mundoEjemplo.ofertas ∧
    ∀ id body,
      Peticion.putOferta id body ∈
          (ChangeOfertaEstado (entornoFallo 2) 5 OfertaEstadoEnCurso mundoEjemplo).2.escrituras →
        Peticion.putOferta id body ∈ mundoEjemplo.escrituras) :=
  ⟨⟨2, by decide, by decide, by decide⟩,
    ChangeOfertaEstado_enCurso_propaga (entornoFallo 2) 5 mundoEjemplo
      ⟨2, by decide, by decide, by decide⟩⟩

/-- C4: every write `cancelarOferta` issues is a state update to `PSCD_CTR` of an
application of the offer with non-zero id whose trimmed, upper-cased state is one of
`PSPO_CTR`, `PSRV_CTR`, `PSPR_CTR`, `PSAC_CTR`; when it returns without error every such
application received its update to `PSCD_CTR`; it returns without error when no request
fails; and, ids being unique in the store, no update is issued for an application in any
other state (discarded `PSRJ_CTR` and selected `PSSE_CTR` among them). -/
theorem cancelarOferta_cierra_activas (e : Entorno) (ofertaID : Int) (w : Mundo) :
    (∀ x ∈ nuevas w (cancelarOferta e ofertaID w).2,
      ∃ r ∈ w.postulaciones, r.OfertaPasantiaId = some ofertaID ∧ r.Id ≠ 0 ∧
        estadoNorm e.unicode r.EstadoPostulacion ∈
          ["PSPO_CTR", "PSRV_CTR", "PSPR_CTR", "PSAC_CTR"] ∧
        ∃ body, x = .putPostulacion r.Id body ∧ body.EstadoPostulacion = "PSCD_CTR") ∧
    ((cancelarOferta e ofertaID w).1 = .ok () →
      ∀ r ∈ w.postulaciones, r.OfertaPasantiaId = some ofertaID → r.Id ≠ 0 →
        estadoNorm e.unicode r.EstadoPostulacion ∈
          ["PSPO_CTR", "PSRV_CTR", "PSPR_CTR", "PSAC_CTR"] →
        ∃ body, body.EstadoPostulacion = "PSCD_CTR" ∧
          Peticion.putPostulacion r.Id body ∈ nuevas w (cancelarOferta e ofertaID w).2) ∧
    ((∀ n, e.respuesta n = none) → (cancelarOferta e ofertaID w).1 = .ok ()) ∧
    ((w.postulaciones.map (fun r => r.Id)).Nodup →
      ∀ r ∈ w.postulaciones,
        estadoNorm e.unicode r.EstadoPostulacion ∉
          ["PSPO_CTR", "PSRV_CTR", "PSPR_CTR", "PSAC_CTR"] →
        ∀ body, Peticion.putPostulacion r.Id body ∉
          nuevas w (cancelarOferta e ofertaID w).2) := by
  have h1 : ∀ x ∈ nuevas w (cancelarOferta e ofertaID w).2,
      ∃ r ∈ w.postulaciones, r.OfertaPasantiaId = some ofertaID ∧ r.Id ≠ 0 ∧
        estadoNorm e.unicode r.EstadoPostulacion ∈
          ["PSPO_CTR", "PSRV_CTR", "PSPR_CTR", "PSAC_CTR"] ∧
        ∃ body, x = .putPostulacion r.Id body ∧ body.EstadoPostulacion = "PSCD_CTR" := by
    cases hr : e.respuesta w.reloj with
    | some ue =>
      rw [cancelarOferta_eval_error e ofertaID w ue hr]
      simp [nuevas]
    | none =>
      rw [cancelarOferta_eval e ofertaID w hr]
      have hm := nuevas_of_marco (updatePostulacionEstadoBulk_marco e
        (idsActivos e.unicode (postulacionesDeOferta w ofertaID)) "PSCD_CTR"
        { w with reloj := w.reloj + 1 })
      intro x hx
      obtain ⟨id, body, hxe, ⟨hid, hne⟩, hb⟩ := hm.2 x hx
      obtain ⟨r, hr, ho, hact, hrid⟩ := (mem_idsActivos e.unicode w ofertaID id).1 hid
      exact ⟨r, hr, ho, hrid ▸ hne, hact, body, hrid ▸ hxe, hb⟩
  refine ⟨h1, ?_, ?_, ?_⟩
  · intro hok r hr ho hne hact
    have hemite : ∃ body, Peticion.putPostulacion r.Id body ∈
        nuevas w (cancelarOferta e ofertaID w).2 := by
      cases hresp : e.respuesta w.reloj with
      | some ue => simp [cancelarOferta_eval_error e ofertaID w ue hresp] at hok
      | none =>
        rw [cancelarOferta_eval e ofertaID w hresp] at hok ⊢
        exact updatePostulacionEstadoBulk_emite e "PSCD_CTR" _ _ hok r.Id
          ((mem_idsActivos e.unicode w ofertaID r.Id).2 ⟨r, hr, ho, hact, rfl⟩) hne
    obtain ⟨body, hmem⟩ := hemite
    obtain ⟨_, _, _, _, _, b2, hb2, hcd⟩ := h1 _ hmem
    have hbody : body = b2 := by injection hb2
    exact ⟨body, hbody ▸ hcd, hmem⟩
  · intro hresp
    rw [cancelarOferta_eval e ofertaID w (hresp _)]
    obtain ⟨w1, hw1, _⟩ := updatePostulacionEstadoBulk_sinFallos e "PSCD_CTR" hresp
      (idsActivos e.unicode (postulacionesDeOferta w ofertaID)) { w with reloj := w.reloj + 1 }
      (fun id hid _ => by
        obtain ⟨r, hr, _, _, hrid⟩ := (mem_idsActivos e.unicode w ofertaID id).1 hid
        exact ⟨r, hr, hrid⟩)
    rw [hw1]
  · intro hnd r hr hna body hmem
    obtain ⟨r2, hr2, _, _, hact, b2, hb2, _⟩ := h1 _ hmem
    have hid : r.Id = r2.Id := by injection hb2
    have : r = r2 := List.inj_on_of_nodup_map hnd hr hr2 hid
    exact hna (this ▸ hact)

/-- C2: when every upstream request succeeds, application ids are unique and non-zero,
and the offer has exactly one accepted application `A`, the cascade of
`validarOfertaEnCurso` completes, and after a successful
`ChangeOfertaEstado(offer, OPCUR_CTR)` the row `A` is still stored unchanged (state
`PSAC_CTR`), every other application of the offer has the trimmed, upper-cased state
`PSRJ_CTR`, and every other application of the student of `A`, on any offer, has a state
matching `PSRJ_CTR` under the case-insensitive test the student cascade itself applies
(`strings.EqualFold` after trimming), hence the trimmed, upper-cased state `PSRJ_CTR`
whenever the stored state is ASCII. -/
theorem ChangeOfertaEstado_enCurso_descarta (e : Entorno) (ofertaID : Int) (w w1 : Mundo)
    (A : CastorPostulacion) (o : Oferta)
    (hresp : ∀ n, e.respuesta n = none)
    (hnd : (w.postulaciones.map (fun r => r.Id)).Nodup)
    (hnz : ∀ r ∈ w.postulaciones, r.Id ≠ 0)
    (hA : aceptadasDeOferta e.unicode w ofertaID = [A])
    (hok : ChangeOfertaEstado e ofertaID OfertaEstadoEnCurso w = (.ok o, w1)) :
    (validarOfertaEnCurso e ofertaID w).1 = .ok () ∧
    (A ∈ w1.postulaciones ∧ estadoNorm e.unicode A.EstadoPostulacion = PostEstadoAceptada) ∧
    (∀ r ∈ w1.postulaciones, r.OfertaPasantiaId = some ofertaID → r.Id ≠ A.Id →
      estadoNorm e.unicode r.EstadoPostulacion = PostEstadoDescartada) ∧
    (∀ r ∈ w1.postulaciones, r.EstudianteId = A.EstudianteId → r.Id ≠ A.Id →
      esDescartadaFold e.unicode r.EstadoPostulacion ∧
      ((∀ c ∈ r.EstadoPostulacion.data, c.toNat < 128) →
        estadoNorm e.unicode r.EstadoPostulacion = PostEstadoDescartada)) := by
  obtain ⟨w2, I1, I2, hv, hp, _, _, hI1, hI2⟩ :=
    validarOfertaEnCurso_sinFallos e ofertaID w A hresp hnd hA
  have hAmem : A ∈ aceptadasDeOferta e.unicode w ofertaID := by rw [hA]; simp
  simp only [aceptadasDeOferta, List.mem_filter, Bool.and_eq_true, decide_eq_true_eq] at hAmem
  obtain ⟨hAw, hAo, hAe⟩ := hAmem
  have hsolo : ∀ r ∈ w.postulaciones, r.OfertaPasantiaId = some ofertaID →
      estadoNorm e.unicode r.EstadoPostulacion = PostEstadoAceptada → r = A := by
    intro r hr ho he
    have : r ∈ aceptadasDeOferta e.unicode w ofertaID := by
      simp only [aceptadasDeOferta, List.mem_filter, Bool.and_eq_true, decide_eq_true_eq]
      exact ⟨hr, ho, he⟩
    rw [hA] at this
    simpa using this
  have hw1 : w1.postulaciones = w2.postulaciones := by
    rw [ChangeOfertaEstado_enCurso, bind_apply, hv] at hok
    have := UpdateOfertaMerge_mismasPostulaciones e ofertaID OfertaEstadoEnCurso w2
    simp only at hok
    rw [hok] at this
    exact this
  have hA1 : A.Id ∉ I1 := by
    intro h
    obtain ⟨_, r, hr, _, hna, _, hid⟩ := (hI1 A.Id).1 h
    have : r = A := List.inj_on_of_nodup_map hnd hr hAw hid
    exact hna (this ▸ hAe)
  have hA2 : A.Id ∉ I2 := by
    intro h
    obtain ⟨_, r, _, _, hne, _, hid⟩ := (hI2 A.Id).1 h
    exact hne hid
  refine ⟨by rw [hv], ⟨?_, hAe⟩, ?_, ?_⟩
  · rw [hw1, hp]
    refine List.mem_map.2 ⟨A, List.mem_map.2 ⟨A, hAw, by simp [hA1]⟩, by simp [hA2]⟩
  · intro r hr ho hne
    rw [hw1, hp] at hr
    obtain ⟨r1, hr1, hid1, _, ho1, hc1⟩ := mem_marcar hr
    have hr1n : estadoNorm e.unicode r1.EstadoPostulacion = PostEstadoDescartada := by
      obtain ⟨r0, hr0, hid0, _, ho0, hc0⟩ := mem_marcar hr1
      rcases hc0 with ⟨_, hs⟩ | ⟨hni, heq⟩
      · rw [hs]; rfl
      · subst heq
        by_contra hnd'
        have hna : estadoNorm e.unicode r1.EstadoPostulacion ≠ PostEstadoAceptada := by
          intro hacc
          have := hsolo r1 hr0 (ho1.trans ho) hacc
          exact hne (by rw [← hid1, this])
        exact hni ((hI1 r1.Id).2 ⟨hnz r1 hr0, r1, hr0, ho1.trans ho, hna, hnd', rfl⟩)
    rcases hc1 with ⟨_, hs⟩ | ⟨_, heq⟩
    · rw [hs]; rfl
    · rw [heq]; exact hr1n
  · intro r hr hest hne
    have hfold : esDescartadaFold e.unicode r.EstadoPostulacion := by
      rw [hw1, hp] at hr
      obtain ⟨r1, hr1, hid1, hest1, _, hc1⟩ := mem_marcar hr
      rcases hc1 with ⟨_, hs⟩ | ⟨hni, heq⟩
      · unfold esDescartadaFold
        rw [hs]; rfl
      · subst heq
        unfold esDescartadaFold
        by_contra hnf
        have hnz1 : r.Id ≠ 0 := by
          obtain ⟨r0, hr0, hid0, _⟩ := mem_marcar hr1
          rw [← hid0]
          exact hnz r0 hr0
        exact hni ((hI2 r.Id).2 ⟨hnz1, r, hr1, hest, hne, by simpa using hnf, rfl⟩)
    exact ⟨hfold, fun h => esDescartadaFold_ascii _ _ h hfold⟩

set_option maxHeartbeats 1000000 in
theorem ChangeOfertaEstado_enCurso_descarta_witness :
    ((∀ n, entornoSinFallos.respuesta n = none) ∧
      (mundoEjemplo.postulaciones.map (fun r => r.Id)).Nodup ∧
      (∀ r ∈ mundoEjemplo.postulaciones, r.Id ≠ 0) ∧
      aceptadasDeOferta entornoSinFallos.unicode mundoEjemplo 5 = [aceptadaEjemplo] ∧
      ChangeOfertaEstado entornoSinFallos 5 OfertaEstadoEnCurso mundoEjemplo =
        (.ok ofertaEnCursoEjemplo,
          (ChangeOfertaEstado entornoSinFallos 5 OfertaEstadoEnCurso mundoEjemplo).2)) ∧
    ((validarOfertaEnCurso entornoSinFallos 5 mundoEjemplo).1 = .ok () ∧
    (aceptadaEjemplo ∈
        (ChangeOfertaEstado entornoSinFallos 5 OfertaEstadoEnCurso mundoEjemplo).2.postulaciones ∧
      estadoNorm entornoSinFallos.unicode aceptadaEjemplo.EstadoPostulacion =
        PostEstadoAceptada) ∧
    (∀ r ∈ (ChangeOfertaEstado entornoSinFallos 5 OfertaEstadoEnCurso mundoEjemplo).2.postulaciones,
      r.OfertaPasantiaId = some 5 → r.Id ≠ aceptadaEjemplo.Id →
      estadoNorm entornoSinFallos.unicode r.EstadoPostulacion = PostEstadoDescartada) ∧
    (∀ r ∈ (ChangeOfertaEstado entornoSinFallos 5 OfertaEstadoEnCurso mundoEjemplo).2.postulaciones,
      r.EstudianteId = aceptadaEjemplo.EstudianteId → r.Id ≠ aceptadaEjemplo.Id →
      esDescartadaFold entornoSinFallos.unicode r.EstadoPostulacion ∧
      ((∀ c ∈ r.EstadoPostulacion.data, c.toNat < 128) →
        estadoNorm entornoSinFallos.unicode r.EstadoPostulacion = PostEstadoDescartada))) :=
  ⟨⟨fun _ => rfl, by decide, by decide, by decide, rfl⟩,
    ChangeOfertaEstado_enCurso_descarta entornoSinFallos 5 mundoEjemplo _ aceptadaEjemplo
      ofertaEnCursoEjemplo (fun _ => rfl) (by decide) (by decide) (by decide) rfl⟩

/-- C5: if the offer stored under `ofertaID` records a tutor different from `tutorID`,
then `CambiarEstadoOferta` on that offer, and `EjecutarAccionPostulacion` and
`MarcarPostulacionVista` on any application `p` of that offer, return an error and
leave offers, applications, audit entries and the log of issued writes as they were;
the error has status 403 as soon as the reads of the application and of the offer are
answered (and, for `EjecutarAccionPostulacion`, the action is a supported one). -/
theorem tutor_ajeno_prohibido (e : Entorno) (tutorID ofertaID postulacionID : Int)
    (destino : String) (payload : PostulacionAccion) (w : Mundo) (o : CastorOferta)
    (p : CastorPostulacion)
    (ho : w.ofertas.find? (fun r => decide (r.Id = ofertaID)) = some o)
    (hp : w.postulaciones.find? (fun r => decide (r.Id = postulacionID)) = some p)
    (hpo : p.OfertaPasantiaId = some ofertaID)
    (hne : o.TutorExternoId ≠ tutorID) :
    (esError (CambiarEstadoOferta e tutorID ofertaID destino w).1 ∧
      SoloReloj w (CambiarEstadoOferta e tutorID ofertaID destino w).2 ∧
      (e.respuesta w.reloj = none →
        esProhibido (CambiarEstadoOferta e tutorID ofertaID destino w).1)) ∧
    (esError (EjecutarAccionPostulacion e tutorID postulacionID payload w).1 ∧
      SoloReloj w (EjecutarAccionPostulacion e tutorID postulacionID payload w).2 ∧
      (accionValida (toUpper e.unicode (trimSpace payload.Accion)) = true →
        e.cancelado w.reloj = false → e.respuesta w.reloj = none →
        e.respuesta (w.reloj + 1) = none →
        esProhibido (EjecutarAccionPostulacion e tutorID postulacionID payload w).1)) ∧
    (esError (MarcarPostulacionVista e tutorID postulacionID w).1 ∧
      SoloReloj w (MarcarPostulacionVista e tutorID postulacionID w).2 ∧
      (e.cancelado w.reloj = false → e.respuesta w.reloj = none →
        e.respuesta (w.reloj + 1) = none →
        esProhibido (MarcarPostulacionVista e tutorID postulacionID w).1)) := by
  have hmo : (mapCastorOferta o).TutorExternoId ≠ tutorID := hne
  have hmp : (mapPostulacion p).OfertaId = ofertaID := by simp [mapPostulacion, hpo]
  refine ⟨?_, ?_, ?_⟩
  · simp only [CambiarEstadoOferta, bind_apply, Pasantia.comoAppError, GetOferta_eval, ho]
    cases h1 : e.respuesta w.reloj with
    | some ue => simp [esError, SoloReloj]
    | none => simp [esError, SoloReloj, esProhibido, hmo, fallar]
  · unfold EjecutarAccionPostulacion
    by_cases hv : accionValida (toUpper e.unicode (trimSpace payload.Accion)) = true
    · simp only [hv, Bool.not_true, Bool.false_eq_true, if_false, bind_apply,
        Pasantia.comoAppError, GetPostulacionByID_eval, hp]
      cases h0 : e.cancelado w.reloj with
      | true => simp [esError, SoloReloj]
      | false =>
        cases h1 : e.respuesta w.reloj with
        | some ue => simp [esError, SoloReloj]
        | none =>
          simp only [Bool.false_eq_true, if_false, GetOferta_eval, hmp, ho]
          cases h2 : e.respuesta (w.reloj + 1) with
          | some ue => simp [esError, SoloReloj]
          | none => simp [esError, SoloReloj, esProhibido, hmo, fallar]
    · simp [hv, esError, SoloReloj, fallar]
  · simp only [MarcarPostulacionVista, bind_apply, Pasantia.comoAppError,
      GetPostulacionByID_eval, hp]
    cases h0 : e.cancelado w.reloj with
    | true => simp [esError, SoloReloj]
    | false =>
      cases h1 : e.respuesta w.reloj with
      | some ue => simp [esError, SoloReloj]
      | none =>
        simp only [Bool.false_eq_true, if_false, GetOferta_eval, hmp, ho]
        cases h2 : e.respuesta (w.reloj + 1) with
        | some ue => simp [esError, SoloReloj]
        | none => simp [esError, SoloReloj, esProhibido, hmo, fallar]

theorem tutor_ajeno_prohibido_witness :
    (mundoEjemplo.ofertas.find? (fun r => decide (r.Id = 5)) = some ofertaEjemplo ∧
      mundoEjemplo.postulaciones.find? (fun r => decide (r.Id = 2)) = some enviadaEjemplo ∧
      enviadaEjemplo.OfertaPasantiaId = some 5 ∧ ofertaEjemplo.TutorExternoId ≠ 78) ∧
    ((esError (CambiarEstadoOferta entornoSinFallos 78 5 "OPCAN_CTR" mundoEjemplo).1 ∧
      SoloReloj mundoEjemplo (CambiarEstadoOferta entornoSinFallos 78 5 "OPCAN_CTR" mundoEjemplo).2 ∧
      (entornoSinFallos.respuesta mundoEjemplo.reloj = none →
        esProhibido (CambiarEstadoOferta entornoSinFallos 78 5 "OPCAN_CTR" mundoEjemplo).1)) ∧
    (esError (EjecutarAccionPostulacion entornoSinFallos 78 2 ⟨"descartar", none⟩ mundoEjemplo).1 ∧
      SoloReloj mundoEjemplo
        (EjecutarAccionPostulacion entornoSinFallos 78 2 ⟨"descartar", none⟩ mundoEjemplo).2 ∧
      (accionValida (toUpper entornoSinFallos.unicode
          (trimSpace (PostulacionAccion.mk "descartar" none).Accion)) = true →
        entornoSinFallos.cancelado mundoEjemplo.reloj = false →
        entornoSinFallos.respuesta mundoEjemplo.reloj = none →
        entornoSinFallos.respuesta (mundoEjemplo.reloj + 1) = none →
        esProhibido
          (EjecutarAccionPostulacion entornoSinFallos 78 2 ⟨"descartar", none⟩ mundoEjemplo).1)) ∧
    (esError (MarcarPostulacionVista entornoSinFallos 78 2 mundoEjemplo).1 ∧
      SoloReloj mundoEjemplo (MarcarPostulacionVista entornoSinFallos 78 2 mundoEjemplo).2 ∧
      (entornoSinFallos.cancelado mundoEjemplo.reloj = false →
        entornoSinFallos.respuesta mundoEjemplo.reloj = none →
        entornoSinFallos.respuesta (mundoEjemplo.reloj + 1) = none →
        esProhibido (MarcarPostulacionVista entornoSinFallos 78 2 mundoEjemplo).1))) :=
  ⟨⟨by decide, by decide, rfl, by decide⟩,
    tutor_ajeno_prohibido entornoSinFallos 78 5 2 "OPCAN_CTR" ⟨"descartar", none⟩ mundoEjemplo
      ofertaEjemplo enviadaEjemplo (by decide) (by decide) rfl (by decide)⟩

theorem cancelarOferta_cierra_activas_witness :
    (∀ n, entornoSinFallos.respuesta n = none) ∧
    (cancelarOferta entornoSinFallos 5 mundoEjemplo).1 = .ok () ∧
    (enviadaEjemplo ∈ mundoEjemplo.postulaciones ∧
      enviadaEjemplo.OfertaPasantiaId = some 5 ∧ enviadaEjemplo.Id ≠ 0 ∧
      estadoNorm entornoSinFallos.unicode enviadaEjemplo.EstadoPostulacion ∈
        ["PSPO_CTR", "PSRV_CTR", "PSPR_CTR", "PSAC_CTR"]) ∧
    (∃ body, body.EstadoPostulacion = "PSCD_CTR" ∧
      Peticion.putPostulacion enviadaEjemplo.Id body ∈
        nuevas mundoEjemplo (cancelarOferta entornoSinFallos 5 mundoEjemplo).2) ∧
    (mundoEjemplo.postulaciones.map (fun r => r.Id)).Nodup ∧
    (descartadaEjemplo ∈ mundoEjemplo.postulaciones ∧
      estadoNorm entornoSinFallos.unicode descartadaEjemplo.EstadoPostulacion ∉
        ["PSPO_CTR", "PSRV_CTR", "PSPR_CTR", "PSAC_CTR"]) ∧
    ∀ body, Peticion.putPostulacion descartadaEjemplo.Id body ∉
      nuevas mundoEjemplo (cancelarOferta entornoSinFallos 5 mundoEjemplo).2 :=
  ⟨fun _ => rfl,
    (cancelarOferta_cierra_activas entornoSinFallos 5 mundoEjemplo).2.2.1 (fun _ => rfl),
    ⟨by decide, rfl, by decide, by decide⟩,
    (cancelarOferta_cierra_activas entornoSinFallos 5 mundoEjemplo).2.1
      ((cancelarOferta_cierra_activas entornoSinFallos 5 mundoEjemplo).2.2.1 (fun _ => rfl))
      enviadaEjemplo (by decide) rfl (by decide) (by decide),
    by decide,
    ⟨by decide, by decide⟩,
    (cancelarOferta_cierra_activas entornoSinFallos 5 mundoEjemplo).2.2.2 (by decide)
      descartadaEjemplo (by decide) (by decide)⟩

/-- C6, counterexample: the owner asks to move a cancelled offer back to created
(`CANCELLED → CREATED`, not one of the listed edges); the request is accepted and the
stored offer changes state. -/
theorem CambiarEstadoOferta_cancelada_a_creada :
    mundoCancelada.ofertas.map (fun r => r.Estado) = ["OPCAN_CTR"] ∧
    (CambiarEstadoOferta entornoSinFallos 77 5 OfertaEstadoCreada mundoCancelada).1 =
      .ok ⟨5, "Practica", "", "OPC_CTR", 1, 77, []⟩ ∧
    (CambiarEstadoOferta entornoSinFallos 77 5 OfertaEstadoCreada mundoCancelada).2.ofertas.map
      (fun r => r.Estado) = ["OPC_CTR"] :=
  ⟨by decide, rfl, by decide⟩

/-- C6, as amended: `CambiarEstadoOferta` does not check the edge. For the owner of the
offer, a destination that is none of the five state codes is rejected with status 400
and nothing is written; a destination `OPPAU_CTR`, `OPC_CTR` or `OPFIN_CTR` is accepted
from every different current state (upstream answering, the stored offer having an id, a
title and a company): the call succeeds, the stored offer takes the destination state
and the applications are unchanged. -/
theorem CambiarEstadoOferta_sin_validar_arista (e : Entorno) (tutorID ofertaID : Int)
    (destino : String) (w : Mundo) (o : CastorOferta)
    (hresp : ∀ n, e.respuesta n = none)
    (ho : w.ofertas.find? (fun r => decide (r.Id = ofertaID)) = some o)
    (hown : o.TutorExternoId = tutorID)
    (hdist : equalFold e.unicode (trimSpace o.Estado)
      (trimSpace (normalizeDestino e.unicode destino)) = false) :
    (¬ destinoSoportado (normalizeDestino e.unicode destino) →
      (CambiarEstadoOferta e tutorID ofertaID destino w).1 =
        .error (.app 400 "estado destino no soportado") ∧
      SoloReloj w (CambiarEstadoOferta e tutorID ofertaID destino w).2) ∧
    (destinoSinCascada (normalizeDestino e.unicode destino) →
      o.Id ≠ 0 → trimSpace o.Titulo ≠ "" → o.EmpresaId ≠ 0 →
      (∃ res, (CambiarEstadoOferta e tutorID ofertaID destino w).1 = .ok res ∧
        res.Estado = normalizeDestino e.unicode destino) ∧
      (∃ o1, (CambiarEstadoOferta e tutorID ofertaID destino w).2.ofertas.find?
          (fun r => decide (r.Id = ofertaID)) = some o1 ∧
        o1.Estado = normalizeDestino e.unicode destino) ∧
      (CambiarEstadoOferta e tutorID ofertaID destino w).2.postulaciones = w.postulaciones) := by
  have hmo : (mapCastorOferta o).TutorExternoId = tutorID := hown
  have hme : equalFold e.unicode (trimSpace (mapCastorOferta o).Estado)
      (trimSpace (normalizeDestino e.unicode destino)) = false := by
    simpa [mapCastorOferta, trimSpace_idem] using hdist
  have hoid : o.Id = ofertaID := by simpa using List.find?_some ho
  constructor
  · intro hns
    simp only [destinoSoportado, not_or] at hns
    obtain ⟨h1, h2, h3, h4, h5⟩ := hns
    simp [CambiarEstadoOferta, bind_apply, Pasantia.comoAppError, GetOferta_eval, hresp, ho,
      hmo, hme, h1, h2, h3, h4, h5, fallar, SoloReloj]
  · intro hsc hid htit hemp
    generalize hD : normalizeDestino e.unicode destino = D at hsc hme ⊢
    have hch := ChangeOfertaEstado_sinCascada e ofertaID D hsc
    obtain ⟨hn1, hn2, hn3⟩ := estadoNorm_sinCascada e.unicode D hsc
    have hup := UpdateOfertaMerge_sinFallos e ofertaID D { w with reloj := w.reloj + 1 } o
      hresp ho hid htit hemp
    have hpe : (payloadEstado e.unicode o D).fila.Estado = D := by
      simp [payloadEstado, applyPatchEstado, hn2, hn1, OfertaPayload.fila]
    have hpi : (payloadEstado e.unicode o D).fila.Id = ofertaID := by
      simp [payloadEstado, applyPatchEstado, hn2, OfertaPayload.fila, hoid]
    have hres : CambiarEstadoOferta e tutorID ofertaID destino w =
        (mapOferta (mapCastorOferta (payloadEstado e.unicode o D).fila))
          { w with
            ofertas := w.ofertas.map (fun r =>
              if r.Id = ofertaID then (payloadEstado e.unicode o D).fila else r),
            escrituras := w.escrituras ++ [.putOferta ofertaID (payloadEstado e.unicode o D)],
            reloj := w.reloj + 1 + 1 + 1 } := by
      have c1 : ¬ (OfertaEstadoPausada = OfertaEstadoCancelada) := by decide
      have c2 : ¬ (OfertaEstadoPausada = OfertaEstadoEnCurso) := by decide
      have c3 : ¬ (OfertaEstadoCreada = OfertaEstadoCancelada) := by decide
      have c4 : ¬ (OfertaEstadoCreada = OfertaEstadoEnCurso) := by decide
      have c5 : ¬ (OfertaEstadoCreada = OfertaEstadoPausada) := by decide
      have c6 : ¬ (OfertaEstadoFinalizada = OfertaEstadoCancelada) := by decide
      have c7 : ¬ (OfertaEstadoFinalizada = OfertaEstadoEnCurso) := by decide
      have c8 : ¬ (OfertaEstadoFinalizada = OfertaEstadoPausada) := by decide
      have c9 : ¬ (OfertaEstadoFinalizada = OfertaEstadoCreada) := by decide
      rcases hsc with h | h | h <;> subst h <;>
        simp only [CambiarEstadoOferta, bind_apply, Pasantia.comoAppError, GetOferta_eval,
          hresp, ho, hmo, hme, hD, hch, hup, c1, c2, c3, c4, c5, c6, c7, c8, c9, if_false,
          if_true, ne_eq, not_true_eq_false, Bool.false_eq_true]
    rw [hres]
    have hst : (mapCastorOferta (payloadEstado e.unicode o D).fila).Estado = D := by
      simp [mapCastorOferta, hpe, hn3]
    have hDne : trimSpace (mapCastorOferta (payloadEstado e.unicode o D).fila).Estado ≠ "" := by
      rw [hst]; exact hn2
    rw [mapOferta_eval _ _ hDne]
    exact ⟨⟨_, rfl, hst⟩, ⟨_, find_map_replace (fun r : CastorOferta => r.Id) _ _ _ _ hpi ho, hpe⟩, rfl⟩

theorem CambiarEstadoOferta_sin_validar_arista_witness :
    ((∀ n, entornoSinFallos.respuesta n = none) ∧
      mundoCancelada.ofertas.find? (fun r => decide (r.Id = 5)) = some ofertaCancelada ∧
      ofertaCancelada.TutorExternoId = 77 ∧
      equalFold entornoSinFallos.unicode (trimSpace ofertaCancelada.Estado)
        (trimSpace (normalizeDestino entornoSinFallos.unicode "reactivar")) = false) ∧
    ((¬ destinoSoportado (normalizeDestino entornoSinFallos.unicode "reactivar") →
      (CambiarEstadoOferta entornoSinFallos 77 5 "reactivar" mundoCancelada).1 =
        .error (.app 400 "estado destino no soportado") ∧
      SoloReloj mundoCancelada
        (CambiarEstadoOferta entornoSinFallos 77 5 "reactivar" mundoCancelada).2) ∧
    (destinoSinCascada (normalizeDestino entornoSinFallos.unicode "reactivar") →
      ofertaCancelada.Id ≠ 0 → trimSpace ofertaCancelada.Titulo ≠ "" →
      ofertaCancelada.EmpresaId ≠ 0 →
      (∃ res, (CambiarEstadoOferta entornoSinFallos 77 5 "reactivar" mundoCancelada).1 = .ok res ∧
        res.Estado = normalizeDestino entornoSinFallos.unicode "reactivar") ∧
      (∃ o1, (CambiarEstadoOferta entornoSinFallos 77 5 "reactivar" mundoCancelada).2.ofertas.find?
          (fun r => decide (r.Id = 5)) = some o1 ∧
        o1.Estado = normalizeDestino entornoSinFallos.unicode "reactivar") ∧
      (CambiarEstadoOferta entornoSinFallos 77 5 "reactivar" mundoCancelada).2.postulaciones =
        mundoCancelada.postulaciones)) :=
  ⟨⟨fun _ => rfl, by decide, by decide, by decide⟩,
    CambiarEstadoOferta_sin_validar_arista entornoSinFallos 77 5 "reactivar" mundoCancelada
      ofertaCancelada (fun _ => rfl) (by decide) (by decide) (by decide)⟩

/-- C7, failing input: in `mundoPorRevisar` the application 1, of the offer 5 of the tutor
77, is in `PSPO_CTR`, and every request succeeds. `MarcarPostulacionVista` answers with the
application still in `PSPO_CTR`: its one write is the PUT of the fetched object with the key
`estado_postulacion` set to `PSRV_CTR`, and the state under `EstadoPostulacion`, the one
the gateway reads, is as before. The second call therefore finds `PSPO_CTR` again and issues
the same PUT a second time. The `VISTO` action of `EjecutarAccionPostulacion` does the
same. -/
theorem visto_no_marca_revisada :
    ((MarcarPostulacionVista entornoSinFallos 77 1 mundoPorRevisar).1 =
        .ok ⟨1, 10, 5, "PSPO_CTR"⟩ ∧
      (MarcarPostulacionVista entornoSinFallos 77 1 mundoPorRevisar).2.escrituras =
        [.putPostulacionMapa 1 ⟨1, 10, some 5, "PSPO_CTR"⟩ "PSRV_CTR"] ∧
      (MarcarPostulacionVista entornoSinFallos 77 1 mundoPorRevisar).2.postulaciones =
        [⟨1, 10, some 5, "PSPO_CTR"⟩] ∧
      (MarcarPostulacionVista entornoSinFallos 77 1
          (MarcarPostulacionVista entornoSinFallos 77 1 mundoPorRevisar).2).1 =
        .ok ⟨1, 10, 5, "PSPO_CTR"⟩ ∧
      (MarcarPostulacionVista entornoSinFallos 77 1
          (MarcarPostulacionVista entornoSinFallos 77 1 mundoPorRevisar).2).2.escrituras =
        [.putPostulacionMapa 1 ⟨1, 10, some 5, "PSPO_CTR"⟩ "PSRV_CTR",
          .putPostulacionMapa 1 ⟨1, 10, some 5, "PSPO_CTR"⟩ "PSRV_CTR"]) ∧
    ((EjecutarAccionPostulacion entornoSinFallos 77 1 ⟨"VISTO", none⟩ mundoPorRevisar).1 =
        .ok ⟨1, 10, 5, "PSPO_CTR"⟩ ∧
      (EjecutarAccionPostulacion entornoSinFallos 77 1 ⟨"VISTO", none⟩
          mundoPorRevisar).2.escrituras =
        [.putPostulacionMapa 1 ⟨1, 10, some 5, "PSPO_CTR"⟩ "PSRV_CTR"] ∧
      (EjecutarAccionPostulacion entornoSinFallos 77 1 ⟨"VISTO", none⟩
          (EjecutarAccionPostulacion entornoSinFallos 77 1 ⟨"VISTO", none⟩
            mundoPorRevisar).2).1 =
        .ok ⟨1, 10, 5, "PSPO_CTR"⟩ ∧
      (EjecutarAccionPostulacion entornoSinFallos 77 1 ⟨"VISTO", none⟩
          (EjecutarAccionPostulacion entornoSinFallos 77 1 ⟨"VISTO", none⟩
            mundoPorRevisar).2).2.escrituras =
        [.putPostulacionMapa 1 ⟨1, 10, some 5, "PSPO_CTR"⟩ "PSRV_CTR",
          .putPostulacionMapa 1 ⟨1, 10, some 5, "PSPO_CTR"⟩ "PSRV_CTR"]) :=
  ⟨⟨rfl, by decide, by decide, rfl, by decide⟩, ⟨rfl, by decide, rfl, by decide⟩⟩

/-- C8: for an application `p` whose trimmed, upper-cased state is terminal (`PSSE_CTR`,
`PSAC_CTR` or `PSRJ_CTR`), `EjecutarAccionPostulacion` with action `DESCARTAR` or
`PRESELECCIONAR` returns an error and writes nothing: no audit entry, no state update,
the stored applications are unchanged. When the reads of the application and of its
offer are answered and the caller is the tutor of the offer, the error is the 409
conflict. -/
theorem accion_en_estado_final_conflicto (e : Entorno) (tutorID postulacionID : Int)
    (payload : PostulacionAccion) (w : Mundo) (p : CastorPostulacion)
    (hp : w.postulaciones.find? (fun r => decide (r.Id = postulacionID)) = some p)
    (hfinal : esFinal e.unicode p.EstadoPostulacion)
    (hacc : toUpper e.unicode (trimSpace payload.Accion) = accionDescartar ∨
      toUpper e.unicode (trimSpace payload.Accion) = accionPreseleccionar) :
    esError (EjecutarAccionPostulacion e tutorID postulacionID payload w).1 ∧
    SoloReloj w (EjecutarAccionPostulacion e tutorID postulacionID payload w).2 ∧
    (∀ o, w.ofertas.find? (fun r => decide (r.Id = (mapPostulacion p).OfertaId)) = some o →
      o.TutorExternoId = tutorID → e.cancelado w.reloj = false →
      e.respuesta w.reloj = none → e.respuesta (w.reloj + 1) = none →
      esConflicto (EjecutarAccionPostulacion e tutorID postulacionID payload w).1) := by
  have hst : toUpper e.unicode (trimSpace (mapPostulacion p).EstadoPostulacion) =
      estadoNorm e.unicode p.EstadoPostulacion := by
    simp [mapPostulacion, trimSpace_idem, estadoNorm]
  have hfin : estadoFinal e.unicode (estadoNorm e.unicode p.EstadoPostulacion) = true := by
    rcases hfinal with h | h | h <;> rw [h] <;> rfl
  have hval : accionValida (toUpper e.unicode (trimSpace payload.Accion)) = true := by
    rcases hacc with h | h <;> rw [h] <;> decide
  have hcore : ∀ w1 : Mundo,
      (if toUpper e.unicode (trimSpace payload.Accion) = accionDescartar ∧
            estadoNorm e.unicode p.EstadoPostulacion = PostEstadoRechazada then
          (fallar (.app 409 "La postulación ya está descartada") : Op Postulacion)
        else if (toUpper e.unicode (trimSpace payload.Accion) = accionDescartar ∨
              toUpper e.unicode (trimSpace payload.Accion) = accionPreseleccionar) ∧
            estadoFinal e.unicode (estadoNorm e.unicode p.EstadoPostulacion) = true then
          fallar (.app 409 "La postulación está en estado final")
        else do
          ejecutarSwitch e tutorID postulacionID (toUpper e.unicode (trimSpace payload.Accion))
            payload.Comentario (estadoNorm e.unicode p.EstadoPostulacion)
          ejecutarRespuesta e postulacionID) w1 =
        (.error (.app 409 (if toUpper e.unicode (trimSpace payload.Accion) = accionDescartar ∧
            estadoNorm e.unicode p.EstadoPostulacion = PostEstadoRechazada then
          "La postulación ya está descartada" else "La postulación está en estado final")),
          w1) := by
    intro w1
    split
    · rfl
    · rw [if_pos ⟨hacc, hfin⟩]
      rfl
  unfold EjecutarAccionPostulacion
  simp only [hval, Bool.not_true, Bool.false_eq_true, if_false, bind_apply,
    Pasantia.comoAppError, GetPostulacionByID_eval, hp, GetOferta_eval, hst]
  cases h0 : e.cancelado w.reloj with
  | true => simp [esError, SoloReloj]
  | false =>
    cases h1 : e.respuesta w.reloj with
    | some ue => simp [esError, SoloReloj]
    | none =>
      simp only [Bool.false_eq_true, if_false]
      cases h2 : e.respuesta (w.reloj + 1) with
      | some ue => simp [esError, SoloReloj]
      | none =>
        cases hfo : w.ofertas.find? (fun r => decide (r.Id = (mapPostulacion p).OfertaId)) with
        | none => simp [esError, SoloReloj]
        | some o1 =>
          simp only
          by_cases hown : (mapCastorOferta o1).TutorExternoId = tutorID
          · simp only [hown, ne_eq, not_true_eq_false, if_false, hst, hcore]
            refine ⟨⟨_, rfl⟩, ⟨rfl, rfl, rfl, rfl⟩, fun _ _ _ _ _ _ => ⟨_, rfl⟩⟩
          · simp only [hown, ne_eq, not_false_eq_true, if_true, fallar]
            refine ⟨⟨_, rfl⟩, ⟨rfl, rfl, rfl, rfl⟩, fun o ho hto _ _ _ => ?_⟩
            have : o1 = o := by simpa using ho
            exact absurd (this ▸ hto) hown

theorem accion_en_estado_final_conflicto_witness :
    (mundoEjemplo.postulaciones.find? (fun r => decide (r.Id = 4)) = some descartadaEjemplo ∧
      esFinal entornoSinFallos.unicode descartadaEjemplo.EstadoPostulacion ∧
      (toUpper entornoSinFallos.unicode
          (trimSpace (PostulacionAccion.mk "descartar" none).Accion) = accionDescartar ∨
        toUpper entornoSinFallos.unicode
          (trimSpace (PostulacionAccion.mk "descartar" none).Accion) = accionPreseleccionar)) ∧
    (esError (EjecutarAccionPostulacion entornoSinFallos 77 4 ⟨"descartar", none⟩ mundoEjemplo).1 ∧
    SoloReloj mundoEjemplo
      (EjecutarAccionPostulacion entornoSinFallos 77 4 ⟨"descartar", none⟩ mundoEjemplo).2 ∧
    esConflicto
      (EjecutarAccionPostulacion entornoSinFallos 77 4 ⟨"descartar", none⟩ mundoEjemplo).1) :=
  ⟨⟨by decide, Or.inr (Or.inr (by decide)), Or.inl (by decide)⟩,
    (accion_en_estado_final_conflicto entornoSinFallos 77 4 ⟨"descartar", none⟩ mundoEjemplo
      descartadaEjemplo (by decide) (Or.inr (Or.inr (by decide))) (Or.inl (by decide))).1,
    (accion_en_estado_final_conflicto entornoSinFallos 77 4 ⟨"descartar", none⟩ mundoEjemplo
      descartadaEjemplo (by decide) (Or.inr (Or.inr (by decide))) (Or.inl (by decide))).2.1,
    (accion_en_estado_final_conflicto entornoSinFallos 77 4 ⟨"descartar", none⟩ mundoEjemplo
      descartadaEjemplo (by decide) (Or.inr (Or.inr (by decide))) (Or.inl (by decide))).2.2
      ofertaEjemplo (by decide) rfl rfl rfl rfl⟩

/-- C10: in every execution of `EjecutarAccionPostulacion` with action `DESCARTAR`,
`SELECCIONAR` or `PRESELECCIONAR`, whatever upstream answers, one of two things holds.
Either no audit entry was written: then the call returns an error, the stored
applications are unchanged and no state update was issued (at most the failed audit
POST). Or the audit entry (tutor, application, action, trimmed comment) was written, and
the writes issued are that POST followed by at most one state update of the application. -/
theorem accion_auditada (e : Entorno) (tutorID postulacionID : Int)
    (payload : PostulacionAccion) (w : Mundo)
    (hacc : toUpper e.unicode (trimSpace payload.Accion) = accionDescartar ∨
      toUpper e.unicode (trimSpace payload.Accion) = accionSeleccionar ∨
      toUpper e.unicode (trimSpace payload.Accion) = accionPreseleccionar) :
    SinAuditoria
        (revisionDe tutorID postulacionID (toUpper e.unicode (trimSpace payload.Accion))
          payload.Comentario) w
        (EjecutarAccionPostulacion e tutorID postulacionID payload w).1
        (EjecutarAccionPostulacion e tutorID postulacionID payload w).2 ∨
      ConAuditoria
        (revisionDe tutorID postulacionID (toUpper e.unicode (trimSpace payload.Accion))
          payload.Comentario) postulacionID w
        (EjecutarAccionPostulacion e tutorID postulacionID payload w).2 := by
  have hval : accionValida (toUpper e.unicode (trimSpace payload.Accion)) = true := by
    rcases hacc with h | h | h <;> rw [h] <;> decide
  have hsolo : ∀ (err : Err) (w1 : Mundo), SoloReloj w w1 →
      SinAuditoria
        (revisionDe tutorID postulacionID (toUpper e.unicode (trimSpace payload.Accion))
          payload.Comentario) w (Except.error err : Except Err Postulacion) w1 :=
    fun err w1 h => sinAuditoria_de_soloReloj _ _ ⟨err, rfl⟩ h
  unfold EjecutarAccionPostulacion
  simp only [hval, Bool.not_true, Bool.false_eq_true, if_false, bind_apply,
    Pasantia.comoAppError, GetPostulacionByID_eval, GetOferta_eval]
  cases h0 : e.cancelado w.reloj with
  | true => exact Or.inl (hsolo _ _ ⟨rfl, rfl, rfl, rfl⟩)
  | false =>
    simp only [Bool.false_eq_true, if_false]
    cases h1 : e.respuesta w.reloj with
    | some ue => exact Or.inl (hsolo _ _ ⟨rfl, rfl, rfl, rfl⟩)
    | none =>
      cases hfp : w.postulaciones.find? (fun r => decide (r.Id = postulacionID)) with
      | none => exact Or.inl (hsolo _ _ ⟨rfl, rfl, rfl, rfl⟩)
      | some p =>
        simp only
        cases h2 : e.respuesta (w.reloj + 1) with
        | some ue => exact Or.inl (hsolo _ _ ⟨rfl, rfl, rfl, rfl⟩)
        | none =>
          cases hfo : w.ofertas.find?
              (fun r => decide (r.Id = (mapPostulacion p).OfertaId)) with
          | none => exact Or.inl (hsolo _ _ ⟨rfl, rfl, rfl, rfl⟩)
          | some o1 =>
            simp only
            split
            · exact Or.inl (hsolo _ _ ⟨rfl, rfl, rfl, rfl⟩)
            · split
              · exact Or.inl (hsolo _ _ ⟨rfl, rfl, rfl, rfl⟩)
              · split
                · exact Or.inl (hsolo _ _ ⟨rfl, rfl, rfl, rfl⟩)
                · exact auditoria_desde _ _ _ ⟨rfl, rfl, rfl, rfl⟩
                    (switch_luego_respuesta e tutorID postulacionID _ payload.Comentario _
                      hacc _)

theorem accion_auditada_witness :
    (toUpper (entornoFallo 2).unicode
          (trimSpace (PostulacionAccion.mk "descartar" (some " no aplica ")).Accion) =
        accionDescartar ∨
      toUpper (entornoFallo 2).unicode
          (trimSpace (PostulacionAccion.mk "descartar" (some " no aplica ")).Accion) =
        accionSeleccionar ∨
      toUpper (entornoFallo 2).unicode
          (trimSpace (PostulacionAccion.mk "descartar" (some " no aplica ")).Accion) =
        accionPreseleccionar) ∧
    (SinAuditoria
        (revisionDe 77 2 (toUpper (entornoFallo 2).unicode
          (trimSpace (PostulacionAccion.mk "descartar" (some " no aplica ")).Accion))
          (PostulacionAccion.mk "descartar" (some " no aplica ")).Comentario) mundoEjemplo
        (EjecutarAccionPostulacion (entornoFallo 2) 77 2 ⟨"descartar", some " no aplica "⟩
          mundoEjemplo).1
        (EjecutarAccionPostulacion (entornoFallo 2) 77 2 ⟨"descartar", some " no aplica "⟩
          mundoEjemplo).2 ∨
      ConAuditoria
        (revisionDe 77 2 (toUpper (entornoFallo 2).unicode
          (trimSpace (PostulacionAccion.mk "descartar" (some " no aplica ")).Accion))
          (PostulacionAccion.mk "descartar" (some " no aplica ")).Comentario) 2 mundoEjemplo
        (EjecutarAccionPostulacion (entornoFallo 2) 77 2 ⟨"descartar", some " no aplica "⟩
          mundoEjemplo).2) :=
  ⟨Or.inl (by decide),
    accion_auditada (entornoFallo 2) 77 2 ⟨"descartar", some " no aplica "⟩ mundoEjemplo
      (Or.inl (by decide))⟩

/-- C9, counterexample: application 4 is discarded (terminal); the tutor of its offer
sends `SELECCIONAR`; the call succeeds and the application is stored as selected. -/
theorem seleccionar_descartada_aceptado :
    esFinal entornoSinFallos.unicode descartadaEjemplo.EstadoPostulacion ∧
    mundoEjemplo.postulaciones.find? (fun r => decide (r.Id = 4)) = some descartadaEjemplo ∧
    (EjecutarAccionPostulacion entornoSinFallos 77 4 ⟨"SELECCIONAR", none⟩ mundoEjemplo).1 =
      .ok ⟨4, 12, 5, "PSSE_CTR"⟩ ∧
    (EjecutarAccionPostulacion entornoSinFallos 77 4 ⟨"SELECCIONAR", none⟩
        mundoEjemplo).2.postulaciones.find? (fun r => decide (r.Id = 4)) =
      some ⟨4, 12, some 5, "PSSE_CTR"⟩ :=
  ⟨Or.inr (Or.inr (by decide)), by decide, rfl, by decide⟩

/-- C9, as amended: the terminal-state guard of `EjecutarAccionPostulacion` covers
`DESCARTAR` and `PRESELECCIONAR` only. With action `SELECCIONAR`, for an application `p`
of an offer of the calling tutor, whatever the state of `p` (terminal states included),
every request succeeding, the call succeeds, writes the audit entry and then the state
update, and `p` is stored with state `PSSE_CTR`. -/
theorem seleccionar_sin_guardia (e : Entorno) (tutorID ofertaID postulacionID : Int)
    (payload : PostulacionAccion) (w : Mundo) (o : CastorOferta) (p : CastorPostulacion)
    (hresp : ∀ n, e.respuesta n = none) (hctx : ∀ n, e.cancelado n = false)
    (hp : w.postulaciones.find? (fun r => decide (r.Id = postulacionID)) = some p)
    (hpo : p.OfertaPasantiaId = some ofertaID)
    (ho : w.ofertas.find? (fun r => decide (r.Id = ofertaID)) = some o)
    (hown : o.TutorExternoId = tutorID)
    (hacc : toUpper e.unicode (trimSpace payload.Accion) = accionSeleccionar) :
    esExito (EjecutarAccionPostulacion e tutorID postulacionID payload w).1 ∧
    (EjecutarAccionPostulacion e tutorID postulacionID payload w).2.postulaciones.find?
        (fun r => decide (r.Id = postulacionID)) = some (seleccionada p) ∧
    (EjecutarAccionPostulacion e tutorID postulacionID payload w).2.revisiones =
      w.revisiones ++ [revisionDe tutorID postulacionID accionSeleccionar payload.Comentario] ∧
    nuevas w (EjecutarAccionPostulacion e tutorID postulacionID payload w).2 =
      [.postRevision (revisionDe tutorID postulacionID accionSeleccionar payload.Comentario),
        .putPostulacion postulacionID (seleccionada p)] := by
  have hv : accionValida accionSeleccionar = true := by decide
  have hnd : ¬ (accionSeleccionar = accionDescartar) := by decide
  have hnp : ¬ (accionSeleccionar = accionPreseleccionar) := by decide
  have hnv : ¬ (accionSeleccionar = accionVisto) := by decide
  have hmp : (mapPostulacion p).OfertaId = ofertaID := by simp [mapPostulacion, hpo]
  have hmo : (mapCastorOferta o).TutorExternoId = tutorID := hown
  have hpid : p.Id = postulacionID := by simpa using List.find?_some hp
  have hE : EjecutarAccionPostulacion e tutorID postulacionID payload w =
      (ejecutarSwitch e tutorID postulacionID accionSeleccionar payload.Comentario
          (toUpper e.unicode (trimSpace (mapPostulacion p).EstadoPostulacion)) >>=
        fun _ => ejecutarRespuesta e postulacionID) { w with reloj := w.reloj + 1 + 1 } := by
    simp only [EjecutarAccionPostulacion, hacc, hv, hnd, hnp, Bool.not_true,
      Bool.false_eq_true, if_false, bind_apply, Pasantia.comoAppError,
      GetPostulacionByID_eval, hctx, hresp, hp, GetOferta_eval, hmp, ho, hmo, ne_eq,
      not_true_eq_false, false_and, false_or]
  have hsw : ejecutarSwitch e tutorID postulacionID accionSeleccionar payload.Comentario
      (toUpper e.unicode (trimSpace (mapPostulacion p).EstadoPostulacion)) =
      (registrarRevision e tutorID postulacionID accionSeleccionar payload.Comentario >>=
        fun _ => (SeleccionarPostulacion e postulacionID >>= fun _ => pure ())) := by
    simp only [ejecutarSwitch, hnv, hnd, if_false, if_true]
  have hfind := find_map_replace (fun r : CastorPostulacion => r.Id) w.postulaciones
    postulacionID p (seleccionada p) hpid hp
  have hsel := SeleccionarPostulacion_sinFallos e postulacionID
    { w with
      revisiones := w.revisiones ++
        [revisionDe tutorID postulacionID accionSeleccionar payload.Comentario],
      escrituras := w.escrituras ++
        [.postRevision (revisionDe tutorID postulacionID accionSeleccionar payload.Comentario)],
      reloj := w.reloj + 1 + 1 + 1 } p hresp hp
  rw [hE, hsw]
  simp only [bind_apply, registrarRevision_sinFallos e _ _ _ _ _ hresp hctx, hsel, pure_apply]
  have hr := ejecutarRespuesta_sinFallos e postulacionID
    { w with
      postulaciones := w.postulaciones.map (fun r =>
        if r.Id = postulacionID then seleccionada p else r),
      revisiones := w.revisiones ++
        [revisionDe tutorID postulacionID accionSeleccionar payload.Comentario],
      escrituras := w.escrituras ++
        [.postRevision (revisionDe tutorID postulacionID accionSeleccionar payload.Comentario)]
        ++ [.putPostulacion postulacionID (seleccionada p)],
      reloj := w.reloj + 1 + 1 + 1 + 1 + 1 + 1 } (seleccionada p) hresp hctx hfind
  refine ⟨hr.1, ?_, hr.2.2.2.1, ?_⟩
  · rw [hr.2.1]
    exact hfind
  · apply nuevas_of_eq
    rw [hr.2.2.2.2]
    simp

theorem seleccionar_sin_guardia_witness :
    ((∀ n, entornoSinFallos.respuesta n = none) ∧ (∀ n, entornoSinFallos.cancelado n = false) ∧
      mundoEjemplo.postulaciones.find? (fun r => decide (r.Id = 4)) = some descartadaEjemplo ∧
      descartadaEjemplo.OfertaPasantiaId = some 5 ∧
      mundoEjemplo.ofertas.find? (fun r => decide (r.Id = 5)) = some ofertaEjemplo ∧
      ofertaEjemplo.TutorExternoId = 77 ∧
      toUpper entornoSinFallos.unicode
        (trimSpace (PostulacionAccion.mk "seleccionar" none).Accion) = accionSeleccionar) ∧
    (esExito (EjecutarAccionPostulacion entornoSinFallos 77 4 ⟨"seleccionar", none⟩
        mundoEjemplo).1 ∧
    (EjecutarAccionPostulacion entornoSinFallos 77 4 ⟨"seleccionar", none⟩
        mundoEjemplo).2.postulaciones.find? (fun r => decide (r.Id = 4)) =
      some (seleccionada descartadaEjemplo) ∧
    (EjecutarAccionPostulacion entornoSinFallos 77 4 ⟨"seleccionar", none⟩
        mundoEjemplo).2.revisiones =
      mundoEjemplo.revisiones ++
        [revisionDe 77 4 accionSeleccionar (PostulacionAccion.mk "seleccionar" none).Comentario] ∧
    nuevas mundoEjemplo
        (EjecutarAccionPostulacion entornoSinFallos 77 4 ⟨"seleccionar", none⟩ mundoEjemplo).2 =
      [.postRevision
          (revisionDe 77 4 accionSeleccionar
            (PostulacionAccion.mk "seleccionar" none).Comentario),
        .putPostulacion 4 (seleccionada descartadaEjemplo)]) :=
  ⟨⟨fun _ => rfl, fun _ => rfl, by decide, rfl, by decide, rfl, by decide⟩,
    seleccionar_sin_guardia entornoSinFallos 77 5 4 ⟨"seleccionar", none⟩ mundoEjemplo
      ofertaEjemplo descartadaEjemplo (fun _ => rfl) (fun _ => rfl) (by decide) rfl
      (by decide) rfl (by decide)⟩

/-- C11: when the read of the application `postulacionID` is answered with the row `p`,
`AceptarSeleccion` fails with an `AppError` of status 403 if `p` records a student
other than `estudianteID`, and with an `AppError` of status 409 if `p` is of that student
but its trimmed, upper-cased state is none of `SELECCIONAR`, `SELECCIONADO`, `PSSE_CTR`;
in both cases the store and the log of writes are as before: no state update and no
audit entry was issued. -/
theorem AceptarSeleccion_rechaza_sin_escribir (e : Entorno)
    (estudianteID postulacionID : Int) (w : Mundo) (p : CastorPostulacion)
    (hp : w.postulaciones.find? (fun r => decide (r.Id = postulacionID)) = some p)
    (hctx : e.cancelado w.reloj = false) (hresp : e.respuesta w.reloj = none) :
    (p.EstudianteId ≠ estudianteID →
      esProhibido (AceptarSeleccion e estudianteID postulacionID w).1 ∧
      SoloReloj w (AceptarSeleccion e estudianteID postulacionID w).2) ∧
    (p.EstudianteId = estudianteID →
      estadoSeleccionado (estadoNorm e.unicode p.EstadoPostulacion) = false →
      esConflicto (AceptarSeleccion e estudianteID postulacionID w).1 ∧
      SoloReloj w (AceptarSeleccion e estudianteID postulacionID w).2) := by
  have hget : GetPostulacionByID e postulacionID w =
      (.ok (mapPostulacion p), { w with reloj := w.reloj + 1 }) := by
    rw [GetPostulacionByID_eval]; simp [hctx, hresp, hp]
  have hnorm : toUpper e.unicode (trimSpace (mapPostulacion p).EstadoPostulacion) =
      estadoNorm e.unicode p.EstadoPostulacion := by
    simp [mapPostulacion, estadoNorm, trimSpace_idem]
  constructor
  · intro hne
    have hne2 : (mapPostulacion p).EstudianteId ≠ estudianteID := hne
    simp only [AceptarSeleccion, hget, if_pos hne2]
    exact ⟨⟨_, rfl⟩, rfl, rfl, rfl, rfl⟩
  · intro heq hsel
    have heq2 : ¬ ((mapPostulacion p).EstudianteId ≠ estudianteID) := fun h => h heq
    simp only [AceptarSeleccion, hget, if_neg heq2, hnorm, hsel]
    exact ⟨⟨_, rfl⟩, rfl, rfl, rfl, rfl⟩

theorem AceptarSeleccion_rechaza_sin_escribir_witness :
    (mundoSeleccion.postulaciones.find? (fun r => decide (r.Id = 3)) = some porRevisarEjemplo ∧
      porRevisarEjemplo.EstudianteId ≠ 11 ∧ porRevisarEjemplo.EstudianteId = 10 ∧
      estadoSeleccionado
        (estadoNorm entornoSinFallos.unicode porRevisarEjemplo.EstadoPostulacion) = false) ∧
    (esProhibido (AceptarSeleccion entornoSinFallos 11 3 mundoSeleccion).1 ∧
      SoloReloj mundoSeleccion (AceptarSeleccion entornoSinFallos 11 3 mundoSeleccion).2) ∧
    (esConflicto (AceptarSeleccion entornoSinFallos 10 3 mundoSeleccion).1 ∧
      SoloReloj mundoSeleccion (AceptarSeleccion entornoSinFallos 10 3 mundoSeleccion).2) :=
  ⟨⟨by decide, by decide, by decide, by decide⟩,
    (AceptarSeleccion_rechaza_sin_escribir entornoSinFallos 11 3 mundoSeleccion
      porRevisarEjemplo (by decide) rfl rfl).1 (by decide),
    (AceptarSeleccion_rechaza_sin_escribir entornoSinFallos 10 3 mundoSeleccion
      porRevisarEjemplo (by decide) rfl rfl).2 (by decide) (by decide)⟩

/-- C12, failing input: in `mundoEleccion` the student 10 holds the selected applications 1
and 2, the selected application 3, whose object has no `OfertaPasantiaId`, and the
application 4 in the state `SELECCIONAR`; every request succeeds. `AceptarSeleccion` on the
application 1 returns nil. Its writes are the PUT of the object of 1 with the key
`estado_postulacion` set to `PSAC_CTR`, the audit entry of 1, the PUT of the object of 2
with `estado_postulacion` set to `RECHAZADA_POR_ELECCION`, and the audit entries of 2 and
of 3; there is no PUT for 3 and nothing for 4. Afterwards the applications 1 and 2 still read
`PSSE_CTR`, and every stored row is as before. -/
theorem AceptarSeleccion_no_cambia_estados :
    (AceptarSeleccion entornoSinFallos 10 1 mundoEleccion).1 = .ok () ∧
    (AceptarSeleccion entornoSinFallos 10 1 mundoEleccion).2.escrituras =
      [.putPostulacionMapa 1 ⟨1, 10, some 5, "PSSE_CTR"⟩ "PSAC_CTR",
        .postRevision ⟨0, 1, "ACEPTAR_SELECCION", some "Aceptada por el estudiante"⟩,
        .putPostulacionMapa 2 ⟨2, 10, some 6, "PSSE_CTR"⟩ "RECHAZADA_POR_ELECCION",
        .postRevision
          ⟨0, 2, "RECHAZAR_POR_ELECCION", some "Rechazada por elección de otra oferta"⟩,
        .postRevision
          ⟨0, 3, "RECHAZAR_POR_ELECCION", some "Rechazada por elección de otra oferta"⟩] ∧
    (AceptarSeleccion entornoSinFallos 10 1 mundoEleccion).2.postulaciones =
      [⟨1, 10, some 5, "PSSE_CTR"⟩, ⟨2, 10, some 6, "PSSE_CTR"⟩, ⟨3, 10, none, "PSSE_CTR"⟩,
        ⟨4, 10, some 7, "SELECCIONAR"⟩] ∧
    (GetPostulacionByID entornoSinFallos 1
        (AceptarSeleccion entornoSinFallos 10 1 mundoEleccion).2).1 =
      .ok ⟨1, 10, 5, "PSSE_CTR"⟩ ∧
    (GetPostulacionByID entornoSinFallos 2
        (AceptarSeleccion entornoSinFallos 10 1 mundoEleccion).2).1 =
      .ok ⟨2, 10, 6, "PSSE_CTR"⟩ :=
  ⟨rfl, by decide, by decide, rfl, rfl⟩

/-- C13, counterexample: with the store `mundoSeleccion`, where the student 10 holds the
selected applications 1 and 2, `AceptarSeleccion` on the application 1 returns without
error although the listing of the other applications (the request number 4) is answered
with an error, and also when the update of the application 2 (the request number 6) is
answered with an error. In the first run nothing is issued after the update and the audit
entry of the application 1; in the second run the failed PUT of the application 2 is
followed by its audit entry. -/
theorem AceptarSeleccion_oculta_fallo_cascada :
    ((AceptarSeleccion (entornoFallo 4) 10 1 mundoSeleccion).1 = .ok () ∧
      (AceptarSeleccion (entornoFallo 4) 10 1 mundoSeleccion).2.reloj = 5 ∧
      (AceptarSeleccion (entornoFallo 4) 10 1 mundoSeleccion).2.escrituras =
        [.putPostulacionMapa 1 ⟨1, 10, some 5, "PSSE_CTR"⟩ "PSAC_CTR",
          .postRevision ⟨0, 1, "ACEPTAR_SELECCION", some "Aceptada por el estudiante"⟩]) ∧
    ((AceptarSeleccion (entornoFallo 6) 10 1 mundoSeleccion).1 = .ok () ∧
      (AceptarSeleccion (entornoFallo 6) 10 1 mundoSeleccion).2.reloj = 8 ∧
      (AceptarSeleccion (entornoFallo 6) 10 1 mundoSeleccion).2.escrituras =
        [.putPostulacionMapa 1 ⟨1, 10, some 5, "PSSE_CTR"⟩ "PSAC_CTR",
          .postRevision ⟨0, 1, "ACEPTAR_SELECCION", some "Aceptada por el estudiante"⟩,
          .putPostulacionMapa 2 ⟨2, 10, some 6, " seleccionado"⟩ "RECHAZADA_POR_ELECCION",
          .postRevision
            ⟨0, 2, "RECHAZAR_POR_ELECCION", some "Rechazada por elección de otra oferta"⟩] ∧
      (AceptarSeleccion (entornoFallo 6) 10 1 mundoSeleccion).2.revisiones =
        [⟨0, 1, "ACEPTAR_SELECCION", some "Aceptada por el estudiante"⟩,
          ⟨0, 2, "RECHAZAR_POR_ELECCION", some "Rechazada por elección de otra oferta"⟩]) :=
  ⟨⟨rfl, by decide, by decide⟩, ⟨rfl, by decide, by decide, by decide⟩⟩

/-- C13, as amended: `AceptarSeleccion` returns without error exactly when the
read of the target was answered with an application of the student `estudianteID` whose
trimmed, upper-cased state is `SELECCIONAR`, `SELECCIONADO` or `PSSE_CTR`, and the update
of that application to `PSAC_CTR` returned without error; the outcome of the audit entries,
of the listing of the other applications and of their updates does not change the result. -/
theorem AceptarSeleccion_exito_iff (e : Entorno) (estudianteID postulacionID : Int)
    (w : Mundo) :
    (AceptarSeleccion e estudianteID postulacionID w).1 = .ok () ↔
      ∃ post, (GetPostulacionByID e postulacionID w).1 = .ok post ∧
        post.EstudianteId = estudianteID ∧
        estadoSeleccionado (toUpper e.unicode (trimSpace post.EstadoPostulacion)) = true ∧
        (UpdatePostulacionEstado e post.Id PostEstadoAceptada
          (GetPostulacionByID e postulacionID w).2).1 = .ok () := by
  unfold AceptarSeleccion
  rcases hget : GetPostulacionByID e postulacionID w with ⟨r, w1⟩
  cases r with
  | error err =>
    simp only []
    constructor
    · intro h; cases h
    · rintro ⟨post, h, _⟩; cases h
  | ok post =>
    simp only []
    by_cases hown : post.EstudianteId = estudianteID
    · have hown2 : ¬ (post.EstudianteId ≠ estudianteID) := fun h => h hown
      rw [if_neg hown2]
      cases hsel : estadoSeleccionado (toUpper e.unicode (trimSpace post.EstadoPostulacion))
      · simp only [Bool.not_false, if_true]
        constructor
        · intro h; cases h
        · rintro ⟨post1, h, _, hs, _⟩
          cases h
          rw [hsel] at hs; cases hs
      · simp only [Bool.not_true, Bool.false_eq_true, if_false]
        rcases hupd : UpdatePostulacionEstado e post.Id PostEstadoAceptada w1 with ⟨r2, w2⟩
        cases r2 with
        | error err =>
          simp only []
          constructor
          · intro h; cases h
          · rintro ⟨post1, h, _, _, hu⟩
            cases h
            rw [hupd] at hu; cases hu
        | ok u =>
          simp only []
          constructor
          · intro _
            exact ⟨post, rfl, hown, hsel, by rw [hupd]⟩
          · intro _
            exact cascadaAceptar_ok e estudianteID post w2
    · have hown2 : post.EstudianteId ≠ estudianteID := hown
      rw [if_pos hown2]
      constructor
      · intro h; cases h
      · rintro ⟨post1, h, ho, _⟩
        cases h
        exact absurd ho hown

theorem AceptarSeleccion_exito_iff_witness :
    (AceptarSeleccion (entornoFallo 4) 10 1 mundoSeleccion).1 = .ok () :=
  (AceptarSeleccion_exito_iff (entornoFallo 4) 10 1 mundoSeleccion).2
    ⟨mapPostulacion seleccionadaEjemplo, rfl, rfl, by decide, rfl⟩

/-- C14: let the store hold an application of the student `estudianteID` to the offer
`ofertaID`, in any state, so in particular a non-discarded one. Then `PostularOferta`
returns an error and issues no create request, nor any other write, provided no request is
answered with HTTP 404; and when both ids are positive, the context is not cancelled, the
profile of the student exists and the two reads are answered without error, the error is an
`AppError` of status 409. -/
theorem PostularOferta_existente_conflicto (e : Entorno) (estudianteID ofertaID : Int)
    (w : Mundo) (r : CastorPostulacion) (hr : r ∈ w.postulaciones)
    (hest : r.EstudianteId = estudianteID) (hof : r.OfertaPasantiaId = some ofertaID) :
    ((∀ n body, e.respuesta n ≠ some (.http 404 body)) →
      esError (PostularOferta e estudianteID ofertaID w).1 ∧
      SoloReloj w (PostularOferta e estudianteID ofertaID w).2) ∧
    (0 < estudianteID → 0 < ofertaID → e.cancelado w.reloj = false →
      e.respuesta w.reloj = none → e.respuesta (w.reloj + 1) = none →
      (∃ perfil ∈ w.perfiles, perfil.TerceroId = estudianteID) →
      esConflicto (PostularOferta e estudianteID ofertaID w).1 ∧
      SoloReloj w (PostularOferta e estudianteID ofertaID w).2) := by
  constructor
  · intro h404
    unfold PostularOferta
    split_ifs
    · exact ⟨⟨_, rfl⟩, rfl, rfl, rfl, rfl⟩
    · exact ⟨⟨_, rfl⟩, rfl, rfl, rfl, rfl⟩
    · rw [bind_apply]
      have hs := GetPerfilByTerceroID_soloReloj e estudianteID w
      rcases hg : GetPerfilByTerceroID e estudianteID w with ⟨res, w1⟩
      rw [hg] at hs
      cases res with
      | error err => exact ⟨⟨_, rfl⟩, hs⟩
      | ok perfil =>
        cases perfil with
        | none => exact ⟨⟨_, rfl⟩, hs⟩
        | some pf =>
          simp only [postularConPerfil, bind_apply]
          have hr1 : r ∈ w1.postulaciones := by rw [hs.1]; exact hr
          obtain ⟨hsr, hdis, _⟩ :=
            existsPostulacion_existente e estudianteID ofertaID w1 r hr1 hest hof
          rcases hx : existsPostulacion e estudianteID ofertaID w1 with ⟨rx, w2⟩
          rw [hx] at hsr hdis
          rcases hdis (h404 _) with ⟨err, he⟩ | hok
          · have he2 : rx = .error err := he
            subst he2
            exact ⟨⟨_, rfl⟩, soloReloj_trans _ _ _ hs hsr⟩
          · have hok2 : rx = .ok true := hok
            subst hok2
            exact ⟨⟨_, rfl⟩, soloReloj_trans _ _ _ hs hsr⟩
  · intro h1 h2 hctx hresp hresp1 hperfil
    obtain ⟨perfil, hpm, hpt⟩ := hperfil
    have hmem : perfil ∈ w.perfiles.filter (fun r => decide (r.TerceroId = estudianteID)) :=
      List.mem_filter.2 ⟨hpm, by simp [hpt]⟩
    obtain ⟨_, y, hy, _⟩ := take_uno_no_vacia _ _ hmem
    have hg : GetPerfilByTerceroID e estudianteID w =
        (.ok (some y), { w with reloj := w.reloj + 1 }) := by
      simp only [GetPerfilByTerceroID, ctxErr, hctx, Bool.false_eq_true, if_false,
        listPerfilesCrud_eval, hresp, hy]
    obtain ⟨hsr, _, hex⟩ := existsPostulacion_existente e estudianteID ofertaID
      { w with reloj := w.reloj + 1 } r hr hest hof
    have hex2 := hex hresp1
    rcases hx : existsPostulacion e estudianteID ofertaID { w with reloj := w.reloj + 1 }
      with ⟨rx, w2⟩
    rw [hx] at hsr hex2
    have hok2 : rx = .ok true := hex2
    subst hok2
    unfold PostularOferta
    rw [if_neg (not_le.2 h1), if_neg (not_le.2 h2), bind_apply, hg]
    simp only [postularConPerfil, bind_apply, hx]
    exact ⟨⟨_, rfl⟩, hsr⟩

theorem PostularOferta_existente_conflicto_witness :
    (postuladaEjemplo ∈ mundoPostulado.postulaciones ∧ postuladaEjemplo.EstudianteId = 10 ∧
      postuladaEjemplo.OfertaPasantiaId = some 5 ∧
      (∃ perfil ∈ mundoPostulado.perfiles, perfil.TerceroId = 10)) ∧
    (esError (PostularOferta entornoSinFallos 10 5 mundoPostulado).1 ∧
      SoloReloj mundoPostulado (PostularOferta entornoSinFallos 10 5 mundoPostulado).2) ∧
    (esConflicto (PostularOferta entornoSinFallos 10 5 mundoPostulado).1 ∧
      SoloReloj mundoPostulado (PostularOferta entornoSinFallos 10 5 mundoPostulado).2) :=
  ⟨⟨by decide, rfl, rfl, ⟨perfilEjemplo, by decide, rfl⟩⟩,
    (PostularOferta_existente_conflicto entornoSinFallos 10 5 mundoPostulado postuladaEjemplo
      (by decide) rfl rfl).1 (fun _ _ h => by cases h),
    (PostularOferta_existente_conflicto entornoSinFallos 10 5 mundoPostulado postuladaEjemplo
      (by decide) rfl rfl).2 (by decide) (by decide) rfl rfl rfl
      ⟨perfilEjemplo, by decide, rfl⟩⟩

/-- C15, failing input: in the store `mundoDescartadaPrimero` the student 10 holds, for the
offer 5, the discarded application 1 and, after it, the application 2 in `PSPO_CTR`. The
listing with `limit=1` answers with the application 1 alone, the loop of
`CreatePostulacion` skips it, and a create request is issued: the call returns a new
application with `created = true` and the store then holds two applications of the pair
that are not discarded. -/
theorem CreatePostulacion_duplica_tras_descartada :
    ((⟨2, 10, some 5, "PSPO_CTR"⟩ : CastorPostulacion) ∈ mundoDescartadaPrimero.postulaciones ∧
      equalFold entornoSinFallos.unicode "PSPO_CTR" PostEstadoDescartada = false) ∧
    (ListPostulaciones entornoSinFallos 10 5 mundoDescartadaPrimero).1 =
      .ok [⟨1, 10, 5, "PSRJ_CTR"⟩] ∧
    (CreatePostulacion entornoSinFallos ⟨10, 5, ""⟩ mundoDescartadaPrimero).1 =
      .ok (⟨3, 10, 5, "PPE_CTR"⟩, true) ∧
    (CreatePostulacion entornoSinFallos ⟨10, 5, ""⟩ mundoDescartadaPrimero).2.escrituras =
      [.postPostulacion ⟨10, 5, "PPE_CTR", none⟩] ∧
    (CreatePostulacion entornoSinFallos ⟨10, 5, ""⟩ mundoDescartadaPrimero).2.postulaciones =
      [⟨1, 10, some 5, "PSRJ_CTR"⟩, ⟨2, 10, some 5, "PSPO_CTR"⟩, ⟨3, 10, some 5, "PPE_CTR"⟩] :=
  ⟨⟨by decide, by decide⟩, rfl, rfl, by decide, by decide⟩

/-- C16: with the retry count `N = cfg.defaultRetryCount`, `DoJSONWithHeaders` returns
after at most `N + 1` attempts and at most `N` waits, whatever the attempts deliver: it
slept `backoffFor k` after each attempt `k` but the last one. If moreover the body was
serialised, each of the attempts `0 .. N - 1` fails with an error for which `isRetryableErr`
is true and the attempt `N` succeeds, it returns nil after exactly `N + 1` attempts and
exactly `N` waits. -/
theorem DoJSONWithHeaders_intentos_y_esperas {B V : Type} (cfg : Reintentos)
    (lower : Char → Char) (c : Codec B V) (wrapped : Bool) (marshal : Option ErrIntento)
    (intentos : Nat → Intento B) (out : Option V) :
    ∃ r, DoJSONWithHeaders cfg lower c wrapped marshal intentos out = some r ∧
      r.intentos ≤ cfg.defaultRetryCount + 1 ∧
      r.esperas.length ≤ cfg.defaultRetryCount ∧
      r.esperas = (List.range (r.intentos - 1)).map (backoffFor cfg) ∧
      (marshal = none →
        (∀ k, k < cfg.defaultRetryCount → ∀ o,
          ∃ err, (doOnce c wrapped (intentos k) o).1 = some err ∧
            isRetryableErr lower err = true) →
        (∀ o, (doOnce c wrapped (intentos cfg.defaultRetryCount) o).1 = none) →
        r.err = none ∧ r.intentos = cfg.defaultRetryCount + 1 ∧
          r.esperas.length = cfg.defaultRetryCount) := by
  cases marshal with
  | some err =>
    refine ⟨{ err := some err, out := out, intentos := 0, esperas := [] }, rfl,
      Nat.zero_le _, Nat.zero_le _, rfl, fun h => by cases h⟩
  | none =>
    obtain ⟨r, hr, hgt, hmax, hesp, hok⟩ := bucleReintentos_spec cfg lower c wrapped intentos
      (cfg.defaultRetryCount + 1) 0 out [] (by omega) (by omega)
    have hesp2 : r.esperas = (List.range (r.intentos - 1)).map (backoffFor cfg) := by
      rw [hesp, List.range_eq_range']
      simp
    refine ⟨r, hr, hmax, ?_, hesp2, ?_⟩
    · rw [hesp2, List.length_map, List.length_range]; omega
    · intro _ h1 h2
      obtain ⟨he, hi⟩ := hok (fun k _ hk => h1 k hk) h2
      refine ⟨he, hi, ?_⟩
      rw [hesp2, List.length_map, List.length_range, hi]
      rfl

theorem DoJSONWithHeaders_intentos_y_esperas_witness :
    ((∀ k, k < (reintentosDe 2).defaultRetryCount → ∀ o,
        ∃ err, (doOnce codecEjemplo true (redInestable 2 k) o).1 = some err ∧
          isRetryableErr (fun c => c) err = true) ∧
      (∀ o, (doOnce codecEjemplo true
        (redInestable 2 (reintentosDe 2).defaultRetryCount) o).1 = none) ∧
      DoJSONWithHeaders (reintentosDe 2) (fun c => c) codecEjemplo true none (redInestable 2)
          (some 0) =
        some { err := none, out := some 7, intentos := 3,
               esperas := [300000000, 600000000] }) ∧
    ∃ r, DoJSONWithHeaders (reintentosDe 2) (fun c => c) codecEjemplo true none
        (redInestable 2) (some 0) = some r ∧
      r.err = none ∧ r.intentos = (reintentosDe 2).defaultRetryCount + 1 ∧
      r.esperas.length = (reintentosDe 2).defaultRetryCount :=
  have h1 : ∀ k, k < (reintentosDe 2).defaultRetryCount → ∀ o : Option Nat,
      ∃ err, (doOnce codecEjemplo true (redInestable 2 k) o).1 = some err ∧
        isRetryableErr (fun c => c) err = true := fun k hk o =>
    match k, hk with
    | 0, _ => ⟨.http 503 "", rfl, by decide⟩
    | 1, _ => ⟨.http 503 "", rfl, by decide⟩
    | n + 2, h => absurd h (show ¬ (n + 2 < 2) by omega)
  have h2 : ∀ o : Option Nat, (doOnce codecEjemplo true
      (redInestable 2 (reintentosDe 2).defaultRetryCount) o).1 = none := fun o =>
    match o with
    | none => rfl
    | some _ => rfl
  ⟨⟨h1, h2, by decide⟩,
    (DoJSONWithHeaders_intentos_y_esperas (reintentosDe 2) (fun c => c) codecEjemplo true none
      (redInestable 2) (some 0)).elim
      (fun r h => ⟨r, h.1, h.2.2.2.2 rfl h1 h2⟩)⟩

/-- C17, failing input: the body of a 409 response and the `Message` of an envelope with
`Success=false` reach `isRetryableErr` inside the text of the error, and the word
`timeout` in them makes it answer true. With one retry configured, a call whose every
attempt is answered 409 with the body `lock wait timeout exceeded` makes two attempts and
waits once; so does a call answered with an envelope whose `Success` is false and whose
`Message` is `statement timeout`. -/
theorem isRetryableErr_por_texto_del_cuerpo (lower : Char → Char) :
    isRetryableErr lower (.http 409 "lock wait timeout exceeded") = true ∧
    isRetryableErr lower (.plano "statement timeout") = true ∧
    DoJSONWithHeaders (reintentosDe 1) lower codecEjemplo true none
        (fun _ => respuestaEjemplo 409 (.sobre false "lock wait timeout exceeded" none))
        (some 0) =
      some { err := some (.http 409 "lock wait timeout exceeded"), out := some 0,
             intentos := 2, esperas := [300000000] } ∧
    DoJSONWithHeaders (reintentosDe 1) lower codecEjemplo true none
        (fun _ => respuestaEjemplo 200 (.sobre false "statement timeout" none)) (some 0) =
      some { err := some (.plano "statement timeout"), out := some 0,
             intentos := 2, esperas := [300000000] } :=
  ⟨rfl, rfl, rfl, rfl⟩

/-- C18, counterexample: for the `HTTPError` of a 501 response with the body
`Not Implemented`, `isRetryableErr` is false, and with three retries configured a call
answered 501 returns after one attempt and no wait. -/
theorem isRetryableErr_501_falso :
    isRetryableErr (fun c => c) (.http 501 "Not Implemented") = false ∧
    DoJSONWithHeaders (reintentosDe 3) (fun c => c) codecEjemplo true none
        (fun _ => respuestaEjemplo 501 (.sobre false "Not Implemented" none)) (some 0) =
      some { err := some (.http 501 "Not Implemented"), out := some 0,
             intentos := 1, esperas := [] } :=
  ⟨rfl, rfl⟩

/-- C18, as amended: for an `HTTPError` whose status is 500, 502, 503 or 504,
`isRetryableErr` is true whatever the body; for any other status from 500 to 599 it is true
exactly when the lower-cased text `http <status>: <body>` contains `timeout`,
`connection reset`, `temporary` or `server closed idle connection`. -/
theorem isRetryableErr_5xx (lower : Char → Char) (status : Nat) (body : String) :
    ((status = 500 ∨ status = 502 ∨ status = 503 ∨ status = 504) →
      isRetryableErr lower (.http status body) = true) ∧
    (500 ≤ status → status ≤ 599 →
      status ≠ 500 → status ≠ 502 → status ≠ 503 → status ≠ 504 →
      isRetryableErr lower (.http status body) =
        (Contains (toLower lower (ErrIntento.http status body).Error) "timeout" ||
          Contains (toLower lower (ErrIntento.http status body).Error) "connection reset" ||
          Contains (toLower lower (ErrIntento.http status body).Error) "temporary" ||
          Contains (toLower lower (ErrIntento.http status body).Error)
            "server closed idle connection")) := by
  constructor
  · rintro (h | h | h | h) <;> subst h <;> rfl
  · intro h1 h2 h500 h502 h503 h504
    interval_cases status <;> first | rfl | (exfalso; omega)

theorem isRetryableErr_5xx_witness :
    isRetryableErr (fun c => c) (.http 503 "Service Unavailable") = true ∧
    isRetryableErr (fun c => c) (.http 505 "temporary failure") = true :=
  ⟨(isRetryableErr_5xx (fun c => c) 503 "Service Unavailable").1 (by decide),
    ((isRetryableErr_5xx (fun c => c) 505 "temporary failure").2 (by decide) (by decide)
      (by decide) (by decide) (by decide) (by decide)).trans (by decide)⟩

/-- C19, failing input: with the initial base delay of 300 ms, `backoffFor` is the cap of
3 s at the attempt 34, but at the attempt 35 the shifted duration wraps to a negative
number, which is below the cap and is returned as it is; at the attempt 56 the shifted
duration is zero. So the wait is not always positive, is not `min(base · 2^n, maxBackoff)`
and decreases from the attempt 34 to the attempt 35. -/
theorem backoffFor_desborda :
    (0 < reintentosIniciales.defaultBackoffBase ∧
      backoffFor reintentosIniciales 34 = 3000000000) ∧
    backoffFor reintentosIniciales 35 = -8138822563309551616 ∧
    backoffFor reintentosIniciales 35 ≠
      min (reintentosIniciales.defaultBackoffBase * 2 ^ 35) maxBackoff ∧
    backoffFor reintentosIniciales 35 < backoffFor reintentosIniciales 34 ∧
    backoffFor reintentosIniciales 56 = 0 :=
  ⟨⟨by decide, by decide⟩, by decide, by decide, by decide, by decide⟩

/-- C20, counterexample: with `wrapped = true` and a nil `out`, a call answered 200 with an
envelope whose `Success` is false returns nil after one attempt. -/
theorem DoJSONWithHeaders_out_nil_sin_error :
    DoJSONWithHeaders reintentosIniciales (fun c => c) codecEjemplo true none
        (fun _ => respuestaEjemplo 200 (.sobre false "registro no eliminado" none))
        (none : Option Nat) =
      some { err := none, out := none, intentos := 1, esperas := [] } :=
  rfl

/-- C20, as amended: let every attempt be answered with the response `resp`, of
status 200 to 299, whose body is read without error, is not empty and decodes as an
envelope with `Success=false` and the message `message`. With `wrapped = true` and a
non-nil `out`, `DoJSONWithHeaders` returns the error whose text is `message`, or
`operación fallida (Success=false)` when `message` is empty, and `out` is as before; with a
nil `out` it returns nil after one attempt. -/
theorem DoJSONWithHeaders_success_false {B V : Type} (cfg : Reintentos)
    (lower : Char → Char) (c : Codec B V) (intentos : Nat → Intento B)
    (resp : RespuestaHTTP B) (message : String) (data : B) (v : V)
    (hint : ∀ k, intentos k = .respuesta resp)
    (h200 : 200 ≤ resp.StatusCode) (h299 : resp.StatusCode ≤ 299)
    (hlee : resp.errLectura = none) (hvac : c.vacio resp.cuerpo = false)
    (hsob : c.sobre resp.cuerpo = .sobre false message data) :
    (∃ r, DoJSONWithHeaders cfg lower c true none intentos (some v) = some r ∧
      r.err = some (.plano
        (if message = "" then "operación fallida (Success=false)" else message)) ∧
      r.out = some v) ∧
    DoJSONWithHeaders cfg lower c true none intentos none =
      some { err := none, out := none, intentos := 1, esperas := [] } := by
  have hst : ¬ (resp.StatusCode < 200 ∨ resp.StatusCode > 299) := by omega
  constructor
  · have h1 : ∀ k, doOnce c true (intentos k) (some v) =
        (some (.plano
          (if message = "" then "operación fallida (Success=false)" else message)),
          some v) := by
      intro k
      simp only [doOnce, hint, if_neg hst, hlee, hvac, hsob, Bool.false_eq_true, if_false,
        Bool.not_false, if_true]
    exact bucleReintentos_constante cfg lower c true intentos (some v) _ h1
      (cfg.defaultRetryCount + 1) 0 [] (by omega) (by omega)
  · simp only [DoJSONWithHeaders, bucleReintentos, doOnce, hint, if_neg hst]

theorem DoJSONWithHeaders_success_false_witness :
    (∃ r, DoJSONWithHeaders (reintentosDe 2) (fun c => c) codecEjemplo true none
        (fun _ => respuestaEjemplo 200 (.sobre false "" none)) (some 0) = some r ∧
      r.err = some (.plano "operación fallida (Success=false)") ∧ r.out = some 0) ∧
    DoJSONWithHeaders (reintentosDe 2) (fun c => c) codecEjemplo true none
        (fun _ => respuestaEjemplo 200 (.sobre false "" none)) (none : Option Nat) =
      some { err := none, out := none, intentos := 1, esperas := [] } :=
  DoJSONWithHeaders_success_false (reintentosDe 2) (fun c => c) codecEjemplo
    (fun _ => respuestaEjemplo 200 (.sobre false "" none))
    { StatusCode := 200, cuerpo := .sobre false "" none, errLectura := none } "" .vacio 0
    (fun _ => rfl) (by decide) (by decide) rfl rfl rfl

/-- C21: let the first attempt be answered with a response of status 200 to 299 whose body
is read without error and decodes as an envelope with `Success=true` and a zero-length
`Data`. With `wrapped = true`, `DoJSONWithHeaders` returns nil after that one attempt,
without waiting, and `out` (nil or not) is what it was before the call. -/
theorem DoJSONWithHeaders_success_sin_data {B V : Type} (cfg : Reintentos)
    (lower : Char → Char) (c : Codec B V) (intentos : Nat → Intento B)
    (resp : RespuestaHTTP B) (message : String) (data : B) (out : Option V)
    (hint : intentos 0 = .respuesta resp)
    (h200 : 200 ≤ resp.StatusCode) (h299 : resp.StatusCode ≤ 299)
    (hlee : resp.errLectura = none)
    (hsob : c.sobre resp.cuerpo = .sobre true message data) (hdat : c.vacio data = true) :
    DoJSONWithHeaders cfg lower c true none intentos out =
      some { err := none, out := out, intentos := 1, esperas := [] } := by
  have hst : ¬ (resp.StatusCode < 200 ∨ resp.StatusCode > 299) := by omega
  have hdo : doOnce c true (intentos 0) out = (none, out) := by
    cases out with
    | none => simp only [doOnce, hint, if_neg hst]
    | some v =>
      cases hv : c.vacio resp.cuerpo
      · simp only [doOnce, hint, if_neg hst, hlee, hv, hsob, hdat, Bool.false_eq_true,
          if_false, if_true, Bool.not_true]
      · simp only [doOnce, hint, if_neg hst, hlee, hv, if_true]
  simp only [DoJSONWithHeaders, bucleReintentos, hdo]

theorem DoJSONWithHeaders_success_sin_data_witness :
    DoJSONWithHeaders (reintentosDe 2) (fun c => c) codecEjemplo true none
        (fun _ => respuestaEjemplo 200 (.sobre true "OK" none)) (some 41) =
      some { err := none, out := some 41, intentos := 1, esperas := [] } :=
  DoJSONWithHeaders_success_sin_data (reintentosDe 2) (fun c => c) codecEjemplo
    (fun _ => respuestaEjemplo 200 (.sobre true "OK" none))
    { StatusCode := 200, cuerpo := .sobre true "OK" none, errLectura := none } "OK" .vacio
    (some 41) rfl (by decide) (by decide) rfl rfl rfl

/-- C22, counterexample: when the upstream answers the read with HTTP 404,
`GetPostulacionByID`, `GetOferta`, `ListOfertas`, the gateway `ListPostulaciones` and
`GetPerfilByID` return that `HTTPError`, not an absent result with a nil error. -/
theorem lecturas_404_devuelven_error :
    (GetPostulacionByID (entornoNoEncontrado 0) 1 mundoPostulado).1 =
      .error (.up (.http 404 "")) ∧
    (GetOferta (entornoNoEncontrado 0) 5 mundoPostulado).1 = .error (.up (.http 404 "")) ∧
    (ListOfertas (entornoNoEncontrado 0) (fun _ => true) mundoPostulado).1 =
      .error (.up (.http 404 "")) ∧
    (CastorCRUDClient.ListPostulaciones (entornoNoEncontrado 0) 10 0 mundoPostulado).1 =
      .error (.up (.http 404 "")) ∧
    (GetPerfilByID (entornoNoEncontrado 0) 1 mundoPostulado).1 =
      .error (.up (.http 404 "")) :=
  ⟨rfl, rfl, rfl, rfl, rfl⟩

/-- C22, as amended: when the context is not cancelled and the upstream answers the read
with HTTP 404, `GetPerfilByTerceroID` returns a nil profile with a nil error, while
`GetOferta`, `ListOfertas`, `GetPostulacionByID`, the gateway `ListPostulaciones` and, for a
positive id, `GetPerfilByID` return the `HTTPError` of status 404 as their error. -/
theorem lecturas_404 (e : Entorno) (w : Mundo) (body : String)
    (terceroID ofertaID postulacionID estudianteID idNe perfilID : Int)
    (filtro : CastorOferta → Bool)
    (hctx : e.cancelado w.reloj = false)
    (h404 : e.respuesta w.reloj = some (.http 404 body)) :
    (GetPerfilByTerceroID e terceroID w).1 = .ok none ∧
    (GetOferta e ofertaID w).1 = .error (.up (.http 404 body)) ∧
    (ListOfertas e filtro w).1 = .error (.up (.http 404 body)) ∧
    (GetPostulacionByID e postulacionID w).1 = .error (.up (.http 404 body)) ∧
    (CastorCRUDClient.ListPostulaciones e estudianteID idNe w).1 =
      .error (.up (.http 404 body)) ∧
    (0 < perfilID → (GetPerfilByID e perfilID w).1 = .error (.up (.http 404 body))) := by
  refine ⟨?_, ?_, ?_, ?_, ?_, ?_⟩
  · simp only [GetPerfilByTerceroID, ctxErr, hctx, Bool.false_eq_true, if_false,
      listPerfilesCrud_eval, h404, IsHTTPError, decide_True, if_true]
  · simp only [GetOferta, bind_apply, getOfertaCrud_eval, h404]
  · simp only [ListOfertas, listOfertasCrud, bind_apply, peticion, h404]
  · rw [GetPostulacionByID_eval]
    simp only [hctx, Bool.false_eq_true, if_false, h404]
  · simp only [CastorCRUDClient.ListPostulaciones, bind_apply, ctxErr, hctx,
      Bool.false_eq_true, if_false, listPostulacionesCrud_eval, h404]
  · intro hpos
    simp only [GetPerfilByID, bind_apply, ctxErr, hctx, Bool.false_eq_true, if_false,
      not_le.2 hpos, getPerfilCrud, peticion, h404]

theorem lecturas_404_witness :
    (GetPerfilByTerceroID (entornoNoEncontrado 0) 10 mundoPostulado).1 = .ok none ∧
    (GetOferta (entornoNoEncontrado 0) 5 mundoPostulado).1 = .error (.up (.http 404 "")) :=
  ⟨(lecturas_404 (entornoNoEncontrado 0) mundoPostulado "" 10 5 1 10 0 1 (fun _ => true)
      rfl rfl).1,
    (lecturas_404 (entornoNoEncontrado 0) mundoPostulado "" 10 5 1 10 0 1 (fun _ => true)
      rfl rfl).2.1⟩

/-- C25, counterexample: for the `HTTPError` of a 404 response, `AsAppError` yields the
status 500 with the default message, and `RespondError` answers 500. -/
theorem AsAppError_http_404_es_500 :
    AsAppError (.up (.http 404 "not found")) "error consultando oferta" =
      .app 500 "error consultando oferta" ∧
    RespondError (.up (.http 404 "not found")) = (500, "error inesperado") :=
  ⟨rfl, rfl⟩

/-- C25, as amended: `AsAppError` keeps the status of an error that is an `AppError`; for
every `HTTPError`, whatever its status, it yields the status 500 with the default message,
or `error inesperado` when the default message is empty, and `RespondError` answers 500. -/
theorem AsAppError_http_es_500 (status : Nat) (body msg : String) (s : Nat) (m : String) :
    AsAppError (.up (.http status body)) msg =
      .app 500 (if msg = "" then "error inesperado" else msg) ∧
    RespondError (.up (.http status body)) = (500, "error inesperado") ∧
    AsAppError (.app s m) msg = .app s m ∧ RespondError (.app s m) = (s, m) :=
  ⟨rfl, rfl, rfl, rfl⟩

theorem AsAppError_http_es_500_witness :
    AsAppError (.up (.http 409 "")) "" = .app 500 "error inesperado" :=
  (AsAppError_http_es_500 409 "" "" 403 "no autorizado").1

/-- C26, counterexample: the offer 5 of `mundoFecha` has a non-zero id, a title and a
company, and its publication date is `2024-05-01` followed by a blank. The payload
`ChangeOfertaEstado` sends to pause it carries the date without the blank, so it differs
from the fetched record in `FechaPublicacion` as well as in `Estado`. -/
theorem ChangeOfertaEstado_recorta_fecha :
    (mundoFecha.ofertas.find? (fun r => decide (r.Id = 5)) = some ofertaFecha ∧
      ofertaCompleta ofertaFecha) ∧
    (ChangeOfertaEstado entornoSinFallos 5 OfertaEstadoPausada mundoFecha).2.escrituras =
      [.putOferta 5 ⟨5, "Practica", "", "OPPAU_CTR", 1, 77, some "2024-05-01", some [3]⟩] ∧
    some "2024-05-01" ≠ some ofertaFecha.FechaPublicacion :=
  ⟨⟨by decide, by decide, by decide, by decide⟩, by decide, by decide⟩

/-- C26, as amended: every full-record PUT that `ChangeOfertaEstado` issues for the new
state `s` is for the offer `id` and is built from the row `raw` stored under `id`, which has
a non-zero `Id`, a non-blank `Titulo` and a non-zero `EmpresaId`: its `Id`, `Titulo`,
`Descripcion`, `EmpresaId` and `TutorExternoId` are those of `raw`, its `FechaPublicacion`
is the one of `raw` without surrounding white space when that is not blank and is absent
otherwise, its `ProyectoCurricularIds` are those of `raw` when there are any and are absent
otherwise, and its `Estado` is the trimmed, upper-cased `s`. -/
theorem ChangeOfertaEstado_payload_conserva (e : Entorno) (id : Int) (s : String)
    (w : Mundo) (i : Int) (body : OfertaPayload)
    (h : Peticion.putOferta i body ∈ nuevas w (ChangeOfertaEstado e id s w).2) :
    ∃ raw, w.ofertas.find? (fun r => decide (r.Id = id)) = some raw ∧ ofertaCompleta raw ∧
      i = id ∧ PayloadConserva e.unicode raw s body := by
  have hpuro : Preserva (Marco esPutPostulacion) (pure () : Op Unit) :=
    preserva_pure (marco_refl _) ()
  have hvacio : ∀ err : Err,
      Peticion.putOferta i body ∉ nuevas w ((fallar err : Op Oferta) w).2 := by
    intro err hmem
    simp [fallar, nuevas] at hmem
  unfold ChangeOfertaEstado at h
  split_ifs at h with h0 h1 h2 h3 h4 h5
  · exact absurd h (hvacio _)
  · obtain ⟨raw, hf, hc, hi, hb⟩ := cascada_luego_merge e id _ (pure ()) hpuro w i body h
    exact ⟨raw, hf, hc, hi, hb ▸ h1 ▸ payloadEstado_de_destino e.unicode raw s _ h1 rfl
      (by decide)⟩
  · obtain ⟨raw, hf, hc, hi, hb⟩ :=
      cascada_luego_merge e id _ (cancelarOferta e id) (cancelarOferta_marco e id) w i body h
    exact ⟨raw, hf, hc, hi, hb ▸ h2 ▸ payloadEstado_de_destino e.unicode raw s _ h2 rfl
      (by decide)⟩
  · obtain ⟨raw, hf, hc, hi, hb⟩ :=
      cascada_luego_merge e id _ (validarOfertaEnCurso e id)
        (validarOfertaEnCurso_marco e id) w i body h
    exact ⟨raw, hf, hc, hi, hb ▸ h3 ▸ payloadEstado_de_destino e.unicode raw s _ h3 rfl
      (by decide)⟩
  · obtain ⟨raw, hf, hc, hi, hb⟩ := cascada_luego_merge e id _ (pure ()) hpuro w i body h
    exact ⟨raw, hf, hc, hi, hb ▸ h4 ▸ payloadEstado_de_destino e.unicode raw s _ h4 rfl
      (by decide)⟩
  · obtain ⟨raw, hf, hc, hi, hb⟩ := cascada_luego_merge e id _ (pure ()) hpuro w i body h
    exact ⟨raw, hf, hc, hi, hb ▸ h5 ▸ payloadEstado_de_destino e.unicode raw s _ h5 rfl
      (by decide)⟩
  · exact absurd h (hvacio _)

theorem ChangeOfertaEstado_payload_conserva_witness :
    Peticion.putOferta 5 ⟨5, "Practica", "", "OPPAU_CTR", 1, 77, some "2024-05-01", some [3]⟩ ∈
      nuevas mundoFecha (ChangeOfertaEstado entornoSinFallos 5 " oppau_ctr" mundoFecha).2 ∧
    ∃ raw, mundoFecha.ofertas.find? (fun r => decide (r.Id = 5)) = some raw ∧
      ofertaCompleta raw ∧ (5 : Int) = 5 ∧
      PayloadConserva entornoSinFallos.unicode raw " oppau_ctr"
        ⟨5, "Practica", "", "OPPAU_CTR", 1, 77, some "2024-05-01", some [3]⟩ :=
  ⟨by decide,
    ChangeOfertaEstado_payload_conserva entornoSinFallos 5 " oppau_ctr" mundoFecha 5 _
      (by decide)⟩

/-- C29, failing input: for the student 10 and the offer 7, to which the student has not
applied, `PostularOferta` sends a create request with the state `PSPO_CTR` and
`CreatePostulacion` one with the state `PPE_CTR` (`models.PostEstadoEnviada`). `PPE_CTR`
is not the state the "viewed" action leaves nor one that `cancelarOferta` closes: on the
store `mundoInvitada`, whose application is in `PPE_CTR`, `MarcarPostulacionVista` by the
tutor of the offer and `cancelarOferta` return without error and issue no write. -/
theorem CreatePostulacion_estado_inicial_distinto :
    ((PostularOferta entornoSinFallos 10 7 mundoPostulado).2.escrituras =
        [.postPostulacion ⟨10, 7, "PSPO_CTR", none⟩] ∧
      (CreatePostulacion entornoSinFallos ⟨10, 7, ""⟩ mundoPostulado).2.escrituras =
        [.postPostulacion ⟨10, 7, "PPE_CTR", none⟩]) ∧
    PostEstadoEnviada ≠ PostEstadoPorRevisar ∧ PostEstadoEnviada ∉ estadosActivos ∧
    ((MarcarPostulacionVista entornoSinFallos 77 1 mundoInvitada).1 =
        .ok ⟨1, 10, 5, "PPE_CTR"⟩ ∧
      (MarcarPostulacionVista entornoSinFallos 77 1 mundoInvitada).2.escrituras = []) ∧
    ((cancelarOferta entornoSinFallos 5 mundoInvitada).1 = .ok () ∧
      (cancelarOferta entornoSinFallos 5 mundoInvitada).2.escrituras = []) :=
  ⟨⟨by decide, by decide⟩, by decide, by decide, ⟨rfl, by decide⟩, ⟨rfl, by decide⟩⟩

/-- C30, failing input: `ParsePageSize` accepts the page `4611686018427387905` and the size
`2`. With three items, `(page - 1) * size` is `2 ^ 63`, which wraps to the least `int`;
neither clamp applies to a negative number, so `start` and `end` are negative and the slice
expression `items[start:end]` panics. -/
theorem limitesPagina_desborda :
    ParsePageSize "4611686018427387905" "2" = (4611686018427387905, 2) ∧
    limitesPagina 3 4611686018427387905 2 =
      (-9223372036854775808, -9223372036854775806) ∧
    rebanada [1, 2, 3] (limitesPagina 3 4611686018427387905 2).1
      (limitesPagina 3 4611686018427387905 2).2 = none :=
  ⟨by decide, by decide, by decide⟩

/-- C24, failing input: in `mundoPasante` the student 10 has an application in `PSAC_CTR`
on the offer 5, which is in `OPCUR_CTR`, and a visible profile. `isPasanteActivo` is true
and `ActualizarPerfil` with a payload that sets `Visible` fails with status 409 without any
write; `UpsertPerfil` with the same payload never calls `isPasanteActivo`: it returns
without error, issues the PUT of the profile with `Visible = false`, and the stored profile
is no longer visible. -/
theorem UpsertPerfil_cambia_visibilidad_de_pasante :
    ((isPasanteActivo entornoSinFallos 10 mundoPasante).1 = .ok true ∧
      (ActualizarPerfil entornoSinFallos 10 payloadOcultar mundoPasante).1 =
        .error (.app 409
          "No puedes cambiar la visibilidad mientras tengas una pasantía activa") ∧
      (ActualizarPerfil entornoSinFallos 10 payloadOcultar mundoPasante).2.escrituras = []) ∧
    (UpsertPerfil entornoSinFallos 10 payloadOcultar mundoPasante).1 =
      .ok ⟨1, 10, "", false⟩ ∧
    (UpsertPerfil entornoSinFallos 10 payloadOcultar mundoPasante).2.escrituras =
      [.putPerfil 1 ⟨some 20, none, none, none, some false, none⟩] ∧
    (UpsertPerfil entornoSinFallos 10 payloadOcultar mundoPasante).2.perfiles =
      [⟨1, 10, "", false⟩] :=
  ⟨⟨rfl, rfl, by decide⟩, rfl, by decide, by decide⟩

/-- C23: for every integer `n` with `|n| ≤ 2 ^ 53`, `extractOfertaID`, `extractOfertaId`
and `FlexInt.UnmarshalJSON` yield `n` on each of the three encodings of the identifier: the
JSON number `n`, the JSON string holding the decimal text of `n`, and the object whose only
member is `"Id": n`. -/
theorem decodificadores_normalizan_id (u : Unicode) (f : Float64) (n : Int)
    (h : n.natAbs ≤ 2 ^ 53) :
    (extractOfertaID u f (some (.num n)) = n ∧
      extractOfertaID u f (some (.str (decimal n))) = n ∧
      extractOfertaID u f (some (.campo "Id" (.num n) .vacio)) = n) ∧
    (extractOfertaId u f (some (.num n)) = n ∧
      extractOfertaId u f (some (.str (decimal n))) = n ∧
      extractOfertaId u f (some (.campo "Id" (.num n) .vacio)) = n) ∧
    (FlexInt.UnmarshalJSON (.num n) = some n ∧
      FlexInt.UnmarshalJSON (.str (decimal n)) = some n ∧
      FlexInt.UnmarshalJSON (.campo "Id" (.num n) .vacio) = some n) := by
  have h63 : n.natAbs < 2 ^ 63 := Nat.lt_of_le_of_lt h (by decide)
  have hrango : -(2 ^ 63) ≤ n ∧ n < 2 ^ 63 := by omega
  have hf : entero64 (f.deEntero n) = n := by
    rw [f.exacto n h]
    simp only [entero64, hrango, and_self, if_true]
  obtain ⟨htrim, hne⟩ := trimSpace_decimal n
  have hparse := ParseInt_decimal n h63
  have hfold : equalFold u "Id" "Id" = true := rfl
  have hnum : normalizeToInt64 (aInterface f (.num n)) = some n := by
    simp only [aInterface, normalizeToInt64, hf]
  have hstr : normalizeToInt64 (aInterface f (.str (decimal n))) = some n := by
    simp only [aInterface, normalizeToInt64, htrim, hne, if_false, hparse]
  have hobj : (decodeWrapper u f (.campo "Id" (.num n) .vacio)).bind normalizeToInt64 =
      some n := by
    simp only [decodeWrapper, Json.miembroFold, hfold, if_true, Option.bind, hnum]
  refine ⟨⟨?_, ?_, ?_⟩, ⟨?_, ?_, ?_⟩, ?_, ?_, ?_⟩
  · simp only [extractOfertaID, decodeWrapper, Option.bind, hnum]
  · simp only [extractOfertaID, decodeWrapper, Option.bind, hstr]
  · simp only [extractOfertaID, hobj]
  · simp only [extractOfertaId, decodeWrapper, Option.bind, hnum]
  · simp only [extractOfertaId, decodeWrapper, Option.bind, hstr]
  · simp only [extractOfertaId, hobj]
  · simp only [FlexInt.UnmarshalJSON, hrango, and_self, if_true]
  · simp only [FlexInt.UnmarshalJSON, htrim, hne, if_false, hparse]
  · simp [FlexInt.UnmarshalJSON, Json.miembro]
    omega

theorem decodificadores_normalizan_id_witness :
    ((-9007199254740992 : Int).natAbs ≤ 2 ^ 53 ∧
      decimal (-9007199254740992) = "-9007199254740992") ∧
    ((extractOfertaID unicodeSimple float64Exacto (some (.num (-9007199254740992))) =
        -9007199254740992 ∧
      extractOfertaID unicodeSimple float64Exacto
        (some (.str (decimal (-9007199254740992)))) = -9007199254740992 ∧
      extractOfertaID unicodeSimple float64Exacto
        (some (.campo "Id" (.num (-9007199254740992)) .vacio)) = -9007199254740992) ∧
    (extractOfertaId unicodeSimple float64Exacto (some (.num (-9007199254740992))) =
        -9007199254740992 ∧
      extractOfertaId unicodeSimple float64Exacto
        (some (.str (decimal (-9007199254740992)))) = -9007199254740992 ∧
      extractOfertaId unicodeSimple float64Exacto
        (some (.campo "Id" (.num (-9007199254740992)) .vacio)) = -9007199254740992) ∧
    (FlexInt.UnmarshalJSON (.num (-9007199254740992)) = some (-9007199254740992) ∧
      FlexInt.UnmarshalJSON (.str (decimal (-9007199254740992))) =
        some (-9007199254740992) ∧
      FlexInt.UnmarshalJSON (.campo "Id" (.num (-9007199254740992)) .vacio) =
        some (-9007199254740992))) :=
  ⟨⟨by decide, by decide⟩,
    decodificadores_normalizan_id unicodeSimple float64Exacto (-9007199254740992)
      (by decide)⟩

/-- C28, failing input: the upstream keeps the application 1 as an object whose state is
under the key `EstadoPostulacion`. `UpdatePostulacionEstado` to `PSRV_CTR` returns nil and
the stored object then has the new state under the key `estado_postulacion`, next to the
former `EstadoPostulacion`; `GetPostulacionByID` reads the field tagged
`EstadoPostulacion` and returns the application still in `PSPO_CTR`. -/
theorem UpdatePostulacionEstado_escribe_otra_clave :
    UpdatePostulacionEstadoJson unicodeSimple false almacenEjemplo 1 "PSRV_CTR"
        "2024-05-01T00:00:00Z" =
      (.ok (),
        [(1, [("EstadoPostulacion", .str "PSPO_CTR"), ("EstudianteId", .num 10),
              ("Id", .num 1), ("OfertaPasantiaId", .campo "Id" (.num 5) .vacio),
              ("estado_postulacion", .str "PSRV_CTR"),
              ("fecha_estado", .str "2024-05-01T00:00:00Z")])]) ∧
    GetPostulacionByIDJson unicodeSimple float64Exacto (fun _ => true) false
        (UpdatePostulacionEstadoJson unicodeSimple false almacenEjemplo 1 "PSRV_CTR"
          "2024-05-01T00:00:00Z").2 1 =
      .ok ⟨1, 10, 5, "PSPO_CTR"⟩ ∧
    toUpper unicodeSimple (trimSpace "PSRV_CTR") ≠ "PSPO_CTR" :=
  ⟨rfl, rfl, by decide⟩

end Pasantia
